import Mathlib

/-! Credit account ledger engine.

A shallow embedding of the balance-mutating operations of
`internal/repository/credit_account_repository.go`, of the interest formula
and the credit-request workflow of
`internal/service/credit_account_service.go`, of the transaction service
(`internal/service/transaction_service.go`) and of the updates of accounts and
late-fee rules.

Modelling conventions.

* Money (`float64` in the source) is an exact rational number.
* An instant (`time.Time`) is a number of nanoseconds since
  1970-01-01T00:00:00Z; the server clock is taken to be in UTC, and one call
  of an operation reads the clock once (`now`).
* The relational store is a record of tables, each a list of rows in
  insertion order.  Auto-assigned keys of append-only rows and the
  `gorm.Model` timestamps are storage bookkeeping and are left out; a
  transaction row is found by its position in the table, the order in which
  its key was assigned.
* A unit of work (`db.Transaction`) runs its body on the store and keeps the
  result only when the body returns no error; the commit itself succeeds.
  Requests are served one after the other, so the row lock has no effect.
* Every write of a unit of work may fail: the `k`-th write of a unit fails
  with driver message `e` when the fault oracle maps `k` to `some e`.
-/

namespace ApiRestFinance

/-! ## Time (the parts of Go's `time` package the ledger uses) -/

/-- Instant, in nanoseconds since the Unix epoch, UTC. -/
abbrev Time := Int

/-- Nanoseconds in one hour. -/
def nsPerHour : Int := 3600000000000

/-- Nanoseconds in one day. -/
def nsPerDay : Int := 86400000000000

/-- Gregorian leap-year rule. -/
def isLeap (year : Int) : Bool :=
  year % 4 == 0 && (year % 100 != 0 || year % 400 == 0)

/-- Days from 1970-01-01 to January 1st of `year` (proleptic Gregorian). -/
def daysSinceEpoch (year : Int) : Int :=
  365 * (year - 1970) + ((year - 1) / 4 - 492) - ((year - 1) / 100 - 19)
    + ((year - 1) / 400 - 4)

/-- Days of a non-leap year before month index `m` (0 = January). -/
def daysBefore (m : Int) : Int :=
  if m = 0 then 0 else if m = 1 then 31 else if m = 2 then 59
  else if m = 3 then 90 else if m = 4 then 120 else if m = 5 then 151
  else if m = 6 then 181 else if m = 7 then 212 else if m = 8 then 243
  else if m = 9 then 273 else if m = 10 then 304 else 334

/-- Go's `time.Date(year, month, day, hour, min, sec, nsec, time.UTC)`: the
month overflows into the year, and day and clock values outside their usual
range carry over linearly. -/
def Date (year month day hour min sec nsec : Int) : Time :=
  let y := year + (month - 1) / 12
  let m := (month - 1) % 12
  let d := daysSinceEpoch y + daysBefore m
    + (if isLeap y && decide (2 ≤ m) then 1 else 0) + (day - 1)
  d * nsPerDay + hour * nsPerHour + min * 60000000000 + sec * 1000000000 + nsec

/-- Civil date `(year, month, day)` of a day count since the epoch. -/
def civilFromDays (days : Int) : Int × Int × Int :=
  let z := days + 719468
  let era := z / 146097
  let doe := z - era * 146097
  let yoe := (doe - doe / 1460 + doe / 36524 - doe / 146096) / 365
  let doy := doe - (365 * yoe + yoe / 4 - yoe / 100)
  let mp := (5 * doy + 2) / 153
  let d := doy - (153 * mp + 2) / 5 + 1
  let m := if mp < 10 then mp + 3 else mp - 9
  let y := yoe + era * 400 + (if m ≤ 2 then 1 else 0)
  (y, m, d)

/-- Go's `t.Year()`. -/
def Year (t : Time) : Int := (civilFromDays (t / nsPerDay)).1

/-- Go's `t.Month()`, January = 1. -/
def Month (t : Time) : Int := (civilFromDays (t / nsPerDay)).2.1

/-- Go's `t.Day()`. -/
def Day (t : Time) : Int := (civilFromDays (t / nsPerDay)).2.2

/-- Go's `t.AddDate(years, months, days)`: the civil date is shifted and
normalised by `Date`, the time of day is kept. -/
def AddDate (t : Time) (years months days : Int) : Time :=
  Date (Year t + years) (Month t + months) (Day t + days) 0 0 0 (t % nsPerDay)

/-- Go's `t.Before(u)`. -/
def Before (t u : Time) : Bool := decide (t < u)

/-- Go's `t.Sub(u)`, a duration in nanoseconds. -/
def Sub (t u : Time) : Int := t - u

/-! ## Enumerations (`internal/model/entities/enums`) -/

/-- String-typed enumeration `enums.CreditType`. -/
abbrev CreditType := String
/-- Constant `enums.ShortTerm`. -/
def ShortTerm : CreditType := "SHORT_TERM"
/-- Constant `enums.LongTerm`. -/
def LongTerm : CreditType := "LONG_TERM"

/-- String-typed enumeration `enums.InterestType`. -/
abbrev InterestType := String
/-- Modelled from the spec: the declaration of `enums.Nominal` is not among the
sources; the spec names the two interest types Nominal and Effective. -/
def Nominal : InterestType := "NOMINAL"
/-- Modelled from the spec: the declaration of `enums.Effective` is not among
the sources; the spec names the two interest types Nominal and Effective. -/
def Effective : InterestType := "EFFECTIVE"

/-- String-typed enumeration `enums.FeeType`. -/
abbrev FeeType := String
/-- Constant `enums.Percentage`. -/
def Percentage : FeeType := "PERCENTAGE"
/-- Constant `enums.FixedAmount`. -/
def FixedAmount : FeeType := "FIXED_AMOUNT"

/-- String-typed enumeration `enums.InstallmentStatus`. -/
abbrev InstallmentStatus := String
/-- Constant `enums.Pending` (installments). -/
def Pending : InstallmentStatus := "PENDING"
/-- Constant `enums.Paid`. -/
def Paid : InstallmentStatus := "PAID"
/-- Constant `enums.Overdue`. -/
def Overdue : InstallmentStatus := "OVERDUE"

/-- String-typed enumeration `enums.RecipientType`. -/
abbrev RecipientType := String
/-- Constant `enums.RolClient`. -/
def RolClient : RecipientType := "CLIENT"
/-- Constant `enums.RolEstablishment`. -/
def RolEstablishment : RecipientType := "ESTABLISHMENT"
/-- Constant `enums.RolAdmin`. -/
def RolAdmin : RecipientType := "ADMIN"

/-- String-typed enumeration `enums.TransactionType`. -/
abbrev TransactionType := String
/-- Constant `enums.Purchase`. -/
def Purchase : TransactionType := "PURCHASE"
/-- Constant `enums.Payment`. -/
def Payment : TransactionType := "PAYMENT"
/-- Constant `enums.InterestAccrual`. -/
def InterestAccrual : TransactionType := "INTEREST_ACCRUAL"
/-- Constant `enums.LateFeeApplied`. -/
def LateFeeApplied : TransactionType := "LATE_FEE_APPLIED"

/-- String-typed enumeration `entities.CreditRequestStatus`. -/
abbrev CreditRequestStatus := String
/-- Constant `entities.Pending` (credit requests). -/
def entities.Pending : CreditRequestStatus := "PENDING"
/-- Constant `entities.Approved`. -/
def entities.Approved : CreditRequestStatus := "APPROVED"
/-- Constant `entities.Rejected`. -/
def entities.Rejected : CreditRequestStatus := "REJECTED"

/-- Transaction type `EarlyPayment`. -/
def EarlyPayment : TransactionType := "EARLY_PAYMENT"

/-! ## Entities (`internal/model/entities`) -/

/-- Row of `entities.CreditAccount` (columns only; associations are looked up
in the store). -/
structure CreditAccount where
  ID : Nat
  EstablishmentID : Nat
  ClientID : Nat
  CreditLimit : ℚ
  MonthlyDueDate : Int
  InterestRate : ℚ
  InterestType : InterestType
  CreditType : CreditType
  GracePeriod : Int
  IsBlocked : Bool
  LastInterestAccrualDate : Time
  CurrentBalance : ℚ
  LateFeeRuleID : Nat
  deriving DecidableEq, Repr

/-- Row of `entities.Transaction`. -/
structure Transaction where
  CreditAccountID : Nat
  RecipientType : RecipientType
  RecipientID : Nat
  TransactionType : TransactionType
  Amount : ℚ
  Description : String
  TransactionDate : Time
  deriving DecidableEq, Repr

/-- Row of `entities.CreditAccountHistory`. -/
structure CreditAccountHistory where
  CreditAccountID : Nat
  TransactionDate : Time
  TransactionType : TransactionType
  Amount : ℚ
  Balance : ℚ
  Description : String
  deriving DecidableEq, Repr

/-- Row of `entities.LateFee`. -/
structure LateFee where
  CreditAccountID : Nat
  Amount : ℚ
  AppliedDate : Time
  deriving DecidableEq, Repr

/-- Row of `entities.LateFeeRule`. -/
structure LateFeeRule where
  ID : Nat
  EstablishmentID : Nat
  Name : String
  DaysOverdueMin : Int
  DaysOverdueMax : Int
  FeeType : FeeType
  FeeValue : ℚ
  deriving DecidableEq, Repr

/-- Row of `entities.Installment`. -/
structure Installment where
  ID : Nat
  CreditAccountID : Nat
  DueDate : Time
  Amount : ℚ
  Status : InstallmentStatus
  deriving DecidableEq, Repr

/-- Row of `entities.Establishment` (the columns the ledger reads). -/
structure Establishment where
  ID : Nat
  LateFeeRuleID : Nat
  deriving DecidableEq, Repr

/-- Row of `entities.Admin` (the columns the workflow reads). -/
structure Admin where
  ID : Nat
  UserID : Nat
  EstablishmentID : Nat
  deriving DecidableEq, Repr

/-- Row of `entities.CreditRequest`; the optional timestamps are the pointers
`ApprovedAt` and `RejectedAt`. -/
structure CreditRequest where
  ID : Nat
  ClientID : Nat
  EstablishmentID : Nat
  RequestedCreditLimit : ℚ
  MonthlyDueDate : Int
  InterestType : InterestType
  InterestRate : ℚ
  CreditType : CreditType
  GracePeriod : Int
  Status : CreditRequestStatus
  ApprovedAt : Option Time
  RejectedAt : Option Time
  deriving DecidableEq, Repr

/-- Row of `entities.Client` (the columns the ledger reads). -/
structure Client where
  ID : Nat
  UserID : Nat
  deriving DecidableEq, Repr

/-! ## The store and its unit of work -/

/-- The relational store: one list of rows per table. -/
structure Store where
  creditAccounts : List CreditAccount := []
  transactions : List Transaction := []
  creditAccountHistories : List CreditAccountHistory := []
  lateFees : List LateFee := []
  lateFeeRules : List LateFeeRule := []
  establishments : List Establishment := []
  installments : List Installment := []
  creditRequests : List CreditRequest := []
  admins : List Admin := []
  clients : List Client := []
  deriving DecidableEq, Repr

/-- Fault oracle of a unit of work: the driver error of its `k`-th write, if
that write fails. -/
abbrev Faults := Nat → Option String

/-- No write fails. -/
def noFaults : Faults := fun _ => none

/-- Outcome of a repository call: the returned `error` (`none` is `nil`) and
the store after the call. -/
structure Outcome where
  err : Option String
  store : Store
  deriving DecidableEq, Repr

/-- The call `db.Transaction(fc)`: commit what `fc` wrote when it returns nil,
roll everything back when it returns an error. -/
def Store.DBTransaction (s : Store) (fc : Store → Except String Store) : Outcome :=
  match fc s with
  | .ok tx => { err := none, store := tx }
  | .error e => { err := some e, store := s }

/-- The query `First(&creditAccount, id)`: the account row with that key. -/
def Store.First (s : Store) (id : Nat) : Option CreditAccount :=
  s.creditAccounts.find? (fun a => a.ID == id)

/-- Message of `gorm.ErrRecordNotFound`. -/
def ErrRecordNotFound : String := "record not found"

/-- The write `Create(&transaction)`. -/
def Store.CreateTransaction (tx : Store) (fault : Option String) (t : Transaction) :
    Except String Store :=
  match fault with
  | some e => .error e
  | none => .ok { tx with transactions := tx.transactions ++ [t] }

/-- The write `Create(&historyEntry)`. -/
def Store.CreateHistory (tx : Store) (fault : Option String) (h : CreditAccountHistory) :
    Except String Store :=
  match fault with
  | some e => .error e
  | none => .ok { tx with creditAccountHistories := tx.creditAccountHistories ++ [h] }

/-- The write `Create(&lateFee)`. -/
def Store.CreateLateFee (tx : Store) (fault : Option String) (f : LateFee) :
    Except String Store :=
  match fault with
  | some e => .error e
  | none => .ok { tx with lateFees := tx.lateFees ++ [f] }

/-- The write `Save(&creditAccount)`: every column of the row with the
account's key takes the value held in memory. -/
def Store.SaveCreditAccount (tx : Store) (fault : Option String) (a : CreditAccount) :
    Except String Store :=
  match fault with
  | some e => .error e
  | none =>
    .ok { tx with creditAccounts := tx.creditAccounts.map (fun x => if x.ID == a.ID then a else x) }

/-! ## Purchases and payments (`credit_account_repository.go`) -/

/-- Repository method `ProcessPurchase`. -/
def ProcessPurchase (w : Faults) (now : Time) (creditAccountID : Nat) (amount : ℚ)
    (description : String) (db : Store) : Outcome :=
  db.DBTransaction fun tx =>
    -- 1. Retrieve the credit account
    match tx.First creditAccountID with
    | none => .error ("error retrieving credit account for purchase: " ++ ErrRecordNotFound)
    | some creditAccount =>
      -- 2. Check if the account is blocked
      if creditAccount.IsBlocked then
        .error "credit account is blocked, cannot process purchase"
      -- 3. Check if the purchase exceeds the credit limit
      else if creditAccount.CurrentBalance + amount > creditAccount.CreditLimit then
        .error "purchase exceeds credit limit"
      else
        -- 4. Create the purchase transaction
        let transaction : Transaction :=
          { CreditAccountID := creditAccountID
            RecipientType := RolClient
            RecipientID := creditAccount.ClientID
            TransactionType := Purchase
            Amount := amount
            Description := description
            TransactionDate := now }
        match tx.CreateTransaction (w 0) transaction with
        | .error e => .error ("error creating purchase transaction: " ++ e)
        | .ok tx1 =>
          -- 5. Update the credit account balance
          let creditAccount1 : CreditAccount :=
            { creditAccount with CurrentBalance := creditAccount.CurrentBalance + amount }
          match tx1.SaveCreditAccount (w 1) creditAccount1 with
          | .error e => .error ("error updating credit account balance: " ++ e)
          | .ok tx2 =>
            -- 6. Create a CreditAccountHistory record
            let historyEntry : CreditAccountHistory :=
              { CreditAccountID := creditAccountID
                TransactionDate := now
                TransactionType := Purchase
                Amount := amount
                Balance := creditAccount1.CurrentBalance
                Description := description }
            match tx2.CreateHistory (w 2) historyEntry with
            | .error e => .error ("error creating credit account history: " ++ e)
            | .ok tx3 => .ok tx3

/-- Repository method `ProcessPayment`. -/
def ProcessPayment (w : Faults) (now : Time) (creditAccountID : Nat) (amount : ℚ)
    (description : String) (db : Store) : Outcome :=
  db.DBTransaction fun tx =>
    -- 1. Retrieve the credit account
    match tx.First creditAccountID with
    | none => .error ("error retrieving credit account for payment: " ++ ErrRecordNotFound)
    | some creditAccount =>
      -- 2. Check if payment exceeds current balance
      if amount > creditAccount.CurrentBalance then
        .error "payment amount exceeds current balance"
      else
        -- 3. Create the payment transaction
        let transaction : Transaction :=
          { CreditAccountID := creditAccountID
            RecipientType := RolEstablishment
            RecipientID := creditAccount.EstablishmentID
            TransactionType := Payment
            Amount := amount
            Description := description
            TransactionDate := now }
        match tx.CreateTransaction (w 0) transaction with
        | .error e => .error ("error creating payment transaction: " ++ e)
        | .ok tx1 =>
          -- 4. Update the credit account balance
          let creditAccount1 : CreditAccount :=
            { creditAccount with CurrentBalance := creditAccount.CurrentBalance - amount }
          match tx1.SaveCreditAccount (w 1) creditAccount1 with
          | .error e => .error ("error updating credit account balance: " ++ e)
          | .ok tx2 =>
            -- 5. Create a CreditAccountHistory record
            let historyEntry : CreditAccountHistory :=
              { CreditAccountID := creditAccountID
                TransactionDate := now
                TransactionType := Payment
                Amount := -amount
                Balance := creditAccount1.CurrentBalance
                Description := description }
            match tx2.CreateHistory (w 2) historyEntry with
            | .error e => .error ("error creating credit account history: " ++ e)
            | .ok tx3 =>
              -- 6. Unblock the account if it was blocked and balance is 0 or less
              if creditAccount1.IsBlocked && decide (creditAccount1.CurrentBalance ≤ 0) then
                let creditAccount2 : CreditAccount := { creditAccount1 with IsBlocked := false }
                match tx3.SaveCreditAccount (w 3) creditAccount2 with
                | .error e => .error ("error unblocking credit account: " ++ e)
                | .ok tx4 => .ok tx4
              else .ok tx3

/-! ## Interest accrual (`credit_account_repository.go`) -/

/-- Repository helper `calculateInterest`: the body is the placeholder
`return 0.0`. -/
def calculateInterest (_creditAccount : CreditAccount) : ℚ := 0

/-- Repository method `ApplyInterest`. -/
def ApplyInterest (w : Faults) (now : Time) (creditAccountID : Nat) (db : Store) : Outcome :=
  db.DBTransaction fun tx =>
    -- 1. Retrieve the credit account
    match tx.First creditAccountID with
    | none => .error ("error retrieving credit account: " ++ ErrRecordNotFound)
    | some creditAccount =>
      -- 2. Check if interest needs to be applied
      if creditAccount.CurrentBalance == 0
          || Before now (AddDate creditAccount.LastInterestAccrualDate 0 1 0) then
        .ok tx
      else
        -- 3. Calculate interest
        let interest := calculateInterest creditAccount
        -- 4. Create a transaction for the interest
        let interestTransaction : Transaction :=
          { CreditAccountID := creditAccountID
            RecipientType := RolClient
            RecipientID := creditAccount.ClientID
            TransactionType := InterestAccrual
            Amount := interest
            Description := "Monthly Interest"
            TransactionDate := now }
        match tx.CreateTransaction (w 0) interestTransaction with
        | .error e => .error ("error creating interest transaction: " ++ e)
        | .ok tx1 =>
          -- 5. Update the credit account balance and last interest accrual date
          let creditAccount1 : CreditAccount :=
            { creditAccount with
              CurrentBalance := creditAccount.CurrentBalance + interest
              LastInterestAccrualDate := now }
          match tx1.SaveCreditAccount (w 1) creditAccount1 with
          | .error e => .error ("error updating credit account balance: " ++ e)
          | .ok tx2 =>
            -- 6. Create a credit account history record
            let historyEntry : CreditAccountHistory :=
              { CreditAccountID := creditAccountID
                TransactionDate := now
                TransactionType := InterestAccrual
                Amount := interest
                Balance := creditAccount1.CurrentBalance
                Description := "Monthly Interest Accrued" }
            match tx2.CreateHistory (w 2) historyEntry with
            | .error e => .error ("error creating credit account history record: " ++ e)
            | .ok tx3 => .ok tx3

/-! ## Late fees (`credit_account_repository.go`) -/

/-- Repository helper `calculateDaysOverdue`; the duration is non-negative
where it is divided, so truncation and floor agree. -/
def calculateDaysOverdue (now : Time) (monthlyDueDate : Int) : Int :=
  let today := now
  let dueDate := Date (Year today) (Month today) monthlyDueDate 0 0 0 0
  if Before today dueDate then 0
  else Sub today dueDate / nsPerDay

/-- Repository helper `calculateLateFee`. -/
def calculateLateFee (creditAccount : CreditAccount) (rule : LateFeeRule) (daysOverdue : Int) : ℚ :=
  if daysOverdue < rule.DaysOverdueMin || daysOverdue > rule.DaysOverdueMax then 0
  else if rule.FeeType == Percentage then rule.FeeValue / 100 * creditAccount.CurrentBalance
  else rule.FeeValue

/-- The association `creditAccount.LateFeeRule` as `Preload("LateFeeRule")`
fills it: the rule the account pins, if that row exists. -/
def Store.PreloadLateFeeRule (s : Store) (a : CreditAccount) : Option LateFeeRule :=
  s.lateFeeRules.find? (fun r => r.ID == a.LateFeeRuleID)

/-- The association `creditAccount.Establishment.LateFeeRules` as
`Preload("Establishment.LateFeeRules")` fills it: the rules that reference the
account's establishment, none when the establishment row is missing. -/
def Store.PreloadEstablishmentLateFeeRules (s : Store) (a : CreditAccount) : List LateFeeRule :=
  match s.establishments.find? (fun e => e.ID == a.EstablishmentID) with
  | none => []
  | some e => s.lateFeeRules.filter (fun r => r.EstablishmentID == e.ID)

/-- Step 3 of `ApplyLateFee`: the rule the account pins when that association
is present, else the first rule of the establishment's list whose window
contains `daysOverdue`. -/
def findLateFeeRule (pinned : Option LateFeeRule) (establishmentRules : List LateFeeRule)
    (daysOverdue : Int) : Option LateFeeRule :=
  match pinned with
  | some rule => some rule
  | none =>
    establishmentRules.find? (fun rule =>
      decide (daysOverdue ≥ rule.DaysOverdueMin) && decide (daysOverdue ≤ rule.DaysOverdueMax))

/-- Repository method `ApplyLateFee`. -/
def ApplyLateFee (w : Faults) (now : Time) (creditAccountID : Nat) (db : Store) : Outcome :=
  db.DBTransaction fun tx =>
    -- 1. Retrieve the credit account with LateFeeRule and Establishment
    match tx.First creditAccountID with
    | none => .error ("error retrieving credit account: " ++ ErrRecordNotFound)
    | some creditAccount =>
      -- 2. Calculate the number of days overdue
      let daysOverdue := calculateDaysOverdue now creditAccount.MonthlyDueDate
      if daysOverdue ≤ 0 then .ok tx
      else
        -- 3. Find the applicable late fee rule
        let lateFeeRule := findLateFeeRule (tx.PreloadLateFeeRule creditAccount)
          (tx.PreloadEstablishmentLateFeeRules creditAccount) daysOverdue
        -- 4. Handle case where no applicable LateFeeRule is found
        match lateFeeRule with
        | none => .error "no late fee rule found for this credit account"
        | some rule =>
          -- 5. Calculate the late fee amount
          let lateFeeAmount := calculateLateFee creditAccount rule daysOverdue
          -- 6. Create a late fee record
          let lateFee : LateFee :=
            { CreditAccountID := creditAccountID
              Amount := lateFeeAmount
              AppliedDate := now }
          match tx.CreateLateFee (w 0) lateFee with
          | .error e => .error ("error creating late fee record: " ++ e)
          | .ok tx1 =>
            -- 7. Update the credit account balance
            let creditAccount1 : CreditAccount :=
              { creditAccount with CurrentBalance := creditAccount.CurrentBalance + lateFeeAmount }
            match tx1.SaveCreditAccount (w 1) creditAccount1 with
            | .error e => .error ("error updating credit account balance: " ++ e)
            | .ok tx2 =>
              -- 8. Create a credit account history record
              let historyEntry : CreditAccountHistory :=
                { CreditAccountID := creditAccountID
                  TransactionDate := now
                  TransactionType := LateFeeApplied
                  Amount := lateFeeAmount
                  Balance := creditAccount1.CurrentBalance
                  Description := "Late Payment Fee Applied" }
              match tx2.CreateHistory (w 2) historyEntry with
              | .error e => .error ("error creating credit account history record: " ++ e)
              | .ok tx3 => .ok tx3

/-! ## The interest formula (`credit_account_service.go`) -/

/-- Service helper `daysInMonth`: day zero of the next month is the last day
of this one. -/
def daysInMonth (month year : Int) : ℚ :=
  ((Day (Date year (month + 1) 0 0 0 0 0) : Int) : ℚ)

/-- Installment repository method `GetByCreditAccountID`; `fault` is the
driver error of the query, if it fails. -/
def Store.GetByCreditAccountID (s : Store) (fault : Option String) (creditAccountID : Nat) :
    Except String (List Installment) :=
  match fault with
  | some e => .error e
  | none => .ok (s.installments.filter (fun i => i.CreditAccountID == creditAccountID))

/-- A duration in days, `d.Hours() / 24`, as an exact fraction. -/
def durationDays (d : Int) : ℚ := (d : ℚ) / (nsPerHour : ℚ) / 24

/-- Service method `CalculateInterest`; `pow` stands for `math.Pow`. -/
def CalculateInterest (pow : ℚ → ℚ → ℚ) (readFault : Option String) (now : Time) (db : Store)
    (creditAccount : CreditAccount) : ℚ :=
  let today := now
  if creditAccount.CreditType == ShortTerm then
    -- Calculate the number of days since the last interest accrual
    let daysSinceLastAccrual := durationDays (Sub today creditAccount.LastInterestAccrualDate)
    -- Check if it's time to accrue interest (at least a month has passed)
    if daysSinceLastAccrual ≥ daysInMonth (Month creditAccount.LastInterestAccrualDate)
        (Year creditAccount.LastInterestAccrualDate) then
      if creditAccount.InterestType == Nominal then
        creditAccount.CurrentBalance * (creditAccount.InterestRate / 100)
          * (daysSinceLastAccrual / 365)
      else if creditAccount.InterestType == Effective then
        creditAccount.CurrentBalance
          * (pow (1 + creditAccount.InterestRate / 100) (daysSinceLastAccrual / 365) - 1)
      else 0
    else 0
  else
    match db.GetByCreditAccountID readFault creditAccount.ID with
    | .error _ => 0
    | .ok installments =>
      installments.foldl (fun interest installment =>
        -- Only calculate interest on pending installments
        if installment.Status == Pending then
          let daysUntilDueDate := durationDays (Sub installment.DueDate today)
          if daysUntilDueDate > 0 then
            if creditAccount.InterestType == Nominal then
              interest + installment.Amount * (creditAccount.InterestRate / 100)
                * (daysUntilDueDate / 365)
            else if creditAccount.InterestType == Effective then
              interest + installment.Amount
                * (pow (1 + creditAccount.InterestRate / 100) (daysUntilDueDate / 365) - 1)
            else interest
          else interest
        else interest) 0

/-! ## Batch jobs (`credit_account_service.go`) -/

/-- Repository method `GetByEstablishmentID`: the accounts of an establishment,
in table order; `fault` is the driver error of the query, if it fails. -/
def Store.GetByEstablishmentID (s : Store) (fault : Option String) (establishmentID : Nat) :
    Except String (List CreditAccount) :=
  match fault with
  | some e => .error e
  | none => .ok (s.creditAccounts.filter (fun a => a.EstablishmentID == establishmentID))

/-- Repository method `GetOverdueAccounts`: the accounts of an establishment
whose due day is before today's day of the month and whose balance is
positive. -/
def Store.GetOverdueAccounts (s : Store) (fault : Option String) (now : Time)
    (establishmentID : Nat) : Except String (List CreditAccount) :=
  let today := now
  match fault with
  | some e => .error e
  | none =>
    .ok (s.creditAccounts.filter (fun a =>
      a.EstablishmentID == establishmentID && decide (a.MonthlyDueDate < Day today)
        && decide (a.CurrentBalance > 0)))

/-- The loop of both batch methods: apply `step` to each account in order and
return at the first error, wrapped with the account's key. -/
def batchLoop (step : Nat → Store → Outcome) (label : String) :
    List CreditAccount → Store → Outcome
  | [], db => { err := none, store := db }
  | account :: rest, db =>
    match (step account.ID db).err with
    | some e =>
      { err := some (label ++ toString account.ID ++ ": " ++ e)
        store := (step account.ID db).store }
    | none => batchLoop step label rest (step account.ID db).store

/-- Service method `ApplyInterestToAllAccounts`; the unit of work of account
`k` runs under the fault oracle `w k`. -/
def ApplyInterestToAllAccounts (readFault : Option String) (w : Nat → Faults) (now : Time)
    (establishmentID : Nat) (db : Store) : Outcome :=
  match db.GetByEstablishmentID readFault establishmentID with
  | .error e => { err := some ("error retrieving credit accounts: " ++ e), store := db }
  | .ok creditAccounts =>
    batchLoop (fun k tx => ApplyInterest (w k) now k tx) "error applying interest to account "
      creditAccounts db

/-- Service method `ApplyLateFeesToAllAccounts`; the unit of work of account
`k` runs under the fault oracle `w k`. -/
def ApplyLateFeesToAllAccounts (readFault : Option String) (w : Nat → Faults) (now : Time)
    (establishmentID : Nat) (db : Store) : Outcome :=
  match db.GetOverdueAccounts readFault now establishmentID with
  | .error e => { err := some ("error retrieving overdue accounts: " ++ e), store := db }
  | .ok overdueAccounts =>
    batchLoop (fun k tx => ApplyLateFee (w k) now k tx) "error applying late fee to account "
      overdueAccounts db

/-! ## Credit requests (`credit_account_service.go`, `credit_account_repository.go`) -/

/-- A Go call either returns or stops with a runtime error (the dereference of
a nil pointer); nothing is written before the places where that can happen. -/
inductive Call (α : Type) where
  | returned (a : α)
  | nilDereference

/-- Request body `request.CreateCreditRequest`. -/
structure request.CreateCreditRequest where
  ClientID : Nat
  EstablishmentID : Nat
  RequestedCreditLimit : ℚ
  MonthlyDueDate : Int
  InterestRate : ℚ
  InterestType : InterestType
  CreditType : CreditType
  GracePeriod : Int
  deriving DecidableEq, Repr

/-- Response body `response.CreditRequestResponse` (without the `gorm.Model`
timestamps). -/
structure response.CreditRequestResponse where
  ID : Nat
  ClientID : Nat
  EstablishmentID : Nat
  RequestedCreditLimit : ℚ
  MonthlyDueDate : Int
  InterestType : InterestType
  CreditType : CreditType
  GracePeriod : Int
  Status : CreditRequestStatus
  ApprovedAt : Option Time
  RejectedAt : Option Time
  deriving DecidableEq, Repr

/-- Service helper `getCreditRequestResponse`. -/
def getCreditRequestResponse (creditRequest : CreditRequest) : response.CreditRequestResponse :=
  { ID := creditRequest.ID
    ClientID := creditRequest.ClientID
    EstablishmentID := creditRequest.EstablishmentID
    RequestedCreditLimit := creditRequest.RequestedCreditLimit
    MonthlyDueDate := creditRequest.MonthlyDueDate
    InterestType := creditRequest.InterestType
    CreditType := creditRequest.CreditType
    GracePeriod := creditRequest.GracePeriod
    Status := creditRequest.Status
    ApprovedAt := creditRequest.ApprovedAt
    RejectedAt := creditRequest.RejectedAt }

/-- A credit request with the preloaded values the workflow reads: the row,
its establishment (the zero value when none is loaded) and the establishment's
admin (the pointer `Establishment.Admin`, nil when there is none). -/
structure LoadedCreditRequest where
  request : CreditRequest
  Establishment : Establishment
  Admin : Option Admin
  deriving DecidableEq, Repr

/-- Repository method `ExistsByClientAndEstablishment`; `fault` is the driver
error of the count query, if it fails. -/
def Store.ExistsByClientAndEstablishment (s : Store) (fault : Option String)
    (clientID establishmentID : Nat) : Except String Bool :=
  match fault with
  | some e => .error ("error checking for existing credit account: " ++ e)
  | none =>
    .ok (decide ((s.creditAccounts.filter (fun a =>
      a.ClientID == clientID && a.EstablishmentID == establishmentID)).length > 0))

/-- Key the store assigns to the next credit account: above every key in use. -/
def Store.nextCreditAccountID (s : Store) : Nat :=
  (s.creditAccounts.map (fun a => a.ID)).foldr max 0 + 1

/-- Key the store assigns to the next credit request: above every key in use. -/
def Store.nextCreditRequestID (s : Store) : Nat :=
  (s.creditRequests.map (fun r => r.ID)).foldr max 0 + 1

/-- The write `Create(&creditAccount)`: the row is appended under the key the
store assigns. -/
def Store.CreateCreditAccount (tx : Store) (fault : Option String) (a : CreditAccount) :
    Except String Store :=
  match fault with
  | some e => .error e
  | none =>
    .ok { tx with creditAccounts := tx.creditAccounts ++ [{ a with ID := tx.nextCreditAccountID }] }

/-- Repository method `CreateCreditRequest`: the row is appended under the key
the store assigns; the row as stored is returned with the store. -/
def Store.CreateCreditRequest (s : Store) (fault : Option String) (r : CreditRequest) :
    Except String (CreditRequest × Store) :=
  match fault with
  | some e => .error e
  | none =>
    .ok ({ r with ID := s.nextCreditRequestID },
      { s with creditRequests := s.creditRequests ++ [{ r with ID := s.nextCreditRequestID }] })

/-- Repository method `UpdateCreditRequest`, the write `Save(creditRequest)`:
every column of the row with the request's key takes the value held in
memory. -/
def Store.UpdateCreditRequest (tx : Store) (fault : Option String) (r : CreditRequest) :
    Except String Store :=
  match fault with
  | some e => .error e
  | none =>
    .ok { tx with creditRequests := tx.creditRequests.map (fun x => if x.ID == r.ID then r else x) }

/-- Message of `gorm.ErrUnsupportedRelation`. -/
def ErrUnsupportedRelation : String := "unsupported relations"

/-- Repository method `GetCreditRequestByID`; `fault` is the driver error of
the query, if it fails.  The query names the preloads
`Establishment.Admin.User` and `Establishment.LateFeeRule`.  The Establishment
entity declares the column `LateFeeRuleID` and the list `LateFeeRules`, but no
relation `LateFeeRule`: once the row is found and its establishment key is
set, the preload of the establishment stops with
`gorm.ErrUnsupportedRelation`, and `First` returns that error.  A row whose
establishment key is 0 has nothing to preload and is returned with the zero
Establishment, whose `Admin` pointer is nil. -/
def Store.GetCreditRequestByID (s : Store) (fault : Option String) (id : Nat) :
    Except String LoadedCreditRequest :=
  match fault with
  | some e => .error e
  | none =>
    match s.creditRequests.find? (fun r => r.ID == id) with
    | none => .error ErrRecordNotFound
    | some r =>
      if r.EstablishmentID != 0 then
        .error ("LateFeeRule: " ++ ErrUnsupportedRelation ++ " for schema Establishment")
      else
        .ok { request := r, Establishment := { ID := 0, LateFeeRuleID := 0 }, Admin := none }

/-- Result of a call that returns an account: the returned
`*response.CreditAccountResponse` (`none` is nil), the returned `error` and the
store after the call. -/
structure ApproveOutcome where
  response : Option CreditAccount
  err : Option String
  store : Store
  deriving DecidableEq, Repr

/-- Result of the service method `CreateCreditRequest`. -/
structure CreateRequestOutcome where
  response : Option response.CreditRequestResponse
  err : Option String
  store : Store
  deriving DecidableEq, Repr

/-- Repository method `ApproveCreditRequest`.  The variable
`creditAccountResponse` is declared and returned but never assigned. -/
def Store.ApproveCreditRequest (db : Store) (w : Faults) (now : Time)
    (creditRequest : LoadedCreditRequest) : ApproveOutcome :=
  let creditAccountResponse : Option CreditAccount := none
  let r := db.DBTransaction fun tx =>
    -- 1. Create the CreditAccount entity from the request
    let creditAccount : CreditAccount :=
      { ID := 0
        EstablishmentID := creditRequest.request.EstablishmentID
        ClientID := creditRequest.request.ClientID
        CreditLimit := creditRequest.request.RequestedCreditLimit
        MonthlyDueDate := creditRequest.request.MonthlyDueDate
        InterestRate := creditRequest.request.InterestRate
        InterestType := creditRequest.request.InterestType
        CreditType := creditRequest.request.CreditType
        GracePeriod := creditRequest.request.GracePeriod
        IsBlocked := false
        LastInterestAccrualDate := now
        CurrentBalance := 0
        LateFeeRuleID := creditRequest.Establishment.LateFeeRuleID }
    -- 2. Save the credit account
    match tx.CreateCreditAccount (w 0) creditAccount with
    | .error e => .error ("error creating credit account: " ++ e)
    | .ok tx1 =>
      -- 3. Update the credit request status
      let creditRequest1 : CreditRequest :=
        { creditRequest.request with Status := entities.Approved, ApprovedAt := some now }
      match tx1.UpdateCreditRequest (w 1) creditRequest1 with
      | .error e => .error ("error updating credit request status: " ++ e)
      | .ok tx2 => .ok tx2
  match r.err with
  | some e => { response := none, err := some e, store := r.store }
  | none => { response := creditAccountResponse, err := none, store := r.store }

/-- Service method `CreateCreditRequest`. -/
def CreateCreditRequest (readFault : Option String) (w : Faults)
    (req : request.CreateCreditRequest) (db : Store) : CreateRequestOutcome :=
  -- 1. Check if a credit account already exists for the client and establishment
  match db.ExistsByClientAndEstablishment readFault req.ClientID req.EstablishmentID with
  | .error e =>
    { response := none, err := some ("error checking for existing credit account: " ++ e)
      store := db }
  | .ok true =>
    { response := none
      err := some "a credit account already exists for this client and establishment"
      store := db }
  | .ok false =>
    -- 2. Create the credit request
    let creditRequest : CreditRequest :=
      { ID := 0
        ClientID := req.ClientID
        EstablishmentID := req.EstablishmentID
        RequestedCreditLimit := req.RequestedCreditLimit
        MonthlyDueDate := req.MonthlyDueDate
        InterestType := req.InterestType
        InterestRate := 0
        CreditType := req.CreditType
        GracePeriod := req.GracePeriod
        Status := entities.Pending
        ApprovedAt := none
        RejectedAt := none }
    match db.CreateCreditRequest (w 0) creditRequest with
    | .error e =>
      { response := none, err := some ("error creating credit request: " ++ e), store := db }
    | .ok (stored, db1) =>
      -- 3. Map creditRequest to CreditRequestResponse and return
      { response := some (getCreditRequestResponse stored), err := none, store := db1 }

/-- Service method `ApproveCreditRequest`. -/
def ApproveCreditRequest (readFault : Option String) (w : Faults) (now : Time)
    (creditRequestID adminID : Nat) (db : Store) : Call ApproveOutcome :=
  -- 1. Retrieve the credit request using the repository
  match db.GetCreditRequestByID readFault creditRequestID with
  | .error e =>
    .returned { response := none, err := some ("error retrieving credit request: " ++ e)
                store := db }
  | .ok creditRequest =>
    -- 2. Check if the admin belongs to the establishment
    match creditRequest.Admin with
    | none => .nilDereference
    | some admin =>
      if admin.UserID != adminID then
        .returned { response := none
                    err := some "admin does not have permission to approve this request"
                    store := db }
      -- 3. Check if the request is already approved or rejected
      else if creditRequest.request.Status != entities.Pending then
        .returned { response := none
                    err := some ("credit request is already " ++ creditRequest.request.Status)
                    store := db }
      else
        -- 4. Approve the credit request in the repository
        let r := db.ApproveCreditRequest w now creditRequest
        match r.err with
        | some e =>
          .returned { response := none, err := some ("error approving credit request: " ++ e)
                      store := r.store }
        | none => .returned { response := r.response, err := none, store := r.store }

/-- Service method `RejectCreditRequest`. -/
def RejectCreditRequest (readFault : Option String) (w : Faults) (now : Time)
    (creditRequestID adminID : Nat) (db : Store) : Call Outcome :=
  -- 1. Retrieve the credit request
  match db.GetCreditRequestByID readFault creditRequestID with
  | .error e => .returned { err := some ("error retrieving credit request: " ++ e), store := db }
  | .ok creditRequest =>
    -- 2. Check if the admin belongs to the establishment
    match creditRequest.Admin with
    | none => .nilDereference
    | some admin =>
      if admin.UserID != adminID then
        .returned { err := some "admin does not have permission to reject this request"
                    store := db }
      -- 3. Check if the request is already approved or rejected
      else if creditRequest.request.Status != entities.Pending then
        .returned { err := some ("credit request is already " ++ creditRequest.request.Status)
                    store := db }
      else
        -- 4. Update the credit request status
        let creditRequest1 : CreditRequest :=
          { creditRequest.request with Status := entities.Rejected, RejectedAt := some now }
        -- 5. Use the repository method to update the request
        match db.UpdateCreditRequest (w 0) creditRequest1 with
        | .error e =>
          .returned { err := some ("error updating credit request status: " ++ e), store := db }
        | .ok db1 => .returned { err := none, store := db1 }

/-! ## Updates of accounts and rules (`credit_account_repository.go`, `late_fee_rule_repository.go`) -/

/-- Request body `request.UpdateCreditAccountRequest`; a field that is not
given holds Go's zero value. -/
structure request.UpdateCreditAccountRequest where
  CreditLimit : ℚ := 0
  MonthlyDueDate : Int := 0
  InterestRate : ℚ := 0
  InterestType : InterestType := ""
  CreditType : CreditType := ""
  GracePeriod : Int := 0
  IsBlocked : Bool := false
  LateFeeRuleID : Nat := 0
  CurrentBalance : ℚ := 0
  deriving DecidableEq, Repr

/-- Credit account repository method `GetByID`; `fault` is the error of the
query, if it fails. -/
def CreditAccountRepository.GetByID (db : Store) (fault : Option String) (id : Nat) :
    Except String CreditAccount :=
  match fault with
  | some e => .error e
  | none =>
    match db.First id with
    | none => .error ErrRecordNotFound
    | some creditAccount => .ok creditAccount

/-- Credit account repository method `Update`: the row is read, fields of the
request are copied onto it, and it is saved.  The saved row is returned with
the store. -/
def CreditAccountRepository.Update (db : Store) (readFault writeFault : Option String)
    (id : Nat) (req : request.UpdateCreditAccountRequest) :
    Except String (CreditAccount × Store) :=
  match readFault with
  | some e => .error e
  | none =>
    match db.First id with
    | none => .error ErrRecordNotFound
    | some creditAccount =>
      -- Update fields only if they are provided in the request
      let creditAccount :=
        if req.CreditLimit > 0 then { creditAccount with CreditLimit := req.CreditLimit }
        else creditAccount
      let creditAccount :=
        if req.MonthlyDueDate > 0 then { creditAccount with MonthlyDueDate := req.MonthlyDueDate }
        else creditAccount
      let creditAccount :=
        if req.InterestRate > 0 then { creditAccount with InterestRate := req.InterestRate }
        else creditAccount
      let creditAccount :=
        if req.InterestType != "" then { creditAccount with InterestType := req.InterestType }
        else creditAccount
      let creditAccount :=
        if req.CreditType != "" then { creditAccount with CreditType := req.CreditType }
        else creditAccount
      let creditAccount :=
        if req.GracePeriod ≥ 0 then { creditAccount with GracePeriod := req.GracePeriod }
        else creditAccount
      let creditAccount := { creditAccount with IsBlocked := req.IsBlocked }
      match db.SaveCreditAccount writeFault creditAccount with
      | .error e => .error e
      | .ok db1 => .ok (creditAccount, db1)

/-- Request body `request.UpdateLateFeeRuleRequest`; a field that is not given
holds Go's zero value. -/
structure request.UpdateLateFeeRuleRequest where
  Name : String := ""
  DaysOverdueMin : Int := 0
  DaysOverdueMax : Int := 0
  FeeType : FeeType := ""
  FeeValue : ℚ := 0
  deriving DecidableEq, Repr

/-- The `binding` tags of `request.UpdateLateFeeRuleRequest`: `omitempty`
skips a field that holds the zero value; otherwise `min=1` on DaysOverdueMin,
`gtfield=DaysOverdueMin` on DaysOverdueMax (compared with the request's own
DaysOverdueMin) and `gt=0` on FeeValue. -/
def request.UpdateLateFeeRuleRequest.Valid (req : request.UpdateLateFeeRuleRequest) : Prop :=
  (req.DaysOverdueMin = 0 ∨ 1 ≤ req.DaysOverdueMin) ∧
  (req.DaysOverdueMax = 0 ∨ req.DaysOverdueMin < req.DaysOverdueMax) ∧
  (req.FeeValue = 0 ∨ 0 < req.FeeValue)

/-- The write `Save(&lateFeeRule)`: every column of the row with that key takes
the value held in memory. -/
def Store.SaveLateFeeRule (tx : Store) (fault : Option String) (rule : LateFeeRule) :
    Except String Store :=
  match fault with
  | some e => .error e
  | none =>
    .ok { tx with lateFeeRules := tx.lateFeeRules.map (fun x => if x.ID == rule.ID then rule else x) }

/-- Late-fee rule repository method `Update`.  The saved rule is returned with
the store. -/
def LateFeeRuleRepository.Update (db : Store) (readFault writeFault : Option String)
    (id : Nat) (req : request.UpdateLateFeeRuleRequest) :
    Except String (LateFeeRule × Store) :=
  match readFault with
  | some e => .error e
  | none =>
    match db.lateFeeRules.find? (fun x => x.ID == id) with
    | none => .error ErrRecordNotFound
    | some lateFeeRule =>
      let lateFeeRule :=
        if req.Name != "" then { lateFeeRule with Name := req.Name } else lateFeeRule
      let lateFeeRule :=
        if req.DaysOverdueMin != 0 then { lateFeeRule with DaysOverdueMin := req.DaysOverdueMin }
        else lateFeeRule
      let lateFeeRule :=
        if req.DaysOverdueMax != 0 then { lateFeeRule with DaysOverdueMax := req.DaysOverdueMax }
        else lateFeeRule
      let lateFeeRule :=
        if req.FeeType != "" then { lateFeeRule with FeeType := req.FeeType } else lateFeeRule
      let lateFeeRule :=
        if req.FeeValue != 0 then { lateFeeRule with FeeValue := req.FeeValue } else lateFeeRule
      match db.SaveLateFeeRule writeFault lateFeeRule with
      | .error e => .error e
      | .ok db1 => .ok (lateFeeRule, db1)

/-! ## The transaction service (`transaction_service.go`, `transaction_repository.go`) -/

/-- Request body `request.CreateTransactionRequest`. -/
structure request.CreateTransactionRequest where
  CreditAccountID : Nat
  TransactionType : TransactionType
  Amount : ℚ
  Description : String := ""
  RecipientType : RecipientType
  RecipientID : Nat
  deriving DecidableEq, Repr

/-- Request body `request.UpdateTransactionRequest`; a field that is not given
holds Go's zero value. -/
structure request.UpdateTransactionRequest where
  Amount : ℚ := 0
  Description : String := ""
  TransactionType : TransactionType := ""
  deriving DecidableEq, Repr

/-- Transaction repository method `Create`: the row is built from the request
and the clock reading and appended. -/
def TransactionRepository.Create (db : Store) (fault : Option String) (now : Time)
    (req : request.CreateTransactionRequest) : Except String Store :=
  db.CreateTransaction fault
    { CreditAccountID := req.CreditAccountID
      RecipientType := req.RecipientType
      RecipientID := req.RecipientID
      TransactionType := req.TransactionType
      Amount := req.Amount
      Description := req.Description
      TransactionDate := now }

/-- Transaction repository method `GetByID`.  Keys of the transaction table
are assigned in insertion order: the row with key `id` is the one at position
`id` of the table, counted from 1. -/
def TransactionRepository.GetByID (db : Store) (fault : Option String) (id : Nat) :
    Except String Transaction :=
  match fault with
  | some e => .error e
  | none =>
    if id = 0 then .error ErrRecordNotFound
    else
      match db.transactions[id - 1]? with
      | none => .error ErrRecordNotFound
      | some transaction => .ok transaction

/-- Transaction repository method `Update`: amount and description are
replaced when given; the transaction type of the request is not stored. -/
def TransactionRepository.Update (db : Store) (readFault writeFault : Option String)
    (id : Nat) (req : request.UpdateTransactionRequest) : Except String Store :=
  match TransactionRepository.GetByID db readFault id with
  | .error e => .error e
  | .ok transaction =>
    -- Only update fields if they are provided in the request
    let transaction :=
      if req.Amount > 0 then { transaction with Amount := req.Amount } else transaction
    let transaction :=
      if req.Description != "" then { transaction with Description := req.Description }
      else transaction
    match writeFault with
    | some e => .error e
    | none => .ok { db with transactions := db.transactions.set (id - 1) transaction }

/-- Transaction repository method `Delete`: the row leaves the table. -/
def TransactionRepository.Delete (db : Store) (readFault writeFault : Option String)
    (id : Nat) : Except String Store :=
  match TransactionRepository.GetByID db readFault id with
  | .error e => .error e
  | .ok _ =>
    match writeFault with
    | some e => .error e
    | none => .ok { db with transactions := db.transactions.eraseIdx (id - 1) }

/-- Whether a transaction type adds to the balance. -/
def isCharge (t : TransactionType) : Bool :=
  t == Purchase || t == InterestAccrual || t == LateFeeApplied

/-- Whether a transaction type takes from the balance. -/
def isCredit (t : TransactionType) : Bool :=
  t == Payment || t == EarlyPayment

/-- Service method `TransactionService.CreateTransaction`.  `q` holds the
errors of the queries and `w` those of the writes, in the order they are
issued; nothing is rolled back. -/
def TransactionService.CreateTransaction (q w : Faults) (now : Time)
    (req : request.CreateTransactionRequest) (db : Store) : Outcome :=
  -- Retrieve the credit account to update the balance
  match CreditAccountRepository.GetByID db (q 0) req.CreditAccountID with
  | .error e => { err := some ("error retrieving credit account: " ++ e), store := db }
  | .ok creditAccount =>
    -- Create the transaction record
    match TransactionRepository.Create db (w 0) now req with
    | .error e => { err := some ("error creating transaction: " ++ e), store := db }
    | .ok db1 =>
      -- Update the credit account balance based on transaction type
      if isCharge req.TransactionType || isCredit req.TransactionType then
        let creditAccount : CreditAccount :=
          if isCharge req.TransactionType then
            { creditAccount with CurrentBalance := creditAccount.CurrentBalance + req.Amount }
          else
            { creditAccount with CurrentBalance := creditAccount.CurrentBalance - req.Amount }
        -- Update the credit account in the database
        match CreditAccountRepository.Update db1 (q 1) (w 1) creditAccount.ID
            { CurrentBalance := creditAccount.CurrentBalance } with
        | .error e =>
          { err := some ("error updating credit account balance: " ++ e), store := db1 }
        | .ok (_, db2) => { err := none, store := db2 }
      else
        { err := some ("invalid transaction type: " ++ req.TransactionType), store := db1 }

/-- Service method `TransactionService.UpdateTransaction`. -/
def TransactionService.UpdateTransaction (q w : Faults) (id : Nat)
    (req : request.UpdateTransactionRequest) (db : Store) : Outcome :=
  -- Retrieve the original transaction
  match TransactionRepository.GetByID db (q 0) id with
  | .error e => { err := some ("error retrieving transaction: " ++ e), store := db }
  | .ok originalTransaction =>
    -- Retrieve the credit account to update the balance
    match CreditAccountRepository.GetByID db (q 1) originalTransaction.CreditAccountID with
    | .error e => { err := some ("error retrieving credit account: " ++ e), store := db }
    | .ok creditAccount =>
      -- Adjust the balance based on the original and new transaction amounts
      let creditAccount : CreditAccount :=
        if isCharge originalTransaction.TransactionType then
          { creditAccount with
            CurrentBalance := creditAccount.CurrentBalance - originalTransaction.Amount }
        else if isCredit originalTransaction.TransactionType then
          { creditAccount with
            CurrentBalance := creditAccount.CurrentBalance + originalTransaction.Amount }
        else creditAccount
      let creditAccount : CreditAccount :=
        if req.Amount > 0 then
          if isCharge req.TransactionType then
            { creditAccount with CurrentBalance := creditAccount.CurrentBalance + req.Amount }
          else if isCredit req.TransactionType then
            { creditAccount with CurrentBalance := creditAccount.CurrentBalance - req.Amount }
          else creditAccount
        else creditAccount
      -- Update the transaction
      match TransactionRepository.Update db (q 2) (w 0) id req with
      | .error e => { err := some ("error updating transaction: " ++ e), store := db }
      | .ok db1 =>
        -- Update the credit account balance in the database
        match CreditAccountRepository.Update db1 (q 3) (w 1) creditAccount.ID
            { CurrentBalance := creditAccount.CurrentBalance } with
        | .error e =>
          { err := some ("error updating credit account balance: " ++ e), store := db1 }
        | .ok (_, db2) => { err := none, store := db2 }

/-- Service method `TransactionService.DeleteTransaction`. -/
def TransactionService.DeleteTransaction (q w : Faults) (id : Nat) (db : Store) : Outcome :=
  -- Retrieve the transaction to be deleted
  match TransactionRepository.GetByID db (q 0) id with
  | .error e => { err := some ("error retrieving transaction: " ++ e), store := db }
  | .ok transaction =>
    -- Retrieve the credit account to update the balance
    match CreditAccountRepository.GetByID db (q 1) transaction.CreditAccountID with
    | .error e => { err := some ("error retrieving credit account: " ++ e), store := db }
    | .ok creditAccount =>
      -- Adjust the credit account balance based on the deleted transaction
      if isCharge transaction.TransactionType || isCredit transaction.TransactionType then
        let creditAccount : CreditAccount :=
          if isCharge transaction.TransactionType then
            { creditAccount with
              CurrentBalance := creditAccount.CurrentBalance - transaction.Amount }
          else
            { creditAccount with
              CurrentBalance := creditAccount.CurrentBalance + transaction.Amount }
        -- Delete the transaction
        match TransactionRepository.Delete db (q 2) (w 0) id with
        | .error e => { err := some ("error deleting transaction: " ++ e), store := db }
        | .ok db1 =>
          -- Update the credit account balance in the database
          match CreditAccountRepository.Update db1 (q 3) (w 1) creditAccount.ID
              { CurrentBalance := creditAccount.CurrentBalance } with
          | .error e =>
            { err := some ("error updating credit account balance: " ++ e), store := db1 }
          | .ok (_, db2) => { err := none, store := db2 }
      else
        { err := some ("invalid transaction type: " ++ transaction.TransactionType), store := db }

/-! ## Direct creation and assignment of accounts (`credit_account_service.go`) -/

/-- Request body `request.CreateCreditAccountRequest`; the optional fields
hold Go's zero value when they are not given. -/
structure request.CreateCreditAccountRequest where
  EstablishmentID : Nat
  ClientID : Nat
  CreditLimit : ℚ
  MonthlyDueDate : Int
  InterestRate : ℚ
  InterestType : InterestType
  CreditType : CreditType
  GracePeriod : Int := 0
  LateFeeRuleID : Nat := 0
  deriving DecidableEq, Repr

/-- Client repository method `GetClientByID`; `fault` is the error of the
query, if it fails. -/
def ClientRepository.GetClientByID (db : Store) (fault : Option String) (clientID : Nat) :
    Except String Client :=
  match fault with
  | some e => .error e
  | none =>
    match db.clients.find? (fun c => c.ID == clientID) with
    | none => .error ErrRecordNotFound
    | some client => .ok client

/-- Establishment repository method `GetByID`; `fault` is the error of the
query, if it fails. -/
def EstablishmentRepository.GetByID (db : Store) (fault : Option String) (id : Nat) :
    Except String Establishment :=
  match fault with
  | some e => .error e
  | none =>
    match db.establishments.find? (fun e => e.ID == id) with
    | none => .error ErrRecordNotFound
    | some establishment => .ok establishment

/-- Service method `CreateCreditAccount`.  `q` holds the errors of the three
queries and `w 0` that of the write.  The two lookups return a value or an
error, never nil without an error, so the nil checks after them are not
reached. -/
def CreateCreditAccount (q w : Faults) (now : Time) (req : request.CreateCreditAccountRequest)
    (db : Store) : ApproveOutcome :=
  -- 1. Check if the client exists
  match ClientRepository.GetClientByID db (q 0) req.ClientID with
  | .error e => { response := none, err := some ("error retrieving client: " ++ e), store := db }
  | .ok _ =>
    -- 2. Check if the establishment exists
    match EstablishmentRepository.GetByID db (q 1) req.EstablishmentID with
    | .error e =>
      { response := none, err := some ("error retrieving establishment: " ++ e), store := db }
    | .ok _ =>
      -- 3. Check if a credit account already exists for this client and establishment
      match db.ExistsByClientAndEstablishment (q 2) req.ClientID req.EstablishmentID with
      | .error e =>
        { response := none, err := some ("error checking for existing credit account: " ++ e)
          store := db }
      | .ok true =>
        { response := none
          err := some "a credit account already exists for this client and establishment"
          store := db }
      | .ok false =>
        -- 4. Create the credit account
        let creditAccount : CreditAccount :=
          { ID := 0
            EstablishmentID := req.EstablishmentID
            ClientID := req.ClientID
            CreditLimit := req.CreditLimit
            MonthlyDueDate := req.MonthlyDueDate
            InterestRate := req.InterestRate
            InterestType := req.InterestType
            CreditType := req.CreditType
            GracePeriod := req.GracePeriod
            IsBlocked := false
            LastInterestAccrualDate := now
            CurrentBalance := 0
            LateFeeRuleID := req.LateFeeRuleID }
        -- 5. Create the credit account using the repository
        match db.CreateCreditAccount (w 0) creditAccount with
        | .error e =>
          { response := none, err := some ("error creating credit account: " ++ e), store := db }
        | .ok db1 =>
          { response := some { creditAccount with ID := db.nextCreditAccountID }, err := none
            store := db1 }

/-- Repository method `AssignCreditAccountToClient`. -/
def Store.AssignCreditAccountToClient (db : Store) (w : Faults)
    (creditAccountID clientID : Nat) : Outcome :=
  db.DBTransaction fun tx =>
    match tx.First creditAccountID with
    | none => .error ("error retrieving credit account: " ++ ErrRecordNotFound)
    | some creditAccount =>
      -- Check if the credit account is already assigned to a client
      if creditAccount.ClientID != 0 then
        .error ("credit account is already assigned to client " ++ toString creditAccount.ClientID)
      else
        -- Assign the client to the credit account
        match tx.SaveCreditAccount (w 0) { creditAccount with ClientID := clientID } with
        | .error e => .error ("error assigning credit account to client: " ++ e)
        | .ok tx1 => .ok tx1

/-- Service method `AssignCreditAccountToClient`; `readFault` is the error of
the query that reloads the account, if it fails. -/
def AssignCreditAccountToClient (readFault : Option String) (w : Faults)
    (creditAccountID clientID : Nat) (db : Store) : ApproveOutcome :=
  -- Call the repository method to perform the assignment
  let r := db.AssignCreditAccountToClient w creditAccountID clientID
  match r.err with
  | some e =>
    { response := none, err := some ("error assigning credit account to client: " ++ e)
      store := r.store }
  | none =>
    -- If successful, retrieve the updated credit account and return the response
    match CreditAccountRepository.GetByID r.store readFault creditAccountID with
    | .error e =>
      { response := none, err := some ("error retrieving updated credit account: " ++ e)
        store := r.store }
    | .ok updatedCreditAccount =>
      { response := some updatedCreditAccount, err := none, store := r.store }

/-- No two credit accounts of the store share client and establishment. -/
def Store.UniquePairs (s : Store) : Prop :=
  (s.creditAccounts.map (fun a => (a.ClientID, a.EstablishmentID))).Nodup

instance (s : Store) : Decidable s.UniquePairs := by
  unfold Store.UniquePairs
  exact inferInstance

/-! ## Sequences of ledger requests -/

/-- One ledger request, with the clock reading and the fault oracle of its
unit of work. -/
inductive LedgerOp where
  | purchase (w : Faults) (now : Time) (creditAccountID : Nat) (amount : ℚ) (description : String)
  | payment (w : Faults) (now : Time) (creditAccountID : Nat) (amount : ℚ) (description : String)

/-- Amount of a ledger request. -/
def LedgerOp.amount : LedgerOp → ℚ
  | .purchase _ _ _ amount _ => amount
  | .payment _ _ _ amount _ => amount

/-- Store after serving one ledger request (whether it succeeds or fails). -/
def LedgerOp.run (op : LedgerOp) (db : Store) : Store :=
  match op with
  | .purchase w now id amount description => (ProcessPurchase w now id amount description db).store
  | .payment w now id amount description => (ProcessPayment w now id amount description db).store

/-- Store after serving a list of ledger requests, first to last. -/
def runLedger (ops : List LedgerOp) (db : Store) : Store :=
  ops.foldl (fun s op => op.run s) db

/-- Balance bounds of one account row. -/
def CreditAccount.WithinBounds (a : CreditAccount) : Prop :=
  0 ≤ a.CurrentBalance ∧ a.CurrentBalance ≤ a.CreditLimit

/-- The account row a successful payment leaves behind. -/
def paidAccount (a : CreditAccount) (amount : ℚ) : CreditAccount :=
  { a with
    CurrentBalance := a.CurrentBalance - amount
    IsBlocked := if a.IsBlocked = true ∧ a.CurrentBalance - amount ≤ 0 then false
      else a.IsBlocked }

/-! ## Reference definitions of the interest formula -/

/-- Nominal interest of a short-term account as the spec words it:
balance * (rate/100) * (d/365), with d the days elapsed since the last accrual,
once d reaches the number of days of the month of the last accrual (as
`daysInMonth` gives it), and 0 before. -/
def shortTermNominalInterest (now : Time) (a : CreditAccount) : ℚ :=
  if daysInMonth (Month a.LastInterestAccrualDate) (Year a.LastInterestAccrualDate)
      ≤ durationDays (now - a.LastInterestAccrualDate) then
    a.CurrentBalance * (a.InterestRate / 100)
      * (durationDays (now - a.LastInterestAccrualDate) / 365)
  else 0

/-- Nominal interest of a long-term account as the spec words it: the sum,
over the installments of the account that are Pending and due strictly after
now, of amount * (rate/100) * (days until due / 365). -/
def longTermNominalInterest (now : Time) (installments : List Installment) (id : Nat)
    (rate : ℚ) : ℚ :=
  (((installments.filter (fun i => i.CreditAccountID == id)).filter
      (fun i => i.Status == Pending && decide (now < i.DueDate))).map
    (fun i => i.Amount * (rate / 100) * (durationDays (i.DueDate - now) / 365))).sum

/-! ## Locality of a per-account step -/

/-- Two stores hold the same late-fee rules and establishments. -/
def SameRules (db db1 : Store) : Prop :=
  db.lateFeeRules = db1.lateFeeRules ∧ db.establishments = db1.establishments

/-- A per-account step is local: it leaves the rows of other accounts and the
rule tables alone, rolls back on error, and its verdict and the row it leaves
for its own account depend only on that row and on the rule tables. -/
structure LocalStep (step : Nat → Store → Outcome) : Prop where
  frame : ∀ i j db, j ≠ i → (step i db).store.First j = db.First j
  rollback : ∀ i db, (step i db).err ≠ none → (step i db).store = db
  keep : ∀ i db, SameRules db (step i db).store
  verdict : ∀ i db db1, db.First i = db1.First i → SameRules db db1 →
    ((step i db).err = none ↔ (step i db1).err = none)
  row : ∀ i db db1, db.First i = db1.First i → SameRules db db1 →
    (step i db).store.First i = (step i db1).store.First i

/-! ## Specification predicates -/

/-- The ledger triple of one balance mutation of account `id` between the
stores `db` and `db1`: exactly one Transaction and exactly one history row of
type `ty` are appended for the account, the history row holding the new
balance and the balance change. -/
def WritesTriple (id : Nat) (ty : TransactionType) (db db1 : Store) : Prop :=
  ∃ a a1 t h, db.First id = some a ∧ db1.First id = some a1 ∧
    db1.transactions = db.transactions ++ [t] ∧
    t.CreditAccountID = id ∧ t.TransactionType = ty ∧
    db1.creditAccountHistories = db.creditAccountHistories ++ [h] ∧
    h.CreditAccountID = id ∧ h.TransactionType = ty ∧
    h.Balance = a1.CurrentBalance ∧ h.Amount = a1.CurrentBalance - a.CurrentBalance

/-- The records of one late fee on account `id` between the stores `db` and
`db1`: exactly one LateFee record and exactly one history row of type
LateFeeApplied are appended for the account, both holding the balance change,
the history row holding the new balance; no Transaction is written. -/
def WritesLateFee (id : Nat) (db db1 : Store) : Prop :=
  ∃ a a1 f h, db.First id = some a ∧ db1.First id = some a1 ∧
    db1.lateFees = db.lateFees ++ [f] ∧
    f.CreditAccountID = id ∧ f.Amount = a1.CurrentBalance - a.CurrentBalance ∧
    db1.creditAccountHistories = db.creditAccountHistories ++ [h] ∧
    h.CreditAccountID = id ∧ h.TransactionType = LateFeeApplied ∧
    h.Balance = a1.CurrentBalance ∧ h.Amount = a1.CurrentBalance - a.CurrentBalance ∧
    db1.transactions = db.transactions

/-- The store after a successful approval. -/
def approvedStore (db : Store) (now : Time) (r : CreditRequest) (e : Establishment) : Store :=
  { db with
    creditAccounts := db.creditAccounts ++
      [{ ID := db.nextCreditAccountID
         EstablishmentID := r.EstablishmentID
         ClientID := r.ClientID
         CreditLimit := r.RequestedCreditLimit
         MonthlyDueDate := r.MonthlyDueDate
         InterestRate := r.InterestRate
         InterestType := r.InterestType
         CreditType := r.CreditType
         GracePeriod := r.GracePeriod
         IsBlocked := false
         LastInterestAccrualDate := now
         CurrentBalance := 0
         LateFeeRuleID := e.LateFeeRuleID }]
    creditRequests := db.creditRequests.map (fun x =>
      if x.ID == r.ID then { r with Status := entities.Approved, ApprovedAt := some now } else x) }

/-! ## Sample data -/

/-- A short-term account with limit 1000 and balance 200. -/
def sampleAccount : CreditAccount :=
  { ID := 1, EstablishmentID := 7, ClientID := 3, CreditLimit := 1000, MonthlyDueDate := 5,
    InterestRate := 12, InterestType := Nominal, CreditType := ShortTerm, GracePeriod := 0,
    IsBlocked := false, LastInterestAccrualDate := Date 2024 1 1 0 0 0 0,
    CurrentBalance := 200, LateFeeRuleID := 0 }

/-- A store holding the sample account, its establishment and one percentage
late-fee rule of that establishment. -/
def sampleStore : Store :=
  { creditAccounts := [sampleAccount]
    establishments := [{ ID := 7, LateFeeRuleID := 0 }]
    lateFeeRules :=
      [{ ID := 1, EstablishmentID := 7, Name := "standard", DaysOverdueMin := 1,
         DaysOverdueMax := 30, FeeType := Percentage, FeeValue := 5 }] }

/-- A blocked account that owes 500. -/
def blockedAccount : CreditAccount :=
  { sampleAccount with IsBlocked := true, CurrentBalance := 500 }

/-- A store holding the blocked account. -/
def blockedStore : Store := { creditAccounts := [blockedAccount] }

/-- An account that owes 1000. -/
def owingAccount : CreditAccount := { sampleAccount with CurrentBalance := 1000 }

/-- The sample store with the owing account in place of the sample account. -/
def owingStore : Store := { sampleStore with creditAccounts := [owingAccount] }

/-- A fault oracle whose second write fails. -/
def secondWriteFails : Faults := fun k => if k = 1 then some "connection lost" else none

/-- A freshly created account: balance 0, limit 1000. -/
def freshAccount : CreditAccount := { sampleAccount with CurrentBalance := 0 }

/-- A store holding the fresh account. -/
def freshStore : Store := { creditAccounts := [freshAccount] }

/-- A purchase, a payment and a purchase over the limit, on account 1. -/
def sampleOps : List LedgerOp :=
  [.purchase noFaults 0 1 800 "groceries", .payment noFaults 1 1 300 "cash",
   .purchase secondWriteFails 2 1 900 "tools"]

/-- The fee of a rule whose window is not consulted: a percentage of the
balance for a Percentage rule, the flat value otherwise. -/
def ruleFee (a : CreditAccount) (rule : LateFeeRule) : ℚ :=
  if rule.FeeType = Percentage then rule.FeeValue / 100 * a.CurrentBalance else rule.FeeValue

/-- The standard rule of the sample establishment: 5 percent, days 1 to 30. -/
def standardRule : LateFeeRule :=
  { ID := 1, EstablishmentID := 7, Name := "standard", DaysOverdueMin := 1,
    DaysOverdueMax := 30, FeeType := Percentage, FeeValue := 5 }

/-- A rule of another establishment for the first five days only: 5 percent. -/
def earlyRule : LateFeeRule :=
  { ID := 2, EstablishmentID := 8, Name := "first days", DaysOverdueMin := 1,
    DaysOverdueMax := 5, FeeType := Percentage, FeeValue := 5 }

/-- The owing account pinning the early rule. -/
def pinningAccount : CreditAccount := { owingAccount with LateFeeRuleID := 2 }

/-- A store where the owing account pins the early rule. -/
def pinningStore : Store :=
  { creditAccounts := [pinningAccount]
    establishments := [{ ID := 7, LateFeeRuleID := 0 }]
    lateFeeRules := [standardRule, earlyRule] }

/-- A flat rule of the sample establishment for days 8 to 12. -/
def tightRule : LateFeeRule :=
  { ID := 3, EstablishmentID := 7, Name := "second week", DaysOverdueMin := 8,
    DaysOverdueMax := 12, FeeType := FixedAmount, FeeValue := 20 }

/-- A store where the establishment of the owing account has the standard
rule followed by the tighter flat rule. -/
def overlapStore : Store :=
  { creditAccounts := [owingAccount]
    establishments := [{ ID := 7, LateFeeRuleID := 0 }]
    lateFeeRules := [standardRule, tightRule] }

/-- A store where the establishment of the owing account only has a rule for
the first five days. -/
def narrowStore : Store :=
  { creditAccounts := [owingAccount]
    establishments := [{ ID := 7, LateFeeRuleID := 0 }]
    lateFeeRules := [{ earlyRule with ID := 4, EstablishmentID := 7 }] }

/-- A long-term account with nominal interest, rate 12. -/
def longTermAccount : CreditAccount :=
  { sampleAccount with ID := 2, CreditType := LongTerm, CurrentBalance := 900 }

/-- A store with the long-term account and three of its installments: one
pending and due on 2024-04-01, one paid, one pending but past due. -/
def installmentStore : Store :=
  { creditAccounts := [longTermAccount]
    installments :=
      [{ ID := 1, CreditAccountID := 2, DueDate := Date 2024 4 1 0 0 0 0, Amount := 300,
         Status := Pending },
       { ID := 2, CreditAccountID := 2, DueDate := Date 2024 5 1 0 0 0 0, Amount := 300,
         Status := Paid },
       { ID := 3, CreditAccountID := 2, DueDate := Date 2024 2 1 0 0 0 0, Amount := 300,
         Status := Pending }] }

/-- A second owing account of the sample establishment. -/
def secondAccount : CreditAccount := { owingAccount with ID := 2, ClientID := 4 }

/-- The sample establishment with two owing accounts and its standard rule. -/
def twoAccountStore : Store :=
  { sampleStore with creditAccounts := [owingAccount, secondAccount] }

/-- Fault oracles of a batch in which the units of work of account 1 lose
their second write and those of every other account succeed. -/
def firstAccountFails : Nat → Faults := fun k => if k = 1 then secondWriteFails else noFaults

/-- Fault oracles of a batch in which the units of work of account 2 lose
their second write and those of every other account succeed. -/
def secondAccountFails : Nat → Faults := fun k => if k = 2 then secondWriteFails else noFaults

/-- The admin of the sample establishment, user 11. -/
def sampleAdmin : Admin := { ID := 1, UserID := 11, EstablishmentID := 7 }

/-- A pending request of client 5 at the sample establishment. -/
def pendingRequest : CreditRequest :=
  { ID := 1, ClientID := 5, EstablishmentID := 7, RequestedCreditLimit := 2000,
    MonthlyDueDate := 10, InterestType := Nominal, InterestRate := 12,
    CreditType := ShortTerm, GracePeriod := 1, Status := entities.Pending,
    ApprovedAt := none, RejectedAt := none }

/-- The sample store with the admin of its establishment and the pending
request. -/
def requestStore : Store :=
  { sampleStore with admins := [sampleAdmin], creditRequests := [pendingRequest] }

/-- The sample store with the admin of its establishment and no request. -/
def adminStore : Store := { sampleStore with admins := [sampleAdmin] }

/-- A request body of client 5 for the sample establishment, at 12 percent. -/
def sampleRequestBody : request.CreateCreditRequest :=
  { ClientID := 5, EstablishmentID := 7, RequestedCreditLimit := 2000, MonthlyDueDate := 10,
    InterestRate := 12, InterestType := Nominal, CreditType := ShortTerm, GracePeriod := 1 }

/-- The request store without the admin record of its establishment. -/
def adminlessStore : Store := { sampleStore with creditRequests := [pendingRequest] }

/-- A blocked account with a grace period of 2 days that pins rule 1. -/
def gracedAccount : CreditAccount :=
  { sampleAccount with GracePeriod := 2, IsBlocked := true, LateFeeRuleID := 1 }

/-- A purchase of 50 recorded for account 1. -/
def recordedPurchase : Transaction :=
  { CreditAccountID := 1, RecipientType := RolClient, RecipientID := 3,
    TransactionType := Purchase, Amount := 50, Description := "books",
    TransactionDate := Date 2024 1 15 0 0 0 0 }

/-- The sample store with the blocked account and one recorded purchase. -/
def gracedStore : Store :=
  { sampleStore with creditAccounts := [gracedAccount], transactions := [recordedPurchase] }

/-- The blocked account as the repository update leaves it when the request
only carries a balance. -/
def resetAccount : CreditAccount :=
  { gracedAccount with GracePeriod := 0, IsBlocked := false }

/-- A purchase of 100 on account 1. -/
def purchaseRequest : request.CreateTransactionRequest :=
  { CreditAccountID := 1, TransactionType := Purchase, Amount := 100,
    RecipientType := RolClient, RecipientID := 3 }

/-- A payment of 50 on account 1. -/
def paymentRequest : request.CreateTransactionRequest :=
  { CreditAccountID := 1, TransactionType := Payment, Amount := 50,
    RecipientType := RolEstablishment, RecipientID := 7 }

/-- The admin store with client rows 3 and 5. -/
def clientStore : Store :=
  { adminStore with clients := [{ ID := 3, UserID := 21 }, { ID := 5, UserID := 22 }] }

/-- A request body for a direct account of client 5 at the sample
establishment. -/
def sampleAccountBody : request.CreateCreditAccountRequest :=
  { EstablishmentID := 7, ClientID := 5, CreditLimit := 1500, MonthlyDueDate := 10,
    InterestRate := 12, InterestType := Nominal, CreditType := ShortTerm }

/-- An account of the sample establishment that is not assigned to a client. -/
def unassignedAccount : CreditAccount :=
  { sampleAccount with ID := 2, ClientID := 0, CurrentBalance := 0 }

/-- The sample store with the sample account and the unassigned account. -/
def unassignedStore : Store :=
  { sampleStore with creditAccounts := [sampleAccount, unassignedAccount] }

/-- The request of client 5 as `CreateCreditRequest` stores it under the given
key: pending, interest rate 0. -/
def pendingTerms (id : Nat) : CreditRequest :=
  { ID := id, ClientID := 5, EstablishmentID := 7, RequestedCreditLimit := 2000,
    MonthlyDueDate := 10, InterestType := Nominal, InterestRate := 0,
    CreditType := ShortTerm, GracePeriod := 1, Status := entities.Pending,
    ApprovedAt := none, RejectedAt := none }

/-- The admin store after client 5 has asked twice for credit at the sample
establishment: requests 1 and 2, both pending. -/
def twoRequestStore : Store :=
  (CreateCreditRequest none noFaults sampleRequestBody
    (CreateCreditRequest none noFaults sampleRequestBody adminStore).store).store

/-- The account that the approval of a request of client 5 creates under the
given key. -/
def approvedAccount (id : Nat) : CreditAccount :=
  { ID := id, EstablishmentID := 7, ClientID := 5, CreditLimit := 2000,
    MonthlyDueDate := 10, InterestRate := 0, InterestType := Nominal,
    CreditType := ShortTerm, GracePeriod := 1, IsBlocked := false,
    LastInterestAccrualDate := Date 2024 3 1 0 0 0 0, CurrentBalance := 0,
    LateFeeRuleID := 0 }

/-! ## Reference definitions of the calendar -/

/-- Length of a month of the Gregorian calendar (January = 1): 28 to 31 days,
29 for February of a leap year. -/
def monthLength (year month : Int) : Int :=
  if month = 2 then (if isLeap year then 29 else 28)
  else if month = 4 ∨ month = 6 ∨ month = 9 ∨ month = 11 then 30
  else 31

/-- Day count since the epoch of the first day of the month with index
`12 * year + (month - 1)`. -/
def firstOfMonth (M : Int) : Int :=
  daysSinceEpoch (M / 12) + daysBefore (M % 12)
    + (if isLeap (M / 12) && decide (2 ≤ M % 12) then 1 else 0)

/-- Days of a 400-year cycle before March 1st of its year `Y` (the cycle
starts on a March 1st). -/
def yearStart (Y : Int) : Int := 365 * Y + Y / 4 - Y / 100 + Y / 400

/-- The year of the cycle that `civilFromDays` computes for a day of the
cycle. -/
def yearOfEra (doe : Int) : Int := (doe - doe / 1460 + doe / 36524 - doe / 146096) / 365

/-! ## Lemmas on the account table -/

/-- The row `First` returns has the key that was asked for. -/
theorem First_ID {s : Store} {id : Nat} {a : CreditAccount} (h : s.First id = some a) :
    a.ID = id := by
  have := List.find?_some h
  simpa using this

/-- After a save, the saved key holds the saved row. -/
theorem find_save_same (l : List CreditAccount) (a a1 : CreditAccount)
    (h : l.find? (fun x => x.ID == a1.ID) = some a) :
    (l.map (fun x => if x.ID == a1.ID then a1 else x)).find? (fun x => x.ID == a1.ID)
      = some a1 := by
  induction l with
  | nil => simp at h
  | cons x xs ih =>
    by_cases hx : x.ID = a1.ID
    · simp [List.find?, hx]
    · have hx2 : (x.ID == a1.ID) = false := by simpa using hx
      rw [List.find?_cons, hx2] at h
      rw [List.map_cons, List.find?_cons]
      simp only [hx2, Bool.false_eq_true, if_false]
      exact ih h

/-- A save does not change what another key holds. -/
theorem find_save_other (l : List CreditAccount) (a1 : CreditAccount) (id : Nat)
    (h : id ≠ a1.ID) :
    (l.map (fun x => if x.ID == a1.ID then a1 else x)).find? (fun x => x.ID == id)
      = l.find? (fun x => x.ID == id) := by
  induction l with
  | nil => rfl
  | cons x xs ih =>
    rw [List.map_cons, List.find?_cons, List.find?_cons, ih]
    by_cases hx : x.ID = a1.ID
    · have h1 : (a1.ID == id) = false := by simpa using (Ne.symm h)
      have h2 : (x.ID == id) = false := by rw [hx]; exact h1
      have h3 : (x.ID == a1.ID) = true := by simpa using hx
      simp only [h3, if_true, h1, h2]
    · have hx2 : (x.ID == a1.ID) = false := by simpa using hx
      simp only [hx2, Bool.false_eq_true, if_false]

/-- A save leaves the rows with other keys in place and in order. -/
theorem filter_save (l : List CreditAccount) (a1 : CreditAccount) :
    (l.map (fun x => if x.ID == a1.ID then a1 else x)).filter (fun x => x.ID != a1.ID)
      = l.filter (fun x => x.ID != a1.ID) := by
  induction l with
  | nil => rfl
  | cons x xs ih =>
    rw [List.map_cons, List.filter_cons, List.filter_cons, ih]
    by_cases hx : x.ID = a1.ID
    · have h3 : (x.ID == a1.ID) = true := by simpa using hx
      have h4 : (x.ID != a1.ID) = false := by simp [bne, h3]
      have h5 : (a1.ID != a1.ID) = false := by simp [bne]
      simp only [h3, if_true, h4, h5, Bool.false_eq_true, if_false]
    · have hx2 : (x.ID == a1.ID) = false := by simpa using hx
      simp only [hx2, Bool.false_eq_true, if_false]

/-! ## Purchases -/

/-- The rows a purchase writes. -/
theorem ProcessPurchase_ok (w : Faults) (now : Time) (id : Nat) (amount : ℚ)
    (description : String) (db : Store) (a : CreditAccount)
    (hfind : db.First id = some a) (hblk : a.IsBlocked = false)
    (hlim : a.CurrentBalance + amount ≤ a.CreditLimit)
    (h0 : w 0 = none) (h1 : w 1 = none) (h2 : w 2 = none) :
    ProcessPurchase w now id amount description db =
      { err := none
        store :=
          { db with
            transactions := db.transactions ++
              [{ CreditAccountID := id, RecipientType := RolClient, RecipientID := a.ClientID,
                 TransactionType := Purchase, Amount := amount, Description := description,
                 TransactionDate := now }]
            creditAccounts := db.creditAccounts.map (fun x =>
              if x.ID == a.ID then { a with CurrentBalance := a.CurrentBalance + amount } else x)
            creditAccountHistories := db.creditAccountHistories ++
              [{ CreditAccountID := id, TransactionDate := now, TransactionType := Purchase,
                 Amount := amount, Balance := a.CurrentBalance + amount,
                 Description := description }] } } := by
  simp [ProcessPurchase, Store.DBTransaction, hfind, hblk, not_lt.mpr hlim,
    Store.CreateTransaction, Store.SaveCreditAccount, Store.CreateHistory, h0, h1, h2]

/-- C1: for a stored, unblocked account and an amount within the remaining
credit, with every write succeeding, ProcessPurchase returns no error; the
account row becomes the old row with balance increased by the amount; every
other account row is untouched; exactly one Transaction (Purchase, the amount,
recipient the client, the given description) and exactly one history row
(Purchase, the amount, the new balance) are appended; all other tables are
unchanged. -/
theorem ProcessPurchase_success (w : Faults) (now : Time) (id : Nat) (amount : ℚ)
    (description : String) (db : Store) (a : CreditAccount)
    (hfind : db.First id = some a) (hblk : a.IsBlocked = false)
    (hlim : a.CurrentBalance + amount ≤ a.CreditLimit)
    (h0 : w 0 = none) (h1 : w 1 = none) (h2 : w 2 = none) :
    (ProcessPurchase w now id amount description db).err = none ∧
    (ProcessPurchase w now id amount description db).store.First id
      = some { a with CurrentBalance := a.CurrentBalance + amount } ∧
    (∀ other, other ≠ id →
      (ProcessPurchase w now id amount description db).store.First other = db.First other) ∧
    (ProcessPurchase w now id amount description db).store.creditAccounts.filter
        (fun x => x.ID != id) = db.creditAccounts.filter (fun x => x.ID != id) ∧
    (ProcessPurchase w now id amount description db).store.creditAccounts.length
      = db.creditAccounts.length ∧
    (ProcessPurchase w now id amount description db).store.transactions
      = db.transactions ++
          [{ CreditAccountID := id, RecipientType := RolClient, RecipientID := a.ClientID,
             TransactionType := Purchase, Amount := amount, Description := description,
             TransactionDate := now }] ∧
    (ProcessPurchase w now id amount description db).store.creditAccountHistories
      = db.creditAccountHistories ++
          [{ CreditAccountID := id, TransactionDate := now, TransactionType := Purchase,
             Amount := amount, Balance := a.CurrentBalance + amount,
             Description := description }] ∧
    (ProcessPurchase w now id amount description db).store.lateFees = db.lateFees ∧
    (ProcessPurchase w now id amount description db).store.lateFeeRules = db.lateFeeRules ∧
    (ProcessPurchase w now id amount description db).store.establishments = db.establishments ∧
    (ProcessPurchase w now id amount description db).store.installments = db.installments := by
  have hid : a.ID = id := First_ID hfind
  rw [ProcessPurchase_ok w now id amount description db a hfind hblk hlim h0 h1 h2]
  subst hid
  refine ⟨rfl, ?_, ?_, ?_, ?_, rfl, rfl, rfl, rfl, rfl, rfl⟩
  · exact find_save_same db.creditAccounts a
      { a with CurrentBalance := a.CurrentBalance + amount } hfind
  · intro other ho
    exact find_save_other db.creditAccounts
      { a with CurrentBalance := a.CurrentBalance + amount } other ho
  · exact filter_save db.creditAccounts { a with CurrentBalance := a.CurrentBalance + amount }
  · simp

/-- Witness of C1: limit 1000, balance 200, purchase of 800 gives balance 1000. -/
theorem ProcessPurchase_success_witness :
    (ProcessPurchase noFaults 0 1 800 "groceries" sampleStore).err = none ∧
    (ProcessPurchase noFaults 0 1 800 "groceries" sampleStore).store.First 1
      = some { sampleAccount with CurrentBalance := 1000 } := by
  have h := ProcessPurchase_success noFaults 0 1 800 "groceries" sampleStore sampleAccount
    rfl rfl (by norm_num [sampleAccount]) rfl rfl rfl
  refine ⟨h.1, ?_⟩
  rw [h.2.1]
  norm_num [sampleAccount]

/-- Every error of a unit of work leaves the store as it was. -/
theorem DBTransaction_rollback (db : Store) (fc : Store → Except String Store)
    (h : (db.DBTransaction fc).err ≠ none) : (db.DBTransaction fc).store = db := by
  unfold Store.DBTransaction at h ⊢
  cases hfc : fc db with
  | ok tx => simp [hfc] at h
  | error e => rfl

/-- C2: for a stored account, with every write succeeding, ProcessPurchase
returns an error exactly when the account is blocked or the balance plus the
amount exceeds the credit limit, and whenever it returns an error the store
(the account, the transactions, the history) is unchanged. -/
theorem ProcessPurchase_error_iff (w : Faults) (now : Time) (id : Nat) (amount : ℚ)
    (description : String) (db : Store) (a : CreditAccount)
    (hfind : db.First id = some a)
    (h0 : w 0 = none) (h1 : w 1 = none) (h2 : w 2 = none) :
    ((ProcessPurchase w now id amount description db).err ≠ none ↔
      (a.IsBlocked = true ∨ a.CurrentBalance + amount > a.CreditLimit)) ∧
    ((ProcessPurchase w now id amount description db).err ≠ none →
      (ProcessPurchase w now id amount description db).store = db) := by
  refine ⟨?_, fun h => DBTransaction_rollback _ _ h⟩
  by_cases hblk : a.IsBlocked = true
  · simp [ProcessPurchase, Store.DBTransaction, hfind, hblk]
  · by_cases hlim : a.CurrentBalance + amount > a.CreditLimit
    · simp [ProcessPurchase, Store.DBTransaction, hfind, hblk, hlim]
    · simp [ProcessPurchase, Store.DBTransaction, hfind, hblk, hlim,
        Store.CreateTransaction, Store.SaveCreditAccount, Store.CreateHistory, h0, h1, h2]

/-- Witness of C2: limit 1000, balance 200, purchase of 900 is rejected and the
store is unchanged. -/
theorem ProcessPurchase_error_iff_witness :
    (ProcessPurchase noFaults 0 1 900 "tools" sampleStore).err ≠ none ∧
    (ProcessPurchase noFaults 0 1 900 "tools" sampleStore).store = sampleStore := by
  have h := ProcessPurchase_error_iff noFaults 0 1 900 "tools" sampleStore sampleAccount
    rfl rfl rfl rfl
  have herr := h.1.mpr (Or.inr (by norm_num [sampleAccount]))
  exact ⟨herr, h.2 herr⟩

/-! ## Payments -/

/-- Saving the same key twice keeps the second row. -/
theorem map_save_save (l : List CreditAccount) (a1 a2 : CreditAccount) (h : a1.ID = a2.ID) :
    (l.map (fun x => if x.ID == a1.ID then a1 else x)).map
        (fun x => if x.ID == a2.ID then a2 else x)
      = l.map (fun x => if x.ID == a2.ID then a2 else x) := by
  rw [List.map_map]
  apply List.map_congr_left
  intro x _
  by_cases hx : x.ID = a2.ID
  · simp [hx, h]
  · simp [hx, h]

/-- The rows a payment writes. -/
theorem ProcessPayment_ok (w : Faults) (now : Time) (id : Nat) (amount : ℚ)
    (description : String) (db : Store) (a : CreditAccount)
    (hfind : db.First id = some a) (hle : amount ≤ a.CurrentBalance)
    (h0 : w 0 = none) (h1 : w 1 = none) (h2 : w 2 = none)
    (h3 : a.IsBlocked = true → a.CurrentBalance - amount ≤ 0 → w 3 = none) :
    ProcessPayment w now id amount description db =
      { err := none
        store :=
          { db with
            transactions := db.transactions ++
              [{ CreditAccountID := id, RecipientType := RolEstablishment,
                 RecipientID := a.EstablishmentID, TransactionType := Payment,
                 Amount := amount, Description := description, TransactionDate := now }]
            creditAccounts := db.creditAccounts.map (fun x =>
              if x.ID == a.ID then paidAccount a amount else x)
            creditAccountHistories := db.creditAccountHistories ++
              [{ CreditAccountID := id, TransactionDate := now, TransactionType := Payment,
                 Amount := -amount, Balance := a.CurrentBalance - amount,
                 Description := description }] } } := by
  cases hblk : a.IsBlocked with
  | false =>
    simp [ProcessPayment, Store.DBTransaction, hfind, not_lt.mpr hle,
      Store.CreateTransaction, Store.SaveCreditAccount, Store.CreateHistory, h0, h1, h2,
      hblk, paidAccount]
  | true =>
    by_cases hz : a.CurrentBalance ≤ amount
    · have hw3 := h3 hblk (by linarith)
      have hm := map_save_save db.creditAccounts
        { a with CurrentBalance := a.CurrentBalance - amount }
        { a with CurrentBalance := a.CurrentBalance - amount, IsBlocked := false } rfl
      simp [ProcessPayment, Store.DBTransaction, hfind, not_lt.mpr hle,
        Store.CreateTransaction, Store.SaveCreditAccount, Store.CreateHistory, h0, h1, h2, hw3,
        hblk, hz, paidAccount]
      simpa [hblk] using hm
    · simp [ProcessPayment, Store.DBTransaction, hfind, not_lt.mpr hle,
        Store.CreateTransaction, Store.SaveCreditAccount, Store.CreateHistory, h0, h1, h2,
        hblk, hz, paidAccount]

/-- C3: for a stored account, blocked or not, with every write succeeding,
ProcessPayment returns an error exactly when the amount exceeds the current
balance, and whenever it returns an error the store (the account, the
transactions, the history) is unchanged. -/
theorem ProcessPayment_error_iff (w : Faults) (now : Time) (id : Nat) (amount : ℚ)
    (description : String) (db : Store) (a : CreditAccount)
    (hfind : db.First id = some a)
    (h0 : w 0 = none) (h1 : w 1 = none) (h2 : w 2 = none) (h3 : w 3 = none) :
    ((ProcessPayment w now id amount description db).err ≠ none ↔
      amount > a.CurrentBalance) ∧
    ((ProcessPayment w now id amount description db).err ≠ none →
      (ProcessPayment w now id amount description db).store = db) := by
  refine ⟨?_, fun h => DBTransaction_rollback _ _ h⟩
  by_cases hgt : amount > a.CurrentBalance
  · simp [ProcessPayment, Store.DBTransaction, hfind, hgt]
  · rw [ProcessPayment_ok w now id amount description db a hfind (not_lt.mp hgt) h0 h1 h2
      (fun _ _ => h3)]
    simp [hgt]

/-- Witness of C3: balance 500, payment of 600 is rejected and the store is
unchanged. -/
theorem ProcessPayment_error_iff_witness :
    (ProcessPayment noFaults 0 1 600 "cash" blockedStore).err ≠ none ∧
    (ProcessPayment noFaults 0 1 600 "cash" blockedStore).store = blockedStore := by
  have h := ProcessPayment_error_iff noFaults 0 1 600 "cash" blockedStore blockedAccount
    rfl rfl rfl rfl rfl
  have herr := h.1.mpr (by norm_num [blockedAccount])
  exact ⟨herr, h.2 herr⟩

/-- C4: for a stored account and an amount not above its balance, with every
write succeeding, ProcessPayment returns no error; the account row becomes the
old row with the balance decreased by the amount and with the blocked flag
cleared exactly when the account was blocked and the new balance is at most
zero; every other account row is untouched; exactly one Transaction (Payment,
the amount, recipient the establishment) and exactly one history row (the
negated amount, the new balance) are appended; all other tables are
unchanged. -/
theorem ProcessPayment_success (w : Faults) (now : Time) (id : Nat) (amount : ℚ)
    (description : String) (db : Store) (a : CreditAccount)
    (hfind : db.First id = some a) (hle : amount ≤ a.CurrentBalance)
    (h0 : w 0 = none) (h1 : w 1 = none) (h2 : w 2 = none) (h3 : w 3 = none) :
    (ProcessPayment w now id amount description db).err = none ∧
    (ProcessPayment w now id amount description db).store.First id
      = some { a with
          CurrentBalance := a.CurrentBalance - amount
          IsBlocked := if a.IsBlocked = true ∧ a.CurrentBalance - amount ≤ 0 then false
            else a.IsBlocked } ∧
    (∀ other, other ≠ id →
      (ProcessPayment w now id amount description db).store.First other = db.First other) ∧
    (ProcessPayment w now id amount description db).store.creditAccounts.filter
        (fun x => x.ID != id) = db.creditAccounts.filter (fun x => x.ID != id) ∧
    (ProcessPayment w now id amount description db).store.creditAccounts.length
      = db.creditAccounts.length ∧
    (ProcessPayment w now id amount description db).store.transactions
      = db.transactions ++
          [{ CreditAccountID := id, RecipientType := RolEstablishment,
             RecipientID := a.EstablishmentID, TransactionType := Payment,
             Amount := amount, Description := description, TransactionDate := now }] ∧
    (ProcessPayment w now id amount description db).store.creditAccountHistories
      = db.creditAccountHistories ++
          [{ CreditAccountID := id, TransactionDate := now, TransactionType := Payment,
             Amount := -amount, Balance := a.CurrentBalance - amount,
             Description := description }] ∧
    (ProcessPayment w now id amount description db).store.lateFees = db.lateFees ∧
    (ProcessPayment w now id amount description db).store.lateFeeRules = db.lateFeeRules ∧
    (ProcessPayment w now id amount description db).store.establishments = db.establishments ∧
    (ProcessPayment w now id amount description db).store.installments = db.installments := by
  have hid : a.ID = id := First_ID hfind
  rw [ProcessPayment_ok w now id amount description db a hfind hle h0 h1 h2 (fun _ _ => h3)]
  subst hid
  refine ⟨rfl, ?_, ?_, ?_, ?_, rfl, rfl, rfl, rfl, rfl, rfl⟩
  · exact find_save_same db.creditAccounts a (paidAccount a amount) hfind
  · intro other ho
    exact find_save_other db.creditAccounts (paidAccount a amount) other ho
  · exact filter_save db.creditAccounts (paidAccount a amount)
  · simp

/-- Witness of C4: balance 500, blocked, payment of 500 gives balance 0 and an
unblocked account. -/
theorem ProcessPayment_success_witness :
    (ProcessPayment noFaults 0 1 500 "cash" blockedStore).err = none ∧
    (ProcessPayment noFaults 0 1 500 "cash" blockedStore).store.First 1
      = some { blockedAccount with CurrentBalance := 0, IsBlocked := false } := by
  have h := ProcessPayment_success noFaults 0 1 500 "cash" blockedStore blockedAccount
    rfl (by norm_num [blockedAccount]) rfl rfl rfl rfl
  refine ⟨h.1, ?_⟩
  rw [h.2.1]
  norm_num [blockedAccount]

/-! ## All-or-nothing units and balance bounds -/

/-- A purchase either leaves the store as it was or writes its three rows. -/
theorem ProcessPurchase_cases (w : Faults) (now : Time) (id : Nat) (amount : ℚ)
    (description : String) (db : Store) :
    ((ProcessPurchase w now id amount description db).err ≠ none ∧
      (ProcessPurchase w now id amount description db).store = db) ∨
    ∃ a, db.First id = some a ∧ a.IsBlocked = false ∧
      a.CurrentBalance + amount ≤ a.CreditLimit ∧
      w 0 = none ∧ w 1 = none ∧ w 2 = none := by
  cases hfind : db.First id with
  | none => left; simp [ProcessPurchase, Store.DBTransaction, hfind]
  | some a =>
    by_cases hblk : a.IsBlocked = true
    · left; simp [ProcessPurchase, Store.DBTransaction, hfind, hblk]
    by_cases hlim : a.CurrentBalance + amount > a.CreditLimit
    · left; simp [ProcessPurchase, Store.DBTransaction, hfind, hblk, hlim]
    cases h0 : w 0 with
    | some e =>
      left; simp [ProcessPurchase, Store.DBTransaction, hfind, hblk, hlim,
        Store.CreateTransaction, h0]
    | none =>
      cases h1 : w 1 with
      | some e =>
        left; simp [ProcessPurchase, Store.DBTransaction, hfind, hblk, hlim,
          Store.CreateTransaction, Store.SaveCreditAccount, h0, h1]
      | none =>
        cases h2 : w 2 with
        | some e =>
          left; simp [ProcessPurchase, Store.DBTransaction, hfind, hblk, hlim,
            Store.CreateTransaction, Store.SaveCreditAccount, Store.CreateHistory, h0, h1, h2]
        | none =>
          right
          exact ⟨a, rfl, by simpa using hblk, not_lt.mp hlim, rfl, rfl, rfl⟩

/-- A payment either leaves the store as it was or writes its rows. -/
theorem ProcessPayment_cases (w : Faults) (now : Time) (id : Nat) (amount : ℚ)
    (description : String) (db : Store) :
    ((ProcessPayment w now id amount description db).err ≠ none ∧
      (ProcessPayment w now id amount description db).store = db) ∨
    ∃ a, db.First id = some a ∧ amount ≤ a.CurrentBalance ∧
      w 0 = none ∧ w 1 = none ∧ w 2 = none ∧
      (a.IsBlocked = true → a.CurrentBalance - amount ≤ 0 → w 3 = none) := by
  cases hfind : db.First id with
  | none => left; simp [ProcessPayment, Store.DBTransaction, hfind]
  | some a =>
    by_cases hgt : amount > a.CurrentBalance
    · left; simp [ProcessPayment, Store.DBTransaction, hfind, hgt]
    cases h0 : w 0 with
    | some e =>
      left; simp [ProcessPayment, Store.DBTransaction, hfind, hgt,
        Store.CreateTransaction, h0]
    | none =>
      cases h1 : w 1 with
      | some e =>
        left; simp [ProcessPayment, Store.DBTransaction, hfind, hgt,
          Store.CreateTransaction, Store.SaveCreditAccount, h0, h1]
      | none =>
        cases h2 : w 2 with
        | some e =>
          left; simp [ProcessPayment, Store.DBTransaction, hfind, hgt,
            Store.CreateTransaction, Store.SaveCreditAccount, Store.CreateHistory, h0, h1, h2]
        | none =>
          by_cases hu : a.IsBlocked = true ∧ a.CurrentBalance - amount ≤ 0
          · cases h3 : w 3 with
            | some e =>
              left
              have hz : a.CurrentBalance ≤ amount := by linarith [hu.2]
              simp [ProcessPayment, Store.DBTransaction, hfind, hgt,
                Store.CreateTransaction, Store.SaveCreditAccount, Store.CreateHistory,
                h0, h1, h2, h3, hu.1, hz]
            | none =>
              right
              exact ⟨a, rfl, not_lt.mp hgt, rfl, rfl, rfl, fun _ _ => rfl⟩
          · right
            exact ⟨a, rfl, not_lt.mp hgt, rfl, rfl, rfl,
              fun hb hz => absurd ⟨hb, hz⟩ hu⟩

/-- C5: purchases and payments are all-or-nothing.  If the write of the
Transaction, the save of the account or the write of the history row fails,
ProcessPurchase and ProcessPayment return an error; if the unblocking save of
a payment is due (blocked account, new balance at most zero) and fails,
ProcessPayment returns an error; and whenever either operation returns an
error the store after the call equals the store before it. -/
theorem purchase_payment_all_or_nothing (w : Faults) (now : Time) (id : Nat) (amount : ℚ)
    (description : String) (db : Store) :
    ((w 0 ≠ none ∨ w 1 ≠ none ∨ w 2 ≠ none) →
      (ProcessPurchase w now id amount description db).err ≠ none) ∧
    ((w 0 ≠ none ∨ w 1 ≠ none ∨ w 2 ≠ none) →
      (ProcessPayment w now id amount description db).err ≠ none) ∧
    (∀ a, db.First id = some a → a.IsBlocked = true → a.CurrentBalance - amount ≤ 0 →
      w 3 ≠ none → (ProcessPayment w now id amount description db).err ≠ none) ∧
    ((ProcessPurchase w now id amount description db).err ≠ none →
      (ProcessPurchase w now id amount description db).store = db) ∧
    ((ProcessPayment w now id amount description db).err ≠ none →
      (ProcessPayment w now id amount description db).store = db) := by
  refine ⟨?_, ?_, ?_, fun h => DBTransaction_rollback _ _ h,
    fun h => DBTransaction_rollback _ _ h⟩
  · intro hw
    rcases ProcessPurchase_cases w now id amount description db with h | ⟨a, _, _, _, h0, h1, h2⟩
    · exact h.1
    · rcases hw with hw | hw | hw
      · exact absurd h0 hw
      · exact absurd h1 hw
      · exact absurd h2 hw
  · intro hw
    rcases ProcessPayment_cases w now id amount description db with h | ⟨a, _, _, h0, h1, h2, _⟩
    · exact h.1
    · rcases hw with hw | hw | hw
      · exact absurd h0 hw
      · exact absurd h1 hw
      · exact absurd h2 hw
  · intro a hfind hblk hz hw
    rcases ProcessPayment_cases w now id amount description db with h | ⟨b, hb, _, _, _, _, h3⟩
    · exact h.1
    · rw [hfind] at hb
      cases hb
      exact absurd (h3 hblk hz) hw

/-- Witness of C5: when the save of the account fails, a purchase and a
payment return an error and leave the store as it was. -/
theorem purchase_payment_all_or_nothing_witness :
    ((ProcessPurchase secondWriteFails 0 1 800 "groceries" sampleStore).err ≠ none ∧
      (ProcessPurchase secondWriteFails 0 1 800 "groceries" sampleStore).store = sampleStore) ∧
    ((ProcessPayment secondWriteFails 0 1 100 "cash" sampleStore).err ≠ none ∧
      (ProcessPayment secondWriteFails 0 1 100 "cash" sampleStore).store = sampleStore) := by
  have hw : secondWriteFails 0 ≠ none ∨ secondWriteFails 1 ≠ none ∨ secondWriteFails 2 ≠ none :=
    Or.inr (Or.inl (by simp [secondWriteFails]))
  have h1 := purchase_payment_all_or_nothing secondWriteFails 0 1 800 "groceries" sampleStore
  have h2 := purchase_payment_all_or_nothing secondWriteFails 0 1 100 "cash" sampleStore
  exact ⟨⟨h1.1 hw, h1.2.2.2.1 (h1.1 hw)⟩, ⟨h2.2.1 hw, h2.2.2.2.2 (h2.2.1 hw)⟩⟩

/-- One purchase keeps a bounded account bounded. -/
theorem ProcessPurchase_bounds (w : Faults) (now : Time) (target : Nat) (amount : ℚ)
    (description : String) (db : Store) (id : Nat) (a : CreditAccount)
    (hfind : db.First id = some a) (hb : a.WithinBounds) (hamt : 0 < amount) :
    ∃ a1, (ProcessPurchase w now target amount description db).store.First id = some a1 ∧
      a1.WithinBounds := by
  rcases ProcessPurchase_cases w now target amount description db with
    h | ⟨b, hfb, hblk, hlim, h0, h1, h2⟩
  · exact ⟨a, by rw [h.2]; exact hfind, hb⟩
  · rw [ProcessPurchase_ok w now target amount description db b hfb hblk hlim h0 h1 h2]
    have hbid : b.ID = target := First_ID hfb
    by_cases hid : id = target
    · subst hid
      rw [hfind] at hfb
      cases hfb
      refine ⟨{ a with CurrentBalance := a.CurrentBalance + amount }, ?_, ?_⟩
      · have := find_save_same db.creditAccounts a
          { a with CurrentBalance := a.CurrentBalance + amount } (by rw [hbid]; exact hfind)
        simpa [Store.First, hbid] using this
      · exact ⟨by have := hb.1; show 0 ≤ a.CurrentBalance + amount; linarith, hlim⟩
    · refine ⟨a, ?_, hb⟩
      have := find_save_other db.creditAccounts
        { b with CurrentBalance := b.CurrentBalance + amount } id (by rw [hbid]; exact hid)
      rw [← hfind]
      exact this

/-- One payment keeps a bounded account bounded. -/
theorem ProcessPayment_bounds (w : Faults) (now : Time) (target : Nat) (amount : ℚ)
    (description : String) (db : Store) (id : Nat) (a : CreditAccount)
    (hfind : db.First id = some a) (hb : a.WithinBounds) (hamt : 0 < amount) :
    ∃ a1, (ProcessPayment w now target amount description db).store.First id = some a1 ∧
      a1.WithinBounds := by
  rcases ProcessPayment_cases w now target amount description db with
    h | ⟨b, hfb, hle, h0, h1, h2, h3⟩
  · exact ⟨a, by rw [h.2]; exact hfind, hb⟩
  · rw [ProcessPayment_ok w now target amount description db b hfb hle h0 h1 h2 h3]
    have hbid : b.ID = target := First_ID hfb
    by_cases hid : id = target
    · subst hid
      rw [hfind] at hfb
      cases hfb
      refine ⟨paidAccount a amount, ?_, ?_⟩
      · have := find_save_same db.creditAccounts a (paidAccount a amount)
          (by rw [show (paidAccount a amount).ID = id from hbid]; exact hfind)
        simpa [Store.First, hbid, paidAccount] using this
      · refine ⟨?_, ?_⟩
        · show 0 ≤ a.CurrentBalance - amount
          linarith
        · show a.CurrentBalance - amount ≤ a.CreditLimit
          have := hb.2
          linarith
    · refine ⟨a, ?_, hb⟩
      have := find_save_other db.creditAccounts (paidAccount b amount) id
        (by rw [show (paidAccount b amount).ID = target from hbid]; exact hid)
      rw [← hfind]
      exact this

/-- A list of ledger requests with positive amounts keeps a bounded account
bounded. -/
theorem runLedger_bounds (ops : List LedgerOp) :
    ∀ (db : Store) (id : Nat) (a : CreditAccount), db.First id = some a → a.WithinBounds →
      (∀ op ∈ ops, 0 < op.amount) →
      ∃ a1, (runLedger ops db).First id = some a1 ∧ a1.WithinBounds := by
  induction ops with
  | nil => intro db id a hfind hb _; exact ⟨a, hfind, hb⟩
  | cons op rest ih =>
    intro db id a hfind hb hpos
    have hop : 0 < op.amount := hpos op (List.mem_cons_self _ _)
    have hrest : ∀ o ∈ rest, 0 < o.amount := fun o ho => hpos o (List.mem_cons_of_mem _ ho)
    have hstep : ∃ a1, (op.run db).First id = some a1 ∧ a1.WithinBounds := by
      cases op with
      | purchase w now target amount description =>
        exact ProcessPurchase_bounds w now target amount description db id a hfind hb hop
      | payment w now target amount description =>
        exact ProcessPayment_bounds w now target amount description db id a hfind hb hop
    obtain ⟨a1, hf1, hb1⟩ := hstep
    exact ih (op.run db) id a1 hf1 hb1 hrest

/-- C7: the balance bounds are an invariant of purchases and payments.  For a
stored account with 0 ≤ balance ≤ limit and a positive amount, the account
still satisfies the bounds after ProcessPurchase and after ProcessPayment,
whether the call succeeds or fails and whichever writes fail; hence it
satisfies them after every finite list of purchases and payments with positive
amounts (on this or on other accounts), in particular when it starts fresh
with balance 0. -/
theorem balance_bounds_invariant (w : Faults) (now : Time) (id : Nat) (amount : ℚ)
    (description : String) (db : Store) (a : CreditAccount) (ops : List LedgerOp)
    (hfind : db.First id = some a)
    (hb : 0 ≤ a.CurrentBalance ∧ a.CurrentBalance ≤ a.CreditLimit)
    (hamt : 0 < amount) (hpos : ∀ op ∈ ops, 0 < op.amount) :
    (∃ a1, (ProcessPurchase w now id amount description db).store.First id = some a1 ∧
      0 ≤ a1.CurrentBalance ∧ a1.CurrentBalance ≤ a1.CreditLimit) ∧
    (∃ a1, (ProcessPayment w now id amount description db).store.First id = some a1 ∧
      0 ≤ a1.CurrentBalance ∧ a1.CurrentBalance ≤ a1.CreditLimit) ∧
    (∃ a1, (runLedger ops db).First id = some a1 ∧
      0 ≤ a1.CurrentBalance ∧ a1.CurrentBalance ≤ a1.CreditLimit) :=
  ⟨ProcessPurchase_bounds w now id amount description db id a hfind hb hamt,
   ProcessPayment_bounds w now id amount description db id a hfind hb hamt,
   runLedger_bounds ops db id a hfind hb hpos⟩

/-- Witness of C7: a fresh account (balance 0, limit 1000) stays within its
bounds through a purchase, a payment and a list of requests. -/
theorem balance_bounds_invariant_witness :
    (∃ a1, (ProcessPurchase noFaults 0 1 800 "groceries" freshStore).store.First 1 = some a1 ∧
      0 ≤ a1.CurrentBalance ∧ a1.CurrentBalance ≤ a1.CreditLimit) ∧
    (∃ a1, (ProcessPayment noFaults 0 1 800 "groceries" freshStore).store.First 1 = some a1 ∧
      0 ≤ a1.CurrentBalance ∧ a1.CurrentBalance ≤ a1.CreditLimit) ∧
    (∃ a1, (runLedger sampleOps freshStore).First 1 = some a1 ∧
      0 ≤ a1.CurrentBalance ∧ a1.CurrentBalance ≤ a1.CreditLimit) :=
  balance_bounds_invariant noFaults 0 1 800 "groceries" freshStore freshAccount sampleOps
    rfl (by norm_num [freshAccount, sampleAccount]) (by norm_num)
    (by
      intro op hop
      simp only [sampleOps, List.mem_cons, List.mem_singleton, List.mem_nil_iff, or_false] at hop
      rcases hop with rfl | rfl | rfl <;> norm_num [LedgerOp.amount])

/-! ## Interest accrual -/

/-- Outside its window `ApplyInterest` returns nil and writes nothing. -/
theorem ApplyInterest_skip (w : Faults) (now : Time) (id : Nat) (db : Store)
    (a : CreditAccount) (hfind : db.First id = some a)
    (h : a.CurrentBalance = 0 ∨ now < AddDate a.LastInterestAccrualDate 0 1 0) :
    ApplyInterest w now id db = { err := none, store := db } := by
  rcases h with h | h
  · simp [ApplyInterest, Store.DBTransaction, hfind, h]
  · simp [ApplyInterest, Store.DBTransaction, hfind, Before, h]

/-- The rows an interest accrual writes. -/
theorem ApplyInterest_ok (w : Faults) (now : Time) (id : Nat) (db : Store)
    (a : CreditAccount) (hfind : db.First id = some a)
    (hbal : a.CurrentBalance ≠ 0) (hwin : ¬ now < AddDate a.LastInterestAccrualDate 0 1 0)
    (h0 : w 0 = none) (h1 : w 1 = none) (h2 : w 2 = none) :
    ApplyInterest w now id db =
      { err := none
        store :=
          { db with
            transactions := db.transactions ++
              [{ CreditAccountID := id, RecipientType := RolClient, RecipientID := a.ClientID,
                 TransactionType := InterestAccrual, Amount := calculateInterest a,
                 Description := "Monthly Interest", TransactionDate := now }]
            creditAccounts := db.creditAccounts.map (fun x =>
              if x.ID == a.ID then
                { a with
                  CurrentBalance := a.CurrentBalance + calculateInterest a
                  LastInterestAccrualDate := now }
              else x)
            creditAccountHistories := db.creditAccountHistories ++
              [{ CreditAccountID := id, TransactionDate := now,
                 TransactionType := InterestAccrual, Amount := calculateInterest a,
                 Balance := a.CurrentBalance + calculateInterest a,
                 Description := "Monthly Interest Accrued" }] } } := by
  simp [ApplyInterest, Store.DBTransaction, hfind, hbal, Before, hwin,
    Store.CreateTransaction, Store.SaveCreditAccount, Store.CreateHistory, h0, h1, h2]

/-- An interest call fails and rolls back, is skipped, or accrues. -/
theorem ApplyInterest_cases (w : Faults) (now : Time) (id : Nat) (db : Store) :
    ((ApplyInterest w now id db).err ≠ none ∧ (ApplyInterest w now id db).store = db) ∨
    (∃ a, db.First id = some a ∧
      (a.CurrentBalance = 0 ∨ now < AddDate a.LastInterestAccrualDate 0 1 0)) ∨
    (∃ a, db.First id = some a ∧ a.CurrentBalance ≠ 0 ∧
      ¬ now < AddDate a.LastInterestAccrualDate 0 1 0 ∧
      w 0 = none ∧ w 1 = none ∧ w 2 = none) := by
  cases hfind : db.First id with
  | none => left; simp [ApplyInterest, Store.DBTransaction, hfind]
  | some a =>
    by_cases hbal : a.CurrentBalance = 0
    · right; left; exact ⟨a, rfl, Or.inl hbal⟩
    by_cases hwin : now < AddDate a.LastInterestAccrualDate 0 1 0
    · right; left; exact ⟨a, rfl, Or.inr hwin⟩
    cases h0 : w 0 with
    | some e =>
      left; simp [ApplyInterest, Store.DBTransaction, hfind, hbal, Before, hwin,
        Store.CreateTransaction, h0]
    | none =>
      cases h1 : w 1 with
      | some e =>
        left; simp [ApplyInterest, Store.DBTransaction, hfind, hbal, Before, hwin,
          Store.CreateTransaction, Store.SaveCreditAccount, h0, h1]
      | none =>
        cases h2 : w 2 with
        | some e =>
          left; simp [ApplyInterest, Store.DBTransaction, hfind, hbal, Before, hwin,
            Store.CreateTransaction, Store.SaveCreditAccount, Store.CreateHistory, h0, h1, h2]
        | none =>
          right; right
          exact ⟨a, rfl, hbal, hwin, rfl, rfl, rfl⟩

/-- C8: ApplyInterest is a no-op outside its window.  For a stored account
whose balance is zero, or when the current time is earlier than the last
accrual date plus one calendar month, ApplyInterest returns no error and leaves
the whole store (the account with its balance and last accrual date, the
transactions, the history) unchanged, whatever the fault oracle. -/
theorem ApplyInterest_noop_outside_window (w : Faults) (now : Time) (id : Nat) (db : Store)
    (a : CreditAccount) (hfind : db.First id = some a)
    (h : a.CurrentBalance = 0 ∨ now < AddDate a.LastInterestAccrualDate 0 1 0) :
    (ApplyInterest w now id db).err = none ∧ (ApplyInterest w now id db).store = db := by
  rw [ApplyInterest_skip w now id db a hfind h]
  exact ⟨rfl, rfl⟩

/-- Witness of C8: the sample account accrued on 2024-01-01; a call on
2024-01-31 changes nothing. -/
theorem ApplyInterest_noop_outside_window_witness :
    (ApplyInterest noFaults (Date 2024 1 31 0 0 0 0) 1 sampleStore).err = none ∧
    (ApplyInterest noFaults (Date 2024 1 31 0 0 0 0) 1 sampleStore).store = sampleStore :=
  ApplyInterest_noop_outside_window noFaults (Date 2024 1 31 0 0 0 0) 1 sampleStore
    sampleAccount rfl (Or.inr (by decide))

/-- Counterexample to C9 as stated: the sample account last accrued on
2024-01-01.  A call on 2024-01-20 is skipped; a second call on 2024-02-05 is
less than a calendar month after the first, yet it accrues: it appends a
Transaction and a history row that the first call alone does not leave. -/
theorem ApplyInterest_twice_counterexample :
    Date 2024 1 20 0 0 0 0 ≤ Date 2024 2 5 0 0 0 0 ∧
    Date 2024 2 5 0 0 0 0 < AddDate (Date 2024 1 20 0 0 0 0) 0 1 0 ∧
    (ApplyInterest noFaults (Date 2024 2 5 0 0 0 0) 1
      (ApplyInterest noFaults (Date 2024 1 20 0 0 0 0) 1 sampleStore).store).store.transactions
      ≠ (ApplyInterest noFaults (Date 2024 1 20 0 0 0 0) 1 sampleStore).store.transactions ∧
    (ApplyInterest noFaults (Date 2024 2 5 0 0 0 0) 1
      (ApplyInterest noFaults (Date 2024 1 20 0 0 0 0) 1
        sampleStore).store).store.creditAccountHistories
      ≠ (ApplyInterest noFaults (Date 2024 1 20 0 0 0 0) 1
        sampleStore).store.creditAccountHistories := by
  refine ⟨by decide, by decide, ?_⟩
  rw [ApplyInterest_skip noFaults (Date 2024 1 20 0 0 0 0) 1 sampleStore sampleAccount rfl
    (Or.inr (by decide))]
  rw [ApplyInterest_ok noFaults (Date 2024 2 5 0 0 0 0) 1 sampleStore sampleAccount rfl
    (by norm_num [sampleAccount]) (by decide) rfl rfl rfl]
  simp [sampleStore]

/-- C9 (amended): interest accrual is idempotent within a month of an
accrual.  For a stored account and times t1 ≤ t2 with t2 earlier than one
calendar month after t1, if the call at t1 is not skipped for its window (t1 is
not earlier than the last accrual date plus one month) or t2 is itself earlier
than the last accrual date plus one month, then with the writes of the first
call succeeding the second call returns no error and leaves the store of the
first call unchanged: no second charge and no rows. -/
theorem ApplyInterest_idempotent_within_month (w1 w2 : Faults) (t1 t2 : Time) (id : Nat)
    (db : Store) (a : CreditAccount) (hfind : db.First id = some a)
    (_h12 : t1 ≤ t2) (hclose : t2 < AddDate t1 0 1 0)
    (hacc : ¬ t1 < AddDate a.LastInterestAccrualDate 0 1 0
      ∨ t2 < AddDate a.LastInterestAccrualDate 0 1 0)
    (h0 : w1 0 = none) (h1 : w1 1 = none) (h2 : w1 2 = none) :
    (ApplyInterest w1 t1 id db).err = none ∧
    (ApplyInterest w2 t2 id (ApplyInterest w1 t1 id db).store).err = none ∧
    (ApplyInterest w2 t2 id (ApplyInterest w1 t1 id db).store).store
      = (ApplyInterest w1 t1 id db).store := by
  have hid : a.ID = id := First_ID hfind
  by_cases hbal : a.CurrentBalance = 0
  · rw [ApplyInterest_skip w1 t1 id db a hfind (Or.inl hbal)]
    rw [ApplyInterest_skip w2 t2 id db a hfind (Or.inl hbal)]
    exact ⟨rfl, rfl, rfl⟩
  by_cases hwin : t1 < AddDate a.LastInterestAccrualDate 0 1 0
  · have hw2 : t2 < AddDate a.LastInterestAccrualDate 0 1 0 := by
      rcases hacc with h | h
      · exact absurd hwin h
      · exact h
    rw [ApplyInterest_skip w1 t1 id db a hfind (Or.inr hwin)]
    rw [ApplyInterest_skip w2 t2 id db a hfind (Or.inr hw2)]
    exact ⟨rfl, rfl, rfl⟩
  · rw [ApplyInterest_ok w1 t1 id db a hfind hbal hwin h0 h1 h2]
    have hf1 : Store.First
        { db with
          transactions := db.transactions ++
            [{ CreditAccountID := id, RecipientType := RolClient, RecipientID := a.ClientID,
               TransactionType := InterestAccrual, Amount := calculateInterest a,
               Description := "Monthly Interest", TransactionDate := t1 }]
          creditAccounts := db.creditAccounts.map (fun x =>
            if x.ID == a.ID then
              { a with
                CurrentBalance := a.CurrentBalance + calculateInterest a
                LastInterestAccrualDate := t1 }
            else x)
          creditAccountHistories := db.creditAccountHistories ++
            [{ CreditAccountID := id, TransactionDate := t1,
               TransactionType := InterestAccrual, Amount := calculateInterest a,
               Balance := a.CurrentBalance + calculateInterest a,
               Description := "Monthly Interest Accrued" }] } id
        = some { a with
            CurrentBalance := a.CurrentBalance + calculateInterest a
            LastInterestAccrualDate := t1 } := by
      have := find_save_same db.creditAccounts a
        { a with
          CurrentBalance := a.CurrentBalance + calculateInterest a
          LastInterestAccrualDate := t1 } (by rw [hid]; exact hfind)
      simpa [Store.First, hid] using this
    rw [ApplyInterest_skip w2 t2 id _ _ hf1 (Or.inr hclose)]
    exact ⟨rfl, rfl, rfl⟩

/-- Witness of C9 (amended): the sample account, last accrued on 2024-01-01,
accrues on 2024-02-01; a second call on 2024-02-20 changes nothing. -/
theorem ApplyInterest_idempotent_within_month_witness :
    (ApplyInterest noFaults (Date 2024 2 20 0 0 0 0) 1
      (ApplyInterest noFaults (Date 2024 2 1 0 0 0 0) 1 sampleStore).store).store
      = (ApplyInterest noFaults (Date 2024 2 1 0 0 0 0) 1 sampleStore).store :=
  (ApplyInterest_idempotent_within_month noFaults noFaults (Date 2024 2 1 0 0 0 0)
    (Date 2024 2 20 0 0 0 0) 1 sampleStore sampleAccount rfl (by decide) (by decide)
    (Or.inl (by decide)) rfl rfl rfl).2.2

/-- C10 (the code at the failing input): the owing account is short-term with
nominal interest, rate 12, balance 1000, last accrual 2024-01-01.  On
2024-02-01 a full month has elapsed: the service-layer CalculateInterest yields
1000 * (12/100) * (31/365) = 744/73, yet ApplyInterest records an amount of 0
and leaves the balance at 1000, only moving the last accrual date. -/
theorem ApplyInterest_charges_zero :
    (ApplyInterest noFaults (Date 2024 2 1 0 0 0 0) 1 owingStore).err = none ∧
    (ApplyInterest noFaults (Date 2024 2 1 0 0 0 0) 1 owingStore).store.First 1
      = some { owingAccount with LastInterestAccrualDate := Date 2024 2 1 0 0 0 0 } ∧
    (ApplyInterest noFaults (Date 2024 2 1 0 0 0 0) 1 owingStore).store.transactions
      = [{ CreditAccountID := 1, RecipientType := RolClient, RecipientID := 3,
           TransactionType := InterestAccrual, Amount := 0,
           Description := "Monthly Interest", TransactionDate := Date 2024 2 1 0 0 0 0 }] ∧
    (∀ pow : ℚ → ℚ → ℚ,
      CalculateInterest pow none (Date 2024 2 1 0 0 0 0) owingStore owingAccount = 744 / 73) ∧
    owingAccount.CurrentBalance * (owingAccount.InterestRate / 100) * (31 / 365) = 744 / 73 := by
  have hok := ApplyInterest_ok noFaults (Date 2024 2 1 0 0 0 0) 1 owingStore owingAccount rfl
    (by norm_num [owingAccount, sampleAccount]) (by decide) rfl rfl rfl
  refine ⟨by rw [hok], ?_, ?_, ?_, by norm_num [owingAccount, sampleAccount]⟩
  · rw [hok]
    simp [Store.First, owingStore, owingAccount, sampleAccount, calculateInterest]
  · rw [hok]
    simp [owingStore, owingAccount, sampleAccount, sampleStore, calculateInterest]
  · intro pow
    have hd : Sub (Date 2024 2 1 0 0 0 0) owingAccount.LastInterestAccrualDate
        = 31 * nsPerDay := by decide
    have hm : Month owingAccount.LastInterestAccrualDate = 1 := by decide
    have hy : Year owingAccount.LastInterestAccrualDate = 2024 := by decide
    have hday : Day (Date 2024 (1 + 1) 0 0 0 0 0) = 31 := by decide
    have hdur : durationDays (31 * nsPerDay) = 31 := by
      norm_num [durationDays, nsPerDay, nsPerHour]
    have hct : (owingAccount.CreditType == ShortTerm) = true := by decide
    have hit : (owingAccount.InterestType == Nominal) = true := by decide
    unfold CalculateInterest
    simp only [hct, hit, hd, hm, hy, hdur, daysInMonth, hday, if_true]
    norm_num [owingAccount, sampleAccount]

/-! ## Late fees and the ledger triple -/

/-- The rows a late fee writes. -/
theorem ApplyLateFee_ok (w : Faults) (now : Time) (id : Nat) (db : Store)
    (a : CreditAccount) (rule : LateFeeRule) (hfind : db.First id = some a)
    (hdays : 0 < calculateDaysOverdue now a.MonthlyDueDate)
    (hrule : findLateFeeRule (db.PreloadLateFeeRule a) (db.PreloadEstablishmentLateFeeRules a)
      (calculateDaysOverdue now a.MonthlyDueDate) = some rule)
    (h0 : w 0 = none) (h1 : w 1 = none) (h2 : w 2 = none) :
    ApplyLateFee w now id db =
      { err := none
        store :=
          { db with
            lateFees := db.lateFees ++
              [{ CreditAccountID := id,
                 Amount := calculateLateFee a rule (calculateDaysOverdue now a.MonthlyDueDate),
                 AppliedDate := now }]
            creditAccounts := db.creditAccounts.map (fun x =>
              if x.ID == a.ID then
                { a with
                  CurrentBalance := a.CurrentBalance
                    + calculateLateFee a rule (calculateDaysOverdue now a.MonthlyDueDate) }
              else x)
            creditAccountHistories := db.creditAccountHistories ++
              [{ CreditAccountID := id, TransactionDate := now,
                 TransactionType := LateFeeApplied,
                 Amount := calculateLateFee a rule (calculateDaysOverdue now a.MonthlyDueDate),
                 Balance := a.CurrentBalance
                   + calculateLateFee a rule (calculateDaysOverdue now a.MonthlyDueDate),
                 Description := "Late Payment Fee Applied" }] } } := by
  simp [ApplyLateFee, Store.DBTransaction, hfind, not_le.mpr hdays, hrule,
    Store.CreateLateFee, Store.SaveCreditAccount, Store.CreateHistory, h0, h1, h2]

/-- A late-fee call fails and rolls back, is skipped, or charges a fee. -/
theorem ApplyLateFee_cases (w : Faults) (now : Time) (id : Nat) (db : Store) :
    ((ApplyLateFee w now id db).err ≠ none ∧ (ApplyLateFee w now id db).store = db) ∨
    (ApplyLateFee w now id db = { err := none, store := db }) ∨
    (∃ a rule, db.First id = some a ∧ 0 < calculateDaysOverdue now a.MonthlyDueDate ∧
      findLateFeeRule (db.PreloadLateFeeRule a) (db.PreloadEstablishmentLateFeeRules a)
        (calculateDaysOverdue now a.MonthlyDueDate) = some rule ∧
      w 0 = none ∧ w 1 = none ∧ w 2 = none) := by
  cases hfind : db.First id with
  | none => left; simp [ApplyLateFee, Store.DBTransaction, hfind]
  | some a =>
    by_cases hdays : calculateDaysOverdue now a.MonthlyDueDate ≤ 0
    · right; left; simp [ApplyLateFee, Store.DBTransaction, hfind, hdays]
    cases hrule : findLateFeeRule (db.PreloadLateFeeRule a)
        (db.PreloadEstablishmentLateFeeRules a) (calculateDaysOverdue now a.MonthlyDueDate) with
    | none => left; simp [ApplyLateFee, Store.DBTransaction, hfind, hdays, hrule]
    | some rule =>
      cases h0 : w 0 with
      | some e =>
        left; simp [ApplyLateFee, Store.DBTransaction, hfind, hdays, hrule,
          Store.CreateLateFee, h0]
      | none =>
        cases h1 : w 1 with
        | some e =>
          left; simp [ApplyLateFee, Store.DBTransaction, hfind, hdays, hrule,
            Store.CreateLateFee, Store.SaveCreditAccount, h0, h1]
        | none =>
          cases h2 : w 2 with
          | some e =>
            left; simp [ApplyLateFee, Store.DBTransaction, hfind, hdays, hrule,
              Store.CreateLateFee, Store.SaveCreditAccount, Store.CreateHistory, h0, h1, h2]
          | none =>
            right; right
            exact ⟨a, rule, rfl, not_le.mp hdays, hrule, rfl, rfl, rfl⟩

/-- The account row after a save of a row with the same key. -/
theorem First_after_save (db : Store) (id : Nat) (a a1 : CreditAccount)
    (ts : List Transaction) (hs : List CreditAccountHistory) (fs : List LateFee)
    (hfind : db.First id = some a) (hid : a1.ID = a.ID) :
    Store.First
      { db with
        transactions := ts
        creditAccounts := db.creditAccounts.map (fun x => if x.ID == a1.ID then a1 else x)
        creditAccountHistories := hs
        lateFees := fs } id = some a1 := by
  have haid : a.ID = id := First_ID hfind
  have := find_save_same db.creditAccounts a a1 (by rw [hid, haid]; exact hfind)
  simpa [Store.First, hid, haid] using this

/-- Counterexample to C6 as stated: on 2024-03-15 the owing account (due day 5,
balance 1000, a 5 percent rule of its establishment) is ten days overdue;
ApplyLateFee succeeds and raises the balance to 1050, yet the Transaction list
is unchanged: no Transaction of type LateFeeApplied is appended. -/
theorem ApplyLateFee_no_transaction_counterexample :
    (ApplyLateFee noFaults (Date 2024 3 15 0 0 0 0) 1 owingStore).err = none ∧
    (ApplyLateFee noFaults (Date 2024 3 15 0 0 0 0) 1 owingStore).store.First 1
      = some { owingAccount with CurrentBalance := 1050 } ∧
    (ApplyLateFee noFaults (Date 2024 3 15 0 0 0 0) 1 owingStore).store.transactions = [] ∧
    ¬ WritesTriple 1 LateFeeApplied owingStore
      (ApplyLateFee noFaults (Date 2024 3 15 0 0 0 0) 1 owingStore).store := by
  have hdays : calculateDaysOverdue (Date 2024 3 15 0 0 0 0) owingAccount.MonthlyDueDate = 10 := by
    decide
  have hok := ApplyLateFee_ok noFaults (Date 2024 3 15 0 0 0 0) 1 owingStore owingAccount
    { ID := 1, EstablishmentID := 7, Name := "standard", DaysOverdueMin := 1,
      DaysOverdueMax := 30, FeeType := Percentage, FeeValue := 5 }
    rfl (by rw [hdays]; decide) (by rw [hdays]; rfl) rfl rfl rfl
  rw [hok]
  refine ⟨rfl, ?_, rfl, ?_⟩
  · rw [hdays]
    simp [Store.First, owingStore, owingAccount, sampleAccount, calculateLateFee, Percentage]
    norm_num
  · rintro ⟨a, a1, t, h, -, -, ht, -⟩
    simp [owingStore, sampleStore] at ht

/-- C6 (amended): every balance mutation writes its ledger records.  Each
successful ProcessPurchase and ProcessPayment, and each successful
ApplyInterest that is not skipped, appends exactly one Transaction and exactly
one history row for the account (of type Purchase, Payment and InterestAccrual
respectively), the history row holding the new balance and the balance change.
Each successful ApplyLateFee that is not skipped appends exactly one LateFee
record and exactly one history row of type LateFeeApplied, both holding the
balance change, the history row holding the new balance, and writes no
Transaction. -/
theorem ledger_records_of_mutations (w : Faults) (now : Time) (id : Nat) (amount : ℚ)
    (description : String) (db : Store) :
    ((ProcessPurchase w now id amount description db).err = none →
      WritesTriple id Purchase db (ProcessPurchase w now id amount description db).store) ∧
    ((ProcessPayment w now id amount description db).err = none →
      WritesTriple id Payment db (ProcessPayment w now id amount description db).store) ∧
    ((ApplyInterest w now id db).err = none →
      (ApplyInterest w now id db).store = db ∨
      WritesTriple id InterestAccrual db (ApplyInterest w now id db).store) ∧
    ((ApplyLateFee w now id db).err = none →
      (ApplyLateFee w now id db).store = db ∨
      WritesLateFee id db (ApplyLateFee w now id db).store) := by
  refine ⟨?_, ?_, ?_, ?_⟩
  · intro herr
    rcases ProcessPurchase_cases w now id amount description db with
      h | ⟨a, hfind, hblk, hlim, h0, h1, h2⟩
    · exact absurd herr h.1
    · rw [ProcessPurchase_ok w now id amount description db a hfind hblk hlim h0 h1 h2]
      exact ⟨a, { a with CurrentBalance := a.CurrentBalance + amount }, _, _, hfind,
        First_after_save db id a { a with CurrentBalance := a.CurrentBalance + amount }
          _ _ _ hfind rfl, rfl, rfl, rfl, rfl, rfl, rfl, rfl,
        by simp⟩
  · intro herr
    rcases ProcessPayment_cases w now id amount description db with
      h | ⟨a, hfind, hle, h0, h1, h2, h3⟩
    · exact absurd herr h.1
    · rw [ProcessPayment_ok w now id amount description db a hfind hle h0 h1 h2 h3]
      exact ⟨a, paidAccount a amount, _, _, hfind,
        First_after_save db id a (paidAccount a amount) _ _ _ hfind rfl, rfl, rfl, rfl, rfl, rfl, rfl, rfl,
        by simp [paidAccount, sub_eq_add_neg]⟩
  · intro herr
    rcases ApplyInterest_cases w now id db with
      h | ⟨a, hfind, hskip⟩ | ⟨a, hfind, hbal, hwin, h0, h1, h2⟩
    · exact absurd herr h.1
    · left
      rw [ApplyInterest_skip w now id db a hfind hskip]
    · right
      rw [ApplyInterest_ok w now id db a hfind hbal hwin h0 h1 h2]
      exact ⟨a, { a with
          CurrentBalance := a.CurrentBalance + calculateInterest a
          LastInterestAccrualDate := now }, _, _, hfind,
        First_after_save db id a { a with
          CurrentBalance := a.CurrentBalance + calculateInterest a
          LastInterestAccrualDate := now } _ _ _ hfind rfl, rfl, rfl, rfl, rfl, rfl, rfl, rfl,
        by simp⟩
  · intro herr
    rcases ApplyLateFee_cases w now id db with
      h | h | ⟨a, rule, hfind, hdays, hrule, h0, h1, h2⟩
    · exact absurd herr h.1
    · left
      rw [h]
    · right
      rw [ApplyLateFee_ok w now id db a rule hfind hdays hrule h0 h1 h2]
      exact ⟨a, { a with
          CurrentBalance := a.CurrentBalance
            + calculateLateFee a rule (calculateDaysOverdue now a.MonthlyDueDate) }, _, _,
        hfind, First_after_save db id a { a with
          CurrentBalance := a.CurrentBalance
            + calculateLateFee a rule (calculateDaysOverdue now a.MonthlyDueDate) }
          _ _ _ hfind rfl, rfl, rfl, by simp, rfl, rfl, rfl,
        rfl, by simp, rfl⟩

/-- Witness of C6 (amended): a purchase of 800 on the sample account writes
the triple; a late fee on the owing account, ten days overdue, writes its
LateFee record and history row. -/
theorem ledger_records_of_mutations_witness :
    WritesTriple 1 Purchase sampleStore
      (ProcessPurchase noFaults 0 1 800 "groceries" sampleStore).store ∧
    ((ApplyLateFee noFaults (Date 2024 3 15 0 0 0 0) 1 owingStore).store = owingStore ∨
      WritesLateFee 1 owingStore
        (ApplyLateFee noFaults (Date 2024 3 15 0 0 0 0) 1 owingStore).store) := by
  have hdays : calculateDaysOverdue (Date 2024 3 15 0 0 0 0) owingAccount.MonthlyDueDate = 10 := by
    decide
  refine ⟨(ledger_records_of_mutations noFaults 0 1 800 "groceries" sampleStore).1 ?_,
    (ledger_records_of_mutations noFaults (Date 2024 3 15 0 0 0 0) 1 0 "" owingStore).2.2.2 ?_⟩
  · rw [ProcessPurchase_ok noFaults 0 1 800 "groceries" sampleStore sampleAccount rfl rfl
      (by norm_num [sampleAccount]) rfl rfl rfl]
  · rw [ApplyLateFee_ok noFaults (Date 2024 3 15 0 0 0 0) 1 owingStore owingAccount
      { ID := 1, EstablishmentID := 7, Name := "standard", DaysOverdueMin := 1,
        DaysOverdueMax := 30, FeeType := Percentage, FeeValue := 5 }
      rfl (by rw [hdays]; decide) (by rw [hdays]; rfl) rfl rfl rfl]

/-! ## Late-fee rules -/

/-- The first matching element of a list is what `find?` returns. -/
theorem find_first_match {α : Type} (p : α → Bool) (pre post : List α) (r : α)
    (hpre : ∀ x ∈ pre, p x = false) (hr : p r = true) :
    (pre ++ r :: post).find? p = some r := by
  induction pre with
  | nil => simp [List.find?_cons, hr]
  | cons x xs ih =>
    have hx : p x = false := hpre x (List.mem_cons_self _ _)
    rw [List.cons_append, List.find?_cons, hx]
    exact ih (fun y hy => hpre y (List.mem_cons_of_mem _ hy))

/-- An account that is not overdue is skipped. -/
theorem ApplyLateFee_skip (w : Faults) (now : Time) (id : Nat) (db : Store)
    (a : CreditAccount) (hfind : db.First id = some a)
    (h : calculateDaysOverdue now a.MonthlyDueDate ≤ 0) :
    ApplyLateFee w now id db = { err := none, store := db } := by
  simp [ApplyLateFee, Store.DBTransaction, hfind, h]

/-- Without a rule the late fee fails and writes nothing. -/
theorem ApplyLateFee_no_rule (w : Faults) (now : Time) (id : Nat) (db : Store)
    (a : CreditAccount) (hfind : db.First id = some a)
    (hdays : 0 < calculateDaysOverdue now a.MonthlyDueDate)
    (hrule : findLateFeeRule (db.PreloadLateFeeRule a) (db.PreloadEstablishmentLateFeeRules a)
      (calculateDaysOverdue now a.MonthlyDueDate) = none) :
    ApplyLateFee w now id db =
      { err := some "no late fee rule found for this credit account", store := db } := by
  simp [ApplyLateFee, Store.DBTransaction, hfind, not_le.mpr hdays, hrule]

/-- From the due date on, days overdue are the whole days elapsed. -/
theorem calculateDaysOverdue_eq (now : Time) (monthlyDueDate : Int)
    (h : ¬ now < Date (Year now) (Month now) monthlyDueDate 0 0 0 0) :
    calculateDaysOverdue now monthlyDueDate
      = (now - Date (Year now) (Month now) monthlyDueDate 0 0 0 0) / nsPerDay := by
  simp [calculateDaysOverdue, Before, Sub, h]

/-- Days overdue are never negative. -/
theorem calculateDaysOverdue_nonneg (now : Time) (monthlyDueDate : Int) :
    0 ≤ calculateDaysOverdue now monthlyDueDate := by
  by_cases h : now < Date (Year now) (Month now) monthlyDueDate 0 0 0 0
  · simp [calculateDaysOverdue, Before, h]
  · rw [calculateDaysOverdue_eq now monthlyDueDate h]
    exact Int.ediv_nonneg (Int.sub_nonneg_of_le (not_lt.mp h)) (by decide)

/-- C13: ApplyLateFee does nothing for an account that is not overdue.  Days
overdue are never negative; they are 0 when now is before the due date of the
current month (day monthlyDueDate of the month of now, midnight UTC), and
otherwise the number k of whole days from that due date to now (due + k days
≤ now < due + (k+1) days); and whenever days overdue ≤ 0, ApplyLateFee returns
no error and leaves the whole store unchanged, whatever the rules and the
fault oracle. -/
theorem ApplyLateFee_noop_not_overdue (w : Faults) (now : Time) (id : Nat) (db : Store)
    (a : CreditAccount) (hfind : db.First id = some a) :
    0 ≤ calculateDaysOverdue now a.MonthlyDueDate ∧
    (now < Date (Year now) (Month now) a.MonthlyDueDate 0 0 0 0 →
      calculateDaysOverdue now a.MonthlyDueDate = 0) ∧
    (Date (Year now) (Month now) a.MonthlyDueDate 0 0 0 0 ≤ now →
      Date (Year now) (Month now) a.MonthlyDueDate 0 0 0 0
          + calculateDaysOverdue now a.MonthlyDueDate * nsPerDay ≤ now ∧
      now < Date (Year now) (Month now) a.MonthlyDueDate 0 0 0 0
          + (calculateDaysOverdue now a.MonthlyDueDate + 1) * nsPerDay) ∧
    (calculateDaysOverdue now a.MonthlyDueDate ≤ 0 →
      (ApplyLateFee w now id db).err = none ∧ (ApplyLateFee w now id db).store = db) := by
  refine ⟨calculateDaysOverdue_nonneg _ _, ?_, ?_, ?_⟩
  · intro h
    simp [calculateDaysOverdue, Before, h]
  · intro h
    have hnot : ¬ now < Date (Year now) (Month now) a.MonthlyDueDate 0 0 0 0 := not_lt.mpr h
    rw [calculateDaysOverdue_eq now a.MonthlyDueDate hnot]
    have hpos : (0 : Int) < nsPerDay := by decide
    have h1 := Int.ediv_mul_le (now - Date (Year now) (Month now) a.MonthlyDueDate 0 0 0 0)
      (ne_of_gt hpos)
    have h2 := Int.lt_ediv_add_one_mul_self
      (now - Date (Year now) (Month now) a.MonthlyDueDate 0 0 0 0) hpos
    constructor <;> linarith
  · intro h
    rw [ApplyLateFee_skip w now id db a hfind h]
    exact ⟨rfl, rfl⟩

/-- Witness of C13: on 2024-03-03 the sample account (due day 5) is not
overdue and ApplyLateFee changes nothing. -/
theorem ApplyLateFee_noop_not_overdue_witness :
    calculateDaysOverdue (Date 2024 3 3 12 0 0 0) sampleAccount.MonthlyDueDate = 0 ∧
    (ApplyLateFee noFaults (Date 2024 3 3 12 0 0 0) 1 sampleStore).err = none ∧
    (ApplyLateFee noFaults (Date 2024 3 3 12 0 0 0) 1 sampleStore).store = sampleStore := by
  have h := ApplyLateFee_noop_not_overdue noFaults (Date 2024 3 3 12 0 0 0) 1 sampleStore
    sampleAccount rfl
  exact ⟨h.2.1 (by decide), h.2.2.2 (by decide)⟩

/-- The fee inside and outside the window of a rule. -/
theorem calculateLateFee_eq (a : CreditAccount) (rule : LateFeeRule) (d : Int) :
    calculateLateFee a rule d
      = if rule.DaysOverdueMin ≤ d ∧ d ≤ rule.DaysOverdueMax then ruleFee a rule else 0 := by
  unfold calculateLateFee ruleFee
  by_cases h1 : d < rule.DaysOverdueMin
  · have : ¬ (rule.DaysOverdueMin ≤ d ∧ d ≤ rule.DaysOverdueMax) := fun h => by omega
    simp [h1, this]
  · by_cases h2 : d > rule.DaysOverdueMax
    · have : ¬ (rule.DaysOverdueMin ≤ d ∧ d ≤ rule.DaysOverdueMax) := fun h => by omega
      simp [h2, this]
    · have h3 : rule.DaysOverdueMin ≤ d ∧ d ≤ rule.DaysOverdueMax := ⟨by omega, by omega⟩
      simp [h1, h2, h3]

/-- C14: late-fee rule resolution is first-match.  For a stored, overdue
account that pins no rule: if the establishment's rule list is pre ++ r :: post
with no rule of pre containing days overdue and r containing it, ApplyLateFee
(writes succeeding) charges the fee of r, whatever post holds; and if no rule
of the list contains days overdue, ApplyLateFee fails with the no-rule error
and leaves the store unchanged. -/
theorem ApplyLateFee_first_match (w : Faults) (now : Time) (id : Nat) (db : Store)
    (a : CreditAccount) (hfind : db.First id = some a)
    (hdays : 0 < calculateDaysOverdue now a.MonthlyDueDate)
    (hpin : db.PreloadLateFeeRule a = none) :
    (∀ pre r post, db.PreloadEstablishmentLateFeeRules a = pre ++ r :: post →
      (∀ x ∈ pre, ¬ (x.DaysOverdueMin ≤ calculateDaysOverdue now a.MonthlyDueDate ∧
        calculateDaysOverdue now a.MonthlyDueDate ≤ x.DaysOverdueMax)) →
      (r.DaysOverdueMin ≤ calculateDaysOverdue now a.MonthlyDueDate ∧
        calculateDaysOverdue now a.MonthlyDueDate ≤ r.DaysOverdueMax) →
      w 0 = none → w 1 = none → w 2 = none →
      (ApplyLateFee w now id db).err = none ∧
      (ApplyLateFee w now id db).store.lateFees
        = db.lateFees ++ [{ CreditAccountID := id, Amount := ruleFee a r, AppliedDate := now }] ∧
      (ApplyLateFee w now id db).store.First id
        = some { a with CurrentBalance := a.CurrentBalance + ruleFee a r }) ∧
    ((∀ x ∈ db.PreloadEstablishmentLateFeeRules a,
        ¬ (x.DaysOverdueMin ≤ calculateDaysOverdue now a.MonthlyDueDate ∧
          calculateDaysOverdue now a.MonthlyDueDate ≤ x.DaysOverdueMax)) →
      (ApplyLateFee w now id db).err = some "no late fee rule found for this credit account" ∧
      (ApplyLateFee w now id db).store = db) := by
  constructor
  · intro pre r post hlist hpre hr h0 h1 h2
    have hrule : findLateFeeRule (db.PreloadLateFeeRule a)
        (db.PreloadEstablishmentLateFeeRules a) (calculateDaysOverdue now a.MonthlyDueDate)
        = some r := by
      rw [hpin, hlist]
      unfold findLateFeeRule
      apply find_first_match
      · intro x hx
        have := hpre x hx
        simpa using this
      · simpa using hr
    rw [ApplyLateFee_ok w now id db a r hfind hdays hrule h0 h1 h2]
    have hfee : calculateLateFee a r (calculateDaysOverdue now a.MonthlyDueDate) = ruleFee a r := by
      rw [calculateLateFee_eq, if_pos hr]
    rw [hfee]
    exact ⟨rfl, rfl, First_after_save db id a
      { a with CurrentBalance := a.CurrentBalance + ruleFee a r } _ _ _ hfind rfl⟩
  · intro hnone
    have hrule : findLateFeeRule (db.PreloadLateFeeRule a)
        (db.PreloadEstablishmentLateFeeRules a) (calculateDaysOverdue now a.MonthlyDueDate)
        = none := by
      rw [hpin]
      unfold findLateFeeRule
      rw [List.find?_eq_none]
      intro x hx
      have := hnone x hx
      simpa using this
    rw [ApplyLateFee_no_rule w now id db a hfind hdays hrule]
    exact ⟨rfl, rfl⟩

/-- Witness of C14: ten days overdue, the standard rule (days 1 to 30) comes
first and is used although the flat rule (days 8 to 12) is tighter; with only
a rule for days 1 to 5 the call fails and changes nothing. -/
theorem ApplyLateFee_first_match_witness :
    ((ApplyLateFee noFaults (Date 2024 3 15 0 0 0 0) 1 overlapStore).err = none ∧
      (ApplyLateFee noFaults (Date 2024 3 15 0 0 0 0) 1 overlapStore).store.lateFees
        = [{ CreditAccountID := 1, Amount := ruleFee owingAccount standardRule,
             AppliedDate := Date 2024 3 15 0 0 0 0 }] ∧
      (ApplyLateFee noFaults (Date 2024 3 15 0 0 0 0) 1 overlapStore).store.First 1
        = some { owingAccount with
            CurrentBalance := owingAccount.CurrentBalance + ruleFee owingAccount standardRule }) ∧
    ((ApplyLateFee noFaults (Date 2024 3 15 0 0 0 0) 1 narrowStore).err
        = some "no late fee rule found for this credit account" ∧
      (ApplyLateFee noFaults (Date 2024 3 15 0 0 0 0) 1 narrowStore).store = narrowStore) := by
  have hdays : calculateDaysOverdue (Date 2024 3 15 0 0 0 0) owingAccount.MonthlyDueDate = 10 := by
    decide
  have h1 := (ApplyLateFee_first_match noFaults (Date 2024 3 15 0 0 0 0) 1 overlapStore
    owingAccount rfl (by rw [hdays]; decide) rfl).1 [] standardRule [tightRule] rfl
    (by intro x hx; cases hx) (by rw [hdays]; decide) rfl rfl rfl
  have h2 := (ApplyLateFee_first_match noFaults (Date 2024 3 15 0 0 0 0) 1 narrowStore
    owingAccount rfl (by rw [hdays]; decide) rfl).2
    (by
      intro x hx
      have hx2 : x = { earlyRule with ID := 4, EstablishmentID := 7 } := by
        simpa [Store.PreloadEstablishmentLateFeeRules, narrowStore, owingAccount,
          sampleAccount] using hx
      rw [hx2, hdays]
      decide)
  exact ⟨h1, h2⟩

/-- Counterexample to C15 as stated: the account pins a 5 percent rule for days
1 to 5 and is ten days overdue with balance 1000.  ApplyLateFee uses the pinned
rule and charges 0, not 5/100 * 1000 = 50: the balance stays 1000 and the
LateFee record has amount 0. -/
theorem ApplyLateFee_pinned_outside_window_counterexample :
    pinningStore.PreloadLateFeeRule pinningAccount = some earlyRule ∧
    calculateDaysOverdue (Date 2024 3 15 0 0 0 0) pinningAccount.MonthlyDueDate = 10 ∧
    earlyRule.FeeValue / 100 * pinningAccount.CurrentBalance = 50 ∧
    (ApplyLateFee noFaults (Date 2024 3 15 0 0 0 0) 1 pinningStore).err = none ∧
    (ApplyLateFee noFaults (Date 2024 3 15 0 0 0 0) 1 pinningStore).store.lateFees
      = [{ CreditAccountID := 1, Amount := 0, AppliedDate := Date 2024 3 15 0 0 0 0 }] ∧
    (ApplyLateFee noFaults (Date 2024 3 15 0 0 0 0) 1 pinningStore).store.First 1
      = some pinningAccount := by
  have hdays : calculateDaysOverdue (Date 2024 3 15 0 0 0 0) pinningAccount.MonthlyDueDate
      = 10 := by decide
  have hok := ApplyLateFee_ok noFaults (Date 2024 3 15 0 0 0 0) 1 pinningStore pinningAccount
    earlyRule rfl (by rw [hdays]; decide) rfl rfl rfl rfl
  have hfee : calculateLateFee pinningAccount earlyRule 10 = 0 := by
    rw [calculateLateFee_eq, if_neg (by decide)]
  refine ⟨rfl, hdays, by norm_num [earlyRule, pinningAccount, owingAccount, sampleAccount], ?_⟩
  rw [hok, hdays, hfee]
  refine ⟨rfl, rfl, ?_⟩
  simp [Store.First, pinningStore, pinningAccount, owingAccount, sampleAccount]

/-- C15 (amended): an account-pinned rule takes precedence and sets the fee
within its window.  For a stored, overdue account whose pinned rule is
present, ApplyLateFee (writes succeeding) uses the pinned rule whatever the
establishment's rule list contains; the fee charged is feeValue/100 * balance
for a Percentage rule and feeValue otherwise when days overdue lie inside the
pinned rule's window, and 0 when they lie outside it (the LateFee record and
the balance update are still written, with that amount). -/
theorem ApplyLateFee_pinned_rule (w : Faults) (now : Time) (id : Nat) (db : Store)
    (a : CreditAccount) (r : LateFeeRule) (hfind : db.First id = some a)
    (hdays : 0 < calculateDaysOverdue now a.MonthlyDueDate)
    (hpin : db.PreloadLateFeeRule a = some r)
    (h0 : w 0 = none) (h1 : w 1 = none) (h2 : w 2 = none) :
    (ApplyLateFee w now id db).err = none ∧
    (ApplyLateFee w now id db).store.lateFees
      = db.lateFees ++
          [{ CreditAccountID := id
             Amount :=
               if r.DaysOverdueMin ≤ calculateDaysOverdue now a.MonthlyDueDate ∧
                   calculateDaysOverdue now a.MonthlyDueDate ≤ r.DaysOverdueMax then
                 (if r.FeeType = Percentage then r.FeeValue / 100 * a.CurrentBalance
                  else r.FeeValue)
               else 0
             AppliedDate := now }] ∧
    (ApplyLateFee w now id db).store.First id
      = some { a with
          CurrentBalance := a.CurrentBalance +
            (if r.DaysOverdueMin ≤ calculateDaysOverdue now a.MonthlyDueDate ∧
                calculateDaysOverdue now a.MonthlyDueDate ≤ r.DaysOverdueMax then
              (if r.FeeType = Percentage then r.FeeValue / 100 * a.CurrentBalance
               else r.FeeValue)
            else 0) } := by
  have hrule : findLateFeeRule (db.PreloadLateFeeRule a)
      (db.PreloadEstablishmentLateFeeRules a) (calculateDaysOverdue now a.MonthlyDueDate)
      = some r := by
    rw [hpin]
    rfl
  rw [ApplyLateFee_ok w now id db a r hfind hdays hrule h0 h1 h2, calculateLateFee_eq]
  exact ⟨rfl, rfl, First_after_save db id a
    { a with
      CurrentBalance := a.CurrentBalance +
        (if r.DaysOverdueMin ≤ calculateDaysOverdue now a.MonthlyDueDate ∧
            calculateDaysOverdue now a.MonthlyDueDate ≤ r.DaysOverdueMax then ruleFee a r
        else 0) } _ _ _ hfind rfl⟩

/-- Witness of C15 (amended): the pinned rule for days 1 to 5 is used ten days
overdue although the establishment's standard rule matches, and charges 0. -/
theorem ApplyLateFee_pinned_rule_witness :
    (ApplyLateFee noFaults (Date 2024 3 15 0 0 0 0) 1 pinningStore).store.lateFees
      = [{ CreditAccountID := 1, Amount := 0, AppliedDate := Date 2024 3 15 0 0 0 0 }] := by
  have hdays : calculateDaysOverdue (Date 2024 3 15 0 0 0 0) pinningAccount.MonthlyDueDate
      = 10 := by decide
  have h := (ApplyLateFee_pinned_rule noFaults (Date 2024 3 15 0 0 0 0) 1 pinningStore
    pinningAccount earlyRule rfl (by rw [hdays]; decide) rfl rfl rfl rfl).2.1
  rw [h, hdays, if_neg (by decide)]
  rfl

/-- C16: late-fee amount and its application.  For a stored, overdue account
whose resolved rule's window contains days overdue, ApplyLateFee (writes
succeeding) charges fee = feeValue/100 * balance for a Percentage rule and fee
= feeValue for a FixedAmount rule, sets the balance to balance + fee, appends
one LateFee record with that amount and one history row of type LateFeeApplied
with that amount and the new balance; every other account row and table is
unchanged. -/
theorem ApplyLateFee_charges_fee (w : Faults) (now : Time) (id : Nat) (db : Store)
    (a : CreditAccount) (r : LateFeeRule) (hfind : db.First id = some a)
    (hdays : 0 < calculateDaysOverdue now a.MonthlyDueDate)
    (hrule : findLateFeeRule (db.PreloadLateFeeRule a) (db.PreloadEstablishmentLateFeeRules a)
      (calculateDaysOverdue now a.MonthlyDueDate) = some r)
    (hwin : r.DaysOverdueMin ≤ calculateDaysOverdue now a.MonthlyDueDate ∧
      calculateDaysOverdue now a.MonthlyDueDate ≤ r.DaysOverdueMax)
    (h0 : w 0 = none) (h1 : w 1 = none) (h2 : w 2 = none) :
    (r.FeeType = Percentage → ruleFee a r = r.FeeValue / 100 * a.CurrentBalance) ∧
    (r.FeeType = FixedAmount → ruleFee a r = r.FeeValue) ∧
    (ApplyLateFee w now id db).err = none ∧
    (ApplyLateFee w now id db).store.First id
      = some { a with CurrentBalance := a.CurrentBalance + ruleFee a r } ∧
    (∀ other, other ≠ id → (ApplyLateFee w now id db).store.First other = db.First other) ∧
    (ApplyLateFee w now id db).store.lateFees
      = db.lateFees ++ [{ CreditAccountID := id, Amount := ruleFee a r, AppliedDate := now }] ∧
    (ApplyLateFee w now id db).store.creditAccountHistories
      = db.creditAccountHistories ++
          [{ CreditAccountID := id, TransactionDate := now, TransactionType := LateFeeApplied,
             Amount := ruleFee a r, Balance := a.CurrentBalance + ruleFee a r,
             Description := "Late Payment Fee Applied" }] ∧
    (ApplyLateFee w now id db).store.transactions = db.transactions ∧
    (ApplyLateFee w now id db).store.lateFeeRules = db.lateFeeRules ∧
    (ApplyLateFee w now id db).store.establishments = db.establishments ∧
    (ApplyLateFee w now id db).store.installments = db.installments := by
  have hid : a.ID = id := First_ID hfind
  rw [ApplyLateFee_ok w now id db a r hfind hdays hrule h0 h1 h2, calculateLateFee_eq,
    if_pos hwin]
  refine ⟨fun h => by simp [ruleFee, h], fun h => ?_, rfl,
    First_after_save db id a { a with CurrentBalance := a.CurrentBalance + ruleFee a r }
      _ _ _ hfind rfl, ?_, rfl, rfl, rfl, rfl, rfl, rfl⟩
  · have hne : r.FeeType ≠ Percentage := by rw [h]; decide
    simp [ruleFee, hne]
  · intro other ho
    exact find_save_other db.creditAccounts
      { a with CurrentBalance := a.CurrentBalance + ruleFee a r } other (by rw [hid]; exact ho)

/-- Witness of C16: a 5 percent rule on a balance of 1000, ten days overdue,
gives a fee of 50 and a balance of 1050. -/
theorem ApplyLateFee_charges_fee_witness :
    (ApplyLateFee noFaults (Date 2024 3 15 0 0 0 0) 1 owingStore).store.lateFees
      = [{ CreditAccountID := 1, Amount := 50, AppliedDate := Date 2024 3 15 0 0 0 0 }] ∧
    (ApplyLateFee noFaults (Date 2024 3 15 0 0 0 0) 1 owingStore).store.First 1
      = some { owingAccount with CurrentBalance := 1050 } := by
  have hdays : calculateDaysOverdue (Date 2024 3 15 0 0 0 0) owingAccount.MonthlyDueDate = 10 := by
    decide
  have h := ApplyLateFee_charges_fee noFaults (Date 2024 3 15 0 0 0 0) 1 owingStore
    owingAccount standardRule rfl (by rw [hdays]; decide) (by rw [hdays]; rfl)
    (by rw [hdays]; decide) rfl rfl rfl
  have hfee : ruleFee owingAccount standardRule = 50 := by
    norm_num [ruleFee, standardRule, owingAccount, sampleAccount, Percentage]
  rw [h.2.2.2.1, h.2.2.2.2.2.1, hfee]
  refine ⟨rfl, ?_⟩
  norm_num [owingAccount, sampleAccount]

/-! ## The interest formula -/

/-- A duration in days is positive exactly when the duration is. -/
theorem durationDays_pos (d : Int) : 0 < durationDays d ↔ 0 < d := by
  unfold durationDays nsPerHour
  constructor
  · intro h
    by_contra hd
    have hd2 : (d : ℚ) ≤ 0 := by exact_mod_cast not_lt.mp hd
    have : (d : ℚ) / ((3600000000000 : Int) : ℚ) / 24 ≤ 0 := by
      apply div_nonpos_of_nonpos_of_nonneg
      · apply div_nonpos_of_nonpos_of_nonneg hd2
        norm_num
      · norm_num
    linarith
  · intro h
    have hd2 : (0 : ℚ) < (d : ℚ) := by exact_mod_cast h
    apply div_pos
    · apply div_pos hd2
      norm_num
    · norm_num

/-- A conditional running sum is the sum over the selected elements. -/
theorem foldl_cond_sum {α : Type} (c : α → Bool) (f : α → ℚ) (l : List α) :
    ∀ init : ℚ, l.foldl (fun acc x => if c x = true then acc + f x else acc) init
      = init + ((l.filter c).map f).sum := by
  induction l with
  | nil => intro init; simp
  | cons x xs ih =>
    intro init
    rw [List.foldl_cons, ih]
    by_cases hx : c x = true
    · simp [hx, List.filter_cons, add_assoc]
    · simp [hx, List.filter_cons]

/-- C11: CalculateInterest equals its reference definition, keyed by credit
type, for nominal interest.  For a ShortTerm account it is
balance * (rate/100) * (d/365) when the days d since the last accrual reach the
number of days of the month of the last accrual, and 0 otherwise.  For a
LongTerm account (the installment query succeeding) it is the sum, over exactly
the installments of the account that are Pending and due strictly after now, of
amount * (rate/100) * (days until due / 365); so it does not depend on the
account's balance or last accrual date. -/
theorem CalculateInterest_reference (pow : ℚ → ℚ → ℚ) (now : Time) (db : Store)
    (a : CreditAccount) (hnom : a.InterestType = Nominal) :
    (a.CreditType = ShortTerm →
      CalculateInterest pow none now db a = shortTermNominalInterest now a) ∧
    (a.CreditType = LongTerm →
      CalculateInterest pow none now db a
        = longTermNominalInterest now db.installments a.ID a.InterestRate) ∧
    (a.CreditType = LongTerm → ∀ (balance : ℚ) (last : Time),
      CalculateInterest pow none now db
          { a with CurrentBalance := balance, LastInterestAccrualDate := last }
        = CalculateInterest pow none now db a) := by
  have hlong : ∀ b : CreditAccount, b.InterestType = Nominal → b.CreditType = LongTerm →
      CalculateInterest pow none now db b
        = longTermNominalInterest now db.installments b.ID b.InterestRate := by
    intro b hb hct
    have hne : (b.CreditType == ShortTerm) = false := by rw [hct]; decide
    have hn : (b.InterestType == Nominal) = true := by rw [hb]; decide
    unfold CalculateInterest longTermNominalInterest Store.GetByCreditAccountID Sub
    simp only [hne, Bool.false_eq_true, if_false, hn, if_true]
    have hfun : (fun (interest : ℚ) (installment : Installment) =>
          if (installment.Status == Pending) = true then
            if durationDays (installment.DueDate - now) > 0 then
              interest + installment.Amount * (b.InterestRate / 100)
                * (durationDays (installment.DueDate - now) / 365)
            else interest
          else interest)
        = (fun (acc : ℚ) (x : Installment) =>
          if (x.Status == Pending && decide (now < x.DueDate)) = true then
            acc + x.Amount * (b.InterestRate / 100) * (durationDays (x.DueDate - now) / 365)
          else acc) := by
      funext interest installment
      have hpos : durationDays (installment.DueDate - now) > 0 ↔ now < installment.DueDate := by
        rw [gt_iff_lt, durationDays_pos]
        exact sub_pos
      by_cases h1 : (installment.Status == Pending) = true
      · by_cases h2 : now < installment.DueDate
        · have hc : (installment.Status == Pending && decide (now < installment.DueDate)) = true := by
            simp [h1, h2]
          rw [if_pos h1, if_pos (hpos.mpr h2), if_pos hc]
        · have h3 : ¬ durationDays (installment.DueDate - now) > 0 := fun h => h2 (hpos.mp h)
          have hc : ¬ (installment.Status == Pending && decide (now < installment.DueDate)) = true := by
            simp [h2]
          rw [if_pos h1, if_neg h3, if_neg hc]
      · have hc : ¬ (installment.Status == Pending && decide (now < installment.DueDate)) = true := by
          simp [h1]
        rw [if_neg h1, if_neg hc]
    rw [hfun, foldl_cond_sum, zero_add]
  refine ⟨?_, hlong a hnom, ?_⟩
  · intro hct
    have hst : (a.CreditType == ShortTerm) = true := by rw [hct]; decide
    have hn : (a.InterestType == Nominal) = true := by rw [hnom]; decide
    unfold CalculateInterest shortTermNominalInterest
    simp only [hst, if_true, hn, ge_iff_le, Sub]
  · intro hct balance last
    rw [hlong a hnom hct]
    exact hlong { a with CurrentBalance := balance, LastInterestAccrualDate := last } hnom hct

/-- Witness of C11: on 2024-03-02 the long-term account owes interest on its
one pending installment due later, 300 * (12/100) * (30/365) = 216/73; the
owing short-term account follows the short-term formula. -/
theorem CalculateInterest_reference_witness :
    CalculateInterest (fun _ _ => 0) none (Date 2024 3 2 0 0 0 0) installmentStore
      longTermAccount = 216 / 73 ∧
    CalculateInterest (fun _ _ => 0) none (Date 2024 2 1 0 0 0 0) owingStore owingAccount
      = shortTermNominalInterest (Date 2024 2 1 0 0 0 0) owingAccount := by
  have h1 := (CalculateInterest_reference (fun _ _ => 0) (Date 2024 3 2 0 0 0 0)
    installmentStore longTermAccount rfl).2.1 rfl
  have h2 := (CalculateInterest_reference (fun _ _ => 0) (Date 2024 2 1 0 0 0 0)
    owingStore owingAccount rfl).1 rfl
  refine ⟨?_, h2⟩
  rw [h1]
  have hf : ((installmentStore.installments.filter
        (fun i => i.CreditAccountID == longTermAccount.ID)).filter
        (fun i => i.Status == Pending && decide (Date 2024 3 2 0 0 0 0 < i.DueDate)))
      = [{ ID := 1, CreditAccountID := 2, DueDate := Date 2024 4 1 0 0 0 0, Amount := 300,
           Status := Pending }] := by
    rfl
  have hd : Date 2024 4 1 0 0 0 0 - Date 2024 3 2 0 0 0 0 = 30 * nsPerDay := by decide
  unfold longTermNominalInterest
  rw [hf]
  simp only [List.map_cons, List.map_nil, List.sum_cons, List.sum_nil, hd]
  norm_num [durationDays, nsPerDay, nsPerHour, longTermAccount, sampleAccount]

/-! ## Batch jobs -/

/-- A missing account makes the interest call fail without writing. -/
theorem ApplyInterest_not_found (w : Faults) (now : Time) (id : Nat) (db : Store)
    (hfind : db.First id = none) :
    (ApplyInterest w now id db).err ≠ none ∧ (ApplyInterest w now id db).store = db := by
  simp [ApplyInterest, Store.DBTransaction, hfind]

/-- A failing write makes the interest call fail without writing. -/
theorem ApplyInterest_write_fails (w : Faults) (now : Time) (id : Nat) (db : Store)
    (a : CreditAccount) (hfind : db.First id = some a)
    (hbal : a.CurrentBalance ≠ 0) (hwin : ¬ now < AddDate a.LastInterestAccrualDate 0 1 0)
    (hw : ¬ (w 0 = none ∧ w 1 = none ∧ w 2 = none)) :
    (ApplyInterest w now id db).err ≠ none ∧ (ApplyInterest w now id db).store = db := by
  rcases ApplyInterest_cases w now id db with h | ⟨b, hb, hskip⟩ | ⟨b, _, _, _, h0, h1, h2⟩
  · exact h
  · rw [hfind] at hb
    cases hb
    rcases hskip with h | h
    · exact absurd h hbal
    · exact absurd h hwin
  · exact absurd ⟨h0, h1, h2⟩ hw

/-- The verdict of an interest call and the row it leaves depend only on the
row of its account. -/
theorem ApplyInterest_local (w : Faults) (now : Time) (id : Nat) (db db1 : Store)
    (h : db.First id = db1.First id) :
    ((ApplyInterest w now id db).err = none ↔ (ApplyInterest w now id db1).err = none) ∧
    (ApplyInterest w now id db).store.First id = (ApplyInterest w now id db1).store.First id := by
  cases hf : db.First id with
  | none =>
    have hf1 : db1.First id = none := by rw [← h]; exact hf
    have e := ApplyInterest_not_found w now id db hf
    have e1 := ApplyInterest_not_found w now id db1 hf1
    refine ⟨⟨fun x => absurd x e.1, fun x => absurd x e1.1⟩, ?_⟩
    rw [e.2, e1.2]
    exact h
  | some a =>
    have hf1 : db1.First id = some a := by rw [← h]; exact hf
    by_cases hskip : a.CurrentBalance = 0 ∨ now < AddDate a.LastInterestAccrualDate 0 1 0
    · rw [ApplyInterest_skip w now id db a hf hskip, ApplyInterest_skip w now id db1 a hf1 hskip]
      exact ⟨Iff.rfl, h⟩
    · have hbal : a.CurrentBalance ≠ 0 := fun x => hskip (Or.inl x)
      have hwin : ¬ now < AddDate a.LastInterestAccrualDate 0 1 0 := fun x => hskip (Or.inr x)
      by_cases hw : w 0 = none ∧ w 1 = none ∧ w 2 = none
      · rw [ApplyInterest_ok w now id db a hf hbal hwin hw.1 hw.2.1 hw.2.2,
          ApplyInterest_ok w now id db1 a hf1 hbal hwin hw.1 hw.2.1 hw.2.2]
        refine ⟨Iff.rfl, ?_⟩
        rw [First_after_save db id a
            { a with
              CurrentBalance := a.CurrentBalance + calculateInterest a
              LastInterestAccrualDate := now } _ _ _ hf rfl,
          First_after_save db1 id a
            { a with
              CurrentBalance := a.CurrentBalance + calculateInterest a
              LastInterestAccrualDate := now } _ _ _ hf1 rfl]
      · have e := ApplyInterest_write_fails w now id db a hf hbal hwin hw
        have e1 := ApplyInterest_write_fails w now id db1 a hf1 hbal hwin hw
        refine ⟨⟨fun x => absurd x e.1, fun x => absurd x e1.1⟩, ?_⟩
        rw [e.2, e1.2]
        exact h

/-- An interest call leaves the rows of other accounts and the rule tables
alone. -/
theorem ApplyInterest_frame (w : Faults) (now : Time) (id : Nat) (db : Store) :
    (∀ j, j ≠ id → (ApplyInterest w now id db).store.First j = db.First j) ∧
    SameRules db (ApplyInterest w now id db).store := by
  rcases ApplyInterest_cases w now id db with
    h | ⟨a, hfind, hskip⟩ | ⟨a, hfind, hbal, hwin, h0, h1, h2⟩
  · rw [h.2]
    exact ⟨fun _ _ => rfl, rfl, rfl⟩
  · rw [ApplyInterest_skip w now id db a hfind hskip]
    exact ⟨fun _ _ => rfl, rfl, rfl⟩
  · rw [ApplyInterest_ok w now id db a hfind hbal hwin h0 h1 h2]
    refine ⟨fun j hj => ?_, rfl, rfl⟩
    exact find_save_other db.creditAccounts
      { a with
        CurrentBalance := a.CurrentBalance + calculateInterest a
        LastInterestAccrualDate := now } j (by rw [First_ID hfind]; exact hj)

/-- The interest step of the batch is local. -/
theorem ApplyInterest_localStep (w : Nat → Faults) (now : Time) :
    LocalStep (fun k tx => ApplyInterest (w k) now k tx) where
  frame := fun i j db hj => (ApplyInterest_frame (w i) now i db).1 j hj
  rollback := fun _ _ h => DBTransaction_rollback _ _ h
  keep := fun i db => (ApplyInterest_frame (w i) now i db).2
  verdict := fun i db db1 h _ => (ApplyInterest_local (w i) now i db db1 h).1
  row := fun i db db1 h _ => (ApplyInterest_local (w i) now i db db1 h).2

/-- A missing account makes the late-fee call fail without writing. -/
theorem ApplyLateFee_not_found (w : Faults) (now : Time) (id : Nat) (db : Store)
    (hfind : db.First id = none) :
    (ApplyLateFee w now id db).err ≠ none ∧ (ApplyLateFee w now id db).store = db := by
  simp [ApplyLateFee, Store.DBTransaction, hfind]

/-- A failing write makes the late-fee call fail without writing. -/
theorem ApplyLateFee_write_fails (w : Faults) (now : Time) (id : Nat) (db : Store)
    (a : CreditAccount) (rule : LateFeeRule) (hfind : db.First id = some a)
    (hdays : 0 < calculateDaysOverdue now a.MonthlyDueDate)
    (hrule : findLateFeeRule (db.PreloadLateFeeRule a) (db.PreloadEstablishmentLateFeeRules a)
      (calculateDaysOverdue now a.MonthlyDueDate) = some rule)
    (hw : ¬ (w 0 = none ∧ w 1 = none ∧ w 2 = none)) :
    (ApplyLateFee w now id db).err ≠ none ∧ (ApplyLateFee w now id db).store = db := by
  rcases ApplyLateFee_cases w now id db with h | h | ⟨b, r, _, _, _, h0, h1, h2⟩
  · exact h
  · exfalso
    cases h0 : w 0 with
    | some e =>
      have : (ApplyLateFee w now id db).err ≠ none := by
        simp [ApplyLateFee, Store.DBTransaction, hfind, not_le.mpr hdays, hrule,
          Store.CreateLateFee, h0]
      rw [h] at this
      exact this rfl
    | none =>
      cases h1 : w 1 with
      | some e =>
        have : (ApplyLateFee w now id db).err ≠ none := by
          simp [ApplyLateFee, Store.DBTransaction, hfind, not_le.mpr hdays, hrule,
            Store.CreateLateFee, Store.SaveCreditAccount, h0, h1]
        rw [h] at this
        exact this rfl
      | none =>
        cases h2 : w 2 with
        | some e =>
          have : (ApplyLateFee w now id db).err ≠ none := by
            simp [ApplyLateFee, Store.DBTransaction, hfind, not_le.mpr hdays, hrule,
              Store.CreateLateFee, Store.SaveCreditAccount, Store.CreateHistory, h0, h1, h2]
          rw [h] at this
          exact this rfl
        | none => exact hw ⟨h0, h1, h2⟩
  · exact absurd ⟨h0, h1, h2⟩ hw

/-- The preloaded rules depend only on the rule tables. -/
theorem Preload_sameRules (db db1 : Store) (a : CreditAccount) (h : SameRules db db1) :
    db.PreloadLateFeeRule a = db1.PreloadLateFeeRule a ∧
    db.PreloadEstablishmentLateFeeRules a = db1.PreloadEstablishmentLateFeeRules a := by
  unfold Store.PreloadLateFeeRule Store.PreloadEstablishmentLateFeeRules
  rw [h.1, h.2]
  exact ⟨rfl, rfl⟩

/-- The verdict of a late-fee call and the row it leaves depend only on the
row of its account and on the rule tables. -/
theorem ApplyLateFee_local (w : Faults) (now : Time) (id : Nat) (db db1 : Store)
    (h : db.First id = db1.First id) (hr : SameRules db db1) :
    ((ApplyLateFee w now id db).err = none ↔ (ApplyLateFee w now id db1).err = none) ∧
    (ApplyLateFee w now id db).store.First id = (ApplyLateFee w now id db1).store.First id := by
  cases hf : db.First id with
  | none =>
    have hf1 : db1.First id = none := by rw [← h]; exact hf
    have e := ApplyLateFee_not_found w now id db hf
    have e1 := ApplyLateFee_not_found w now id db1 hf1
    refine ⟨⟨fun x => absurd x e.1, fun x => absurd x e1.1⟩, ?_⟩
    rw [e.2, e1.2]
    exact h
  | some a =>
    have hf1 : db1.First id = some a := by rw [← h]; exact hf
    by_cases hskip : calculateDaysOverdue now a.MonthlyDueDate ≤ 0
    · rw [ApplyLateFee_skip w now id db a hf hskip, ApplyLateFee_skip w now id db1 a hf1 hskip]
      exact ⟨Iff.rfl, h⟩
    · have hdays : 0 < calculateDaysOverdue now a.MonthlyDueDate := not_le.mp hskip
      have hp := Preload_sameRules db db1 a hr
      cases hrule : findLateFeeRule (db.PreloadLateFeeRule a)
          (db.PreloadEstablishmentLateFeeRules a) (calculateDaysOverdue now a.MonthlyDueDate) with
      | none =>
        have hrule1 := hrule
        rw [hp.1, hp.2] at hrule1
        rw [ApplyLateFee_no_rule w now id db a hf hdays hrule,
          ApplyLateFee_no_rule w now id db1 a hf1 hdays hrule1]
        exact ⟨Iff.rfl, h⟩
      | some rule =>
        have hrule1 := hrule
        rw [hp.1, hp.2] at hrule1
        by_cases hw : w 0 = none ∧ w 1 = none ∧ w 2 = none
        · rw [ApplyLateFee_ok w now id db a rule hf hdays hrule hw.1 hw.2.1 hw.2.2,
            ApplyLateFee_ok w now id db1 a rule hf1 hdays hrule1 hw.1 hw.2.1 hw.2.2]
          refine ⟨Iff.rfl, ?_⟩
          rw [First_after_save db id a
              { a with
                CurrentBalance := a.CurrentBalance
                  + calculateLateFee a rule (calculateDaysOverdue now a.MonthlyDueDate) }
              _ _ _ hf rfl,
            First_after_save db1 id a
              { a with
                CurrentBalance := a.CurrentBalance
                  + calculateLateFee a rule (calculateDaysOverdue now a.MonthlyDueDate) }
              _ _ _ hf1 rfl]
        · have e := ApplyLateFee_write_fails w now id db a rule hf hdays hrule hw
          have e1 := ApplyLateFee_write_fails w now id db1 a rule hf1 hdays hrule1 hw
          refine ⟨⟨fun x => absurd x e.1, fun x => absurd x e1.1⟩, ?_⟩
          rw [e.2, e1.2]
          exact h

/-- A late-fee call leaves the rows of other accounts and the rule tables
alone. -/
theorem ApplyLateFee_frame (w : Faults) (now : Time) (id : Nat) (db : Store) :
    (∀ j, j ≠ id → (ApplyLateFee w now id db).store.First j = db.First j) ∧
    SameRules db (ApplyLateFee w now id db).store := by
  rcases ApplyLateFee_cases w now id db with
    h | h | ⟨a, rule, hfind, hdays, hrule, h0, h1, h2⟩
  · rw [h.2]
    exact ⟨fun _ _ => rfl, rfl, rfl⟩
  · rw [h]
    exact ⟨fun _ _ => rfl, rfl, rfl⟩
  · rw [ApplyLateFee_ok w now id db a rule hfind hdays hrule h0 h1 h2]
    refine ⟨fun j hj => ?_, rfl, rfl⟩
    exact find_save_other db.creditAccounts
      { a with
        CurrentBalance := a.CurrentBalance
          + calculateLateFee a rule (calculateDaysOverdue now a.MonthlyDueDate) }
      j (by rw [First_ID hfind]; exact hj)

/-- The late-fee step of the batch is local. -/
theorem ApplyLateFee_localStep (w : Nat → Faults) (now : Time) :
    LocalStep (fun k tx => ApplyLateFee (w k) now k tx) where
  frame := fun i j db hj => (ApplyLateFee_frame (w i) now i db).1 j hj
  rollback := fun _ _ h => DBTransaction_rollback _ _ h
  keep := fun i db => (ApplyLateFee_frame (w i) now i db).2
  verdict := fun i db db1 h hr => (ApplyLateFee_local (w i) now i db db1 h hr).1
  row := fun i db db1 h hr => (ApplyLateFee_local (w i) now i db db1 h hr).2

/-- The batch loop stops at the first failing account: it returns an error,
every account before the failing one holds the row a stand-alone call leaves,
and every row that is not of those accounts is as before the loop. -/
theorem batchLoop_stops (step : Nat → Store → Outcome) (label : String) (hs : LocalStep step)
    (db : Store) (ai : CreditAccount) (post : List CreditAccount) (pre : List CreditAccount) :
    ∀ cur : Store,
      (∀ k ∈ pre ++ ai :: post, cur.First k.ID = db.First k.ID) → SameRules db cur →
      ((pre ++ ai :: post).map (fun a => a.ID)).Nodup →
      (∀ j ∈ pre, (step j.ID db).err = none) → (step ai.ID db).err ≠ none →
      (batchLoop step label (pre ++ ai :: post) cur).err ≠ none ∧
      (∀ j ∈ pre, (batchLoop step label (pre ++ ai :: post) cur).store.First j.ID
        = (step j.ID db).store.First j.ID) ∧
      (∀ k, k ∉ pre.map (fun a => a.ID) →
        (batchLoop step label (pre ++ ai :: post) cur).store.First k = cur.First k) := by
  induction pre with
  | nil =>
    intro cur hagree hrules _ _ hfail
    have hai : cur.First ai.ID = db.First ai.ID := hagree ai (by simp)
    have herr : (step ai.ID cur).err ≠ none := fun hx =>
      hfail ((hs.verdict ai.ID db cur hai.symm hrules).mpr hx)
    have hstore := hs.rollback ai.ID cur herr
    cases he : (step ai.ID cur).err with
    | none => exact absurd he herr
    | some e =>
      have hb : batchLoop step label ([] ++ ai :: post) cur
          = { err := some (label ++ toString ai.ID ++ ": " ++ e)
              store := (step ai.ID cur).store } := by
        simp only [List.nil_append, batchLoop, he]
      rw [hb]
      refine ⟨by simp, fun j hj => absurd hj (List.not_mem_nil _), fun k _ => ?_⟩
      show (step ai.ID cur).store.First k = cur.First k
      rw [hstore]
  | cons j0 rest ih =>
    intro cur hagree hrules hnodup hpre hfail
    have hj0 : cur.First j0.ID = db.First j0.ID := hagree j0 (by simp)
    have hok : (step j0.ID cur).err = none :=
      (hs.verdict j0.ID db cur hj0.symm hrules).mp (hpre j0 (by simp))
    have hnd : j0.ID ∉ (rest ++ ai :: post).map (fun a => a.ID) ∧
        ((rest ++ ai :: post).map (fun a => a.ID)).Nodup := by
      simpa [List.nodup_cons] using hnodup
    have hagree1 : ∀ k ∈ rest ++ ai :: post,
        (step j0.ID cur).store.First k.ID = db.First k.ID := by
      intro k hk
      have hne : k.ID ≠ j0.ID := by
        intro hx
        apply hnd.1
        rw [← hx]
        exact List.mem_map_of_mem (fun a => a.ID) hk
      rw [hs.frame j0.ID k.ID cur hne]
      exact hagree k (by simp only [List.cons_append, List.mem_cons]; right; exact hk)
    have hrules1 : SameRules db (step j0.ID cur).store := by
      have hk := hs.keep j0.ID cur
      exact ⟨hrules.1.trans hk.1, hrules.2.trans hk.2⟩
    have hrec := ih (step j0.ID cur).store hagree1 hrules1 hnd.2
      (fun j hj => hpre j (List.mem_cons_of_mem _ hj)) hfail
    have hunfold : batchLoop step label ((j0 :: rest) ++ ai :: post) cur
        = batchLoop step label (rest ++ ai :: post) (step j0.ID cur).store := by
      simp only [List.cons_append, batchLoop, hok]
      rfl
    rw [hunfold]
    refine ⟨hrec.1, ?_, ?_⟩
    · intro j hj
      rcases List.mem_cons.mp hj with rfl | hj
      · have hnot : j.ID ∉ rest.map (fun a => a.ID) := by
          intro hx
          apply hnd.1
          simp only [List.map_append, List.mem_append]
          left
          exact hx
        rw [hrec.2.2 j.ID hnot]
        exact (hs.row j.ID db cur hj0.symm hrules).symm
      · exact hrec.2.1 j hj
    · intro k hk
      have hk1 : k ≠ j0.ID ∧ k ∉ rest.map (fun a => a.ID) := by
        simpa [List.mem_cons, not_or] using hk
      rw [hrec.2.2 k hk1.2]
      exact hs.frame j0.ID k cur hk1.1

/-- Counterexample to C12 as stated: the sample establishment has accounts 1
and 2, and the units of work of account 1 fail.  The interest batch on
2024-02-05 and the late-fee batch on 2024-03-15 return the error of account 1
and leave account 2 untouched, whereas a stand-alone ApplyInterest moves its
last accrual date and a stand-alone ApplyLateFee raises its balance to 1050. -/
theorem batch_fail_fast_counterexample :
    ((ApplyInterestToAllAccounts none firstAccountFails (Date 2024 2 5 0 0 0 0) 7
        twoAccountStore).err ≠ none ∧
      (ApplyInterestToAllAccounts none firstAccountFails (Date 2024 2 5 0 0 0 0) 7
        twoAccountStore).store.First 2 = some secondAccount ∧
      (ApplyInterest (firstAccountFails 2) (Date 2024 2 5 0 0 0 0) 2 twoAccountStore).store.First 2
        = some { secondAccount with LastInterestAccrualDate := Date 2024 2 5 0 0 0 0 } ∧
      secondAccount.LastInterestAccrualDate ≠ Date 2024 2 5 0 0 0 0) ∧
    ((ApplyLateFeesToAllAccounts none firstAccountFails (Date 2024 3 15 0 0 0 0) 7
        twoAccountStore).err ≠ none ∧
      (ApplyLateFeesToAllAccounts none firstAccountFails (Date 2024 3 15 0 0 0 0) 7
        twoAccountStore).store.First 2 = some secondAccount ∧
      (ApplyLateFee (firstAccountFails 2) (Date 2024 3 15 0 0 0 0) 2 twoAccountStore).store.First 2
        = some { secondAccount with CurrentBalance := 1050 } ∧
      secondAccount.CurrentBalance ≠ 1050) := by
  have hnd : ((([] : List CreditAccount) ++ owingAccount :: [secondAccount]).map (fun a => a.ID)).Nodup := by decide
  have hbal : owingAccount.CurrentBalance ≠ 0 := by norm_num [owingAccount, sampleAccount]
  have hbal2 : secondAccount.CurrentBalance ≠ 0 := by
    norm_num [secondAccount, owingAccount, sampleAccount]
  have hdays : calculateDaysOverdue (Date 2024 3 15 0 0 0 0) owingAccount.MonthlyDueDate = 10 := by
    decide
  constructor
  · have hfail := (ApplyInterest_write_fails (firstAccountFails 1) (Date 2024 2 5 0 0 0 0) 1
      twoAccountStore owingAccount rfl hbal (by decide)
      (by simp [firstAccountFails, secondWriteFails])).1
    have hb := batchLoop_stops (fun k tx => ApplyInterest (firstAccountFails k)
      (Date 2024 2 5 0 0 0 0) k tx) "error applying interest to account "
      (ApplyInterest_localStep firstAccountFails (Date 2024 2 5 0 0 0 0)) twoAccountStore
      owingAccount [secondAccount] [] twoAccountStore (fun _ _ => rfl) ⟨rfl, rfl⟩ hnd
      (fun j hj => absurd hj (List.not_mem_nil _)) hfail
    refine ⟨hb.1, ?_, ?_, by decide⟩
    · exact hb.2.2 2 (by simp)
    · rw [ApplyInterest_ok (firstAccountFails 2) (Date 2024 2 5 0 0 0 0) 2 twoAccountStore
        secondAccount rfl hbal2 (by decide) rfl rfl rfl]
      rw [First_after_save twoAccountStore 2 secondAccount
        { secondAccount with
          CurrentBalance := secondAccount.CurrentBalance + calculateInterest secondAccount
          LastInterestAccrualDate := Date 2024 2 5 0 0 0 0 } _ _ _ rfl rfl]
      simp [calculateInterest]
  · have hlist : twoAccountStore.GetOverdueAccounts none (Date 2024 3 15 0 0 0 0) 7
        = .ok (([] : List CreditAccount) ++ owingAccount :: [secondAccount]) := by
      have hday : Day (Date 2024 3 15 0 0 0 0) = 15 := by decide
      simp [Store.GetOverdueAccounts, hday, twoAccountStore, sampleStore, owingAccount,
        secondAccount, sampleAccount]
    have hfail := (ApplyLateFee_write_fails (firstAccountFails 1) (Date 2024 3 15 0 0 0 0) 1
      twoAccountStore owingAccount standardRule rfl (by rw [hdays]; decide)
      (by rw [hdays]; rfl) (by simp [firstAccountFails, secondWriteFails])).1
    have hb := batchLoop_stops (fun k tx => ApplyLateFee (firstAccountFails k)
      (Date 2024 3 15 0 0 0 0) k tx) "error applying late fee to account "
      (ApplyLateFee_localStep firstAccountFails (Date 2024 3 15 0 0 0 0)) twoAccountStore
      owingAccount [secondAccount] [] twoAccountStore (fun _ _ => rfl) ⟨rfl, rfl⟩ hnd
      (fun j hj => absurd hj (List.not_mem_nil _)) hfail
    have hbatch : ApplyLateFeesToAllAccounts none firstAccountFails (Date 2024 3 15 0 0 0 0) 7
        twoAccountStore
        = batchLoop (fun k tx => ApplyLateFee (firstAccountFails k) (Date 2024 3 15 0 0 0 0) k tx)
            "error applying late fee to account " (([] : List CreditAccount) ++ owingAccount :: [secondAccount])
            twoAccountStore := by
      unfold ApplyLateFeesToAllAccounts
      rw [hlist]
    rw [hbatch]
    refine ⟨hb.1, hb.2.2 2 (by simp), ?_,
      by norm_num [secondAccount, owingAccount, sampleAccount]⟩
    have hok := ApplyLateFee_ok (firstAccountFails 2) (Date 2024 3 15 0 0 0 0) 2 twoAccountStore
      secondAccount standardRule rfl (by rw [show secondAccount.MonthlyDueDate
        = owingAccount.MonthlyDueDate from rfl, hdays]; decide)
      (by rw [show secondAccount.MonthlyDueDate = owingAccount.MonthlyDueDate from rfl, hdays]; rfl)
      rfl rfl rfl
    rw [hok, First_after_save twoAccountStore 2 secondAccount
      { secondAccount with
        CurrentBalance := secondAccount.CurrentBalance + calculateLateFee secondAccount
          standardRule (calculateDaysOverdue (Date 2024 3 15 0 0 0 0)
            secondAccount.MonthlyDueDate) } _ _ _ rfl rfl]
    rw [show secondAccount.MonthlyDueDate = owingAccount.MonthlyDueDate from rfl, hdays,
      calculateLateFee_eq, if_pos (by decide)]
    norm_num [ruleFee, standardRule, secondAccount, owingAccount, sampleAccount, Percentage]

/-- The keys of a selection of rows are distinct when the keys of the table
are. -/
theorem filter_keys_nodup (l : List CreditAccount) (p : CreditAccount → Bool)
    (h : (l.map (fun a => a.ID)).Nodup) : ((l.filter p).map (fun a => a.ID)).Nodup :=
  List.Nodup.sublist (List.Sublist.map (fun a => a.ID) (List.filter_sublist l)) h

/-- C12 (amended): the batch jobs stop at the first failure.  In a store whose
account keys are distinct, let pre ++ ai :: post be the accounts the batch
iterates (the accounts of the establishment for interest, its overdue accounts
for late fees).  If the stand-alone call succeeds on every account of pre and
fails on ai, then ApplyInterestToAllAccounts (respectively
ApplyLateFeesToAllAccounts) returns an error, every account of pre ends with
the row that a stand-alone ApplyInterest (respectively ApplyLateFee) leaves,
and ai and every account of post keep the row they had: they are not
processed. -/
theorem batch_stops_at_first_failure (w : Nat → Faults) (now : Time) (establishmentID : Nat)
    (db : Store) (hkey : (db.creditAccounts.map (fun a => a.ID)).Nodup) :
    (∀ pre ai post,
      db.GetByEstablishmentID none establishmentID = .ok (pre ++ ai :: post) →
      (∀ j ∈ pre, (ApplyInterest (w j.ID) now j.ID db).err = none) →
      (ApplyInterest (w ai.ID) now ai.ID db).err ≠ none →
      (ApplyInterestToAllAccounts none w now establishmentID db).err ≠ none ∧
      (∀ j ∈ pre,
        (ApplyInterestToAllAccounts none w now establishmentID db).store.First j.ID
          = (ApplyInterest (w j.ID) now j.ID db).store.First j.ID) ∧
      (∀ j ∈ ai :: post,
        (ApplyInterestToAllAccounts none w now establishmentID db).store.First j.ID
          = db.First j.ID)) ∧
    (∀ pre ai post,
      db.GetOverdueAccounts none now establishmentID = .ok (pre ++ ai :: post) →
      (∀ j ∈ pre, (ApplyLateFee (w j.ID) now j.ID db).err = none) →
      (ApplyLateFee (w ai.ID) now ai.ID db).err ≠ none →
      (ApplyLateFeesToAllAccounts none w now establishmentID db).err ≠ none ∧
      (∀ j ∈ pre,
        (ApplyLateFeesToAllAccounts none w now establishmentID db).store.First j.ID
          = (ApplyLateFee (w j.ID) now j.ID db).store.First j.ID) ∧
      (∀ j ∈ ai :: post,
        (ApplyLateFeesToAllAccounts none w now establishmentID db).store.First j.ID
          = db.First j.ID)) := by
  constructor
  · intro pre ai post hlist hpre hfail
    have hnd : ((pre ++ ai :: post).map (fun a => a.ID)).Nodup := by
      have hl : db.creditAccounts.filter (fun a => a.EstablishmentID == establishmentID)
          = pre ++ ai :: post := by
        simpa [Store.GetByEstablishmentID] using hlist
      rw [← hl]
      exact filter_keys_nodup _ _ hkey
    have hb := batchLoop_stops (fun k tx => ApplyInterest (w k) now k tx)
      "error applying interest to account " (ApplyInterest_localStep w now) db ai post pre db
      (fun _ _ => rfl) ⟨rfl, rfl⟩ hnd hpre hfail
    have hbatch : ApplyInterestToAllAccounts none w now establishmentID db
        = batchLoop (fun k tx => ApplyInterest (w k) now k tx)
            "error applying interest to account " (pre ++ ai :: post) db := by
      unfold ApplyInterestToAllAccounts
      rw [hlist]
    rw [hbatch]
    refine ⟨hb.1, hb.2.1, fun j hj => hb.2.2 j.ID ?_⟩
    intro hmem
    obtain ⟨x, hx, hxid⟩ := List.mem_map.mp hmem
    have hdis := List.nodup_append.mp (by simpa [List.map_append] using hnd)
    exact hdis.2.2 (List.mem_map_of_mem (fun a => a.ID) hx)
      (by rw [hxid]; exact List.mem_map_of_mem (fun a => a.ID) hj) 
  · intro pre ai post hlist hpre hfail
    have hnd : ((pre ++ ai :: post).map (fun a => a.ID)).Nodup := by
      have hl : db.creditAccounts.filter (fun a =>
            a.EstablishmentID == establishmentID && decide (a.MonthlyDueDate < Day now)
              && decide (a.CurrentBalance > 0))
          = pre ++ ai :: post := by
        simpa [Store.GetOverdueAccounts] using hlist
      rw [← hl]
      exact filter_keys_nodup _ _ hkey
    have hb := batchLoop_stops (fun k tx => ApplyLateFee (w k) now k tx)
      "error applying late fee to account " (ApplyLateFee_localStep w now) db ai post pre db
      (fun _ _ => rfl) ⟨rfl, rfl⟩ hnd hpre hfail
    have hbatch : ApplyLateFeesToAllAccounts none w now establishmentID db
        = batchLoop (fun k tx => ApplyLateFee (w k) now k tx)
            "error applying late fee to account " (pre ++ ai :: post) db := by
      unfold ApplyLateFeesToAllAccounts
      rw [hlist]
    rw [hbatch]
    refine ⟨hb.1, hb.2.1, fun j hj => hb.2.2 j.ID ?_⟩
    intro hmem
    obtain ⟨x, hx, hxid⟩ := List.mem_map.mp hmem
    have hdis := List.nodup_append.mp (by simpa [List.map_append] using hnd)
    exact hdis.2.2 (List.mem_map_of_mem (fun a => a.ID) hx)
      (by rw [hxid]; exact List.mem_map_of_mem (fun a => a.ID) hj)

/-- Witness of C12 (amended): when the units of work of account 2 fail, the
interest batch on 2024-02-05 processes account 1 as a stand-alone call would,
returns the error of account 2 and leaves account 2 as it was. -/
theorem batch_stops_at_first_failure_witness :
    (ApplyInterestToAllAccounts none secondAccountFails (Date 2024 2 5 0 0 0 0) 7
      twoAccountStore).err ≠ none ∧
    (ApplyInterestToAllAccounts none secondAccountFails (Date 2024 2 5 0 0 0 0) 7
      twoAccountStore).store.First 1
      = (ApplyInterest (secondAccountFails 1) (Date 2024 2 5 0 0 0 0) 1
          twoAccountStore).store.First 1 ∧
    (ApplyInterestToAllAccounts none secondAccountFails (Date 2024 2 5 0 0 0 0) 7
      twoAccountStore).store.First 2 = twoAccountStore.First 2 := by
  have hbal : owingAccount.CurrentBalance ≠ 0 := by norm_num [owingAccount, sampleAccount]
  have hbal2 : secondAccount.CurrentBalance ≠ 0 := by
    norm_num [secondAccount, owingAccount, sampleAccount]
  have h := (batch_stops_at_first_failure secondAccountFails (Date 2024 2 5 0 0 0 0) 7
    twoAccountStore (by decide)).1 [owingAccount] secondAccount [] rfl
    (by
      intro j hj
      rw [List.mem_singleton.mp hj,
        ApplyInterest_ok (secondAccountFails owingAccount.ID) (Date 2024 2 5 0 0 0 0)
          owingAccount.ID twoAccountStore owingAccount rfl hbal (by decide) rfl rfl rfl])
    (ApplyInterest_write_fails (secondAccountFails 2) (Date 2024 2 5 0 0 0 0) 2
      twoAccountStore secondAccount rfl hbal2 (by decide)
      (by simp [secondAccountFails, secondWriteFails])).1
  exact ⟨h.1, h.2.1 owingAccount (by simp), h.2.2 secondAccount (by simp)⟩

/-! ## Repeated late fees -/

/-- A second late-fee call on the store of a first one charges again, on the
balance the first call left. -/
theorem ApplyLateFee_again (w1 w2 : Faults) (now : Time) (id : Nat) (db : Store)
    (a : CreditAccount) (r : LateFeeRule) (hfind : db.First id = some a)
    (hdays : 0 < calculateDaysOverdue now a.MonthlyDueDate)
    (hrule : findLateFeeRule (db.PreloadLateFeeRule a) (db.PreloadEstablishmentLateFeeRules a)
      (calculateDaysOverdue now a.MonthlyDueDate) = some r)
    (h0 : w1 0 = none) (h1 : w1 1 = none) (h2 : w1 2 = none)
    (k0 : w2 0 = none) (k1 : w2 1 = none) (k2 : w2 2 = none) (fee1 fee2 : ℚ)
    (hfee1 : calculateLateFee a r (calculateDaysOverdue now a.MonthlyDueDate) = fee1)
    (hfee2 : calculateLateFee { a with CurrentBalance := a.CurrentBalance + fee1 } r
      (calculateDaysOverdue now a.MonthlyDueDate) = fee2) :
    (ApplyLateFee w1 now id db).err = none ∧
    (ApplyLateFee w1 now id db).store.lateFees
      = db.lateFees ++ [{ CreditAccountID := id, Amount := fee1, AppliedDate := now }] ∧
    (ApplyLateFee w1 now id db).store.First id
      = some { a with CurrentBalance := a.CurrentBalance + fee1 } ∧
    (ApplyLateFee w2 now id (ApplyLateFee w1 now id db).store).err = none ∧
    (ApplyLateFee w2 now id (ApplyLateFee w1 now id db).store).store.lateFees
      = db.lateFees ++
          [{ CreditAccountID := id, Amount := fee1, AppliedDate := now },
           { CreditAccountID := id, Amount := fee2, AppliedDate := now }] ∧
    (ApplyLateFee w2 now id (ApplyLateFee w1 now id db).store).store.creditAccountHistories
      = db.creditAccountHistories ++
          [{ CreditAccountID := id, TransactionDate := now, TransactionType := LateFeeApplied,
             Amount := fee1, Balance := a.CurrentBalance + fee1,
             Description := "Late Payment Fee Applied" },
           { CreditAccountID := id, TransactionDate := now, TransactionType := LateFeeApplied,
             Amount := fee2, Balance := a.CurrentBalance + fee1 + fee2,
             Description := "Late Payment Fee Applied" }] ∧
    (ApplyLateFee w2 now id (ApplyLateFee w1 now id db).store).store.First id
      = some { a with CurrentBalance := a.CurrentBalance + fee1 + fee2 } := by
  have e1 := ApplyLateFee_ok w1 now id db a r hfind hdays hrule h0 h1 h2
  rw [hfee1] at e1
  have hf1 := First_after_save db id a { a with CurrentBalance := a.CurrentBalance + fee1 }
    db.transactions
    (db.creditAccountHistories ++
      [{ CreditAccountID := id, TransactionDate := now, TransactionType := LateFeeApplied,
         Amount := fee1, Balance := a.CurrentBalance + fee1,
         Description := "Late Payment Fee Applied" }])
    (db.lateFees ++ [{ CreditAccountID := id, Amount := fee1, AppliedDate := now }])
    hfind rfl
  have e2 := ApplyLateFee_ok w2 now id _ { a with CurrentBalance := a.CurrentBalance + fee1 } r
    hf1 hdays hrule k0 k1 k2
  have hf2 := First_after_save _ id { a with CurrentBalance := a.CurrentBalance + fee1 }
    { a with CurrentBalance := a.CurrentBalance + fee1 + fee2 }
    db.transactions
    ((db.creditAccountHistories ++
      [{ CreditAccountID := id, TransactionDate := now, TransactionType := LateFeeApplied,
         Amount := fee1, Balance := a.CurrentBalance + fee1,
         Description := "Late Payment Fee Applied" }]) ++
      [{ CreditAccountID := id, TransactionDate := now, TransactionType := LateFeeApplied,
         Amount := fee2, Balance := a.CurrentBalance + fee1 + fee2,
         Description := "Late Payment Fee Applied" }])
    ((db.lateFees ++ [{ CreditAccountID := id, Amount := fee1, AppliedDate := now }]) ++
      [{ CreditAccountID := id, Amount := fee2, AppliedDate := now }])
    hf1 rfl
  have hd : calculateDaysOverdue now
      ({ a with CurrentBalance := a.CurrentBalance + fee1 } : CreditAccount).MonthlyDueDate
      = calculateDaysOverdue now a.MonthlyDueDate := rfl
  rw [hd, hfee2] at e2
  rw [e1]
  refine ⟨rfl, rfl, hf1, ?_, ?_, ?_, ?_⟩
  · rw [e2]
  · rw [e2]
    simp
  · rw [e2]
    simp
  · rw [e2]
    exact hf2

/-- A batch over one account whose step succeeds is that step. -/
theorem batchLoop_single (step : Nat → Store → Outcome) (label : String) (a : CreditAccount)
    (db : Store) (h : (step a.ID db).err = none) :
    batchLoop step label [a] db = { err := none, store := (step a.ID db).store } := by
  simp only [batchLoop, h]

/-- Counterexample to C17 as stated: the owing account (balance 1000, 5 percent
rule) is ten days overdue on 2024-03-15.  One ApplyLateFee leaves one LateFee
record of 50 and balance 1050; a second call at the same instant charges
again: a second LateFee record of 105/2 and balance 2205/2.  The batch job run
twice does the same. -/
theorem ApplyLateFee_twice_counterexample :
    (ApplyLateFee noFaults (Date 2024 3 15 0 0 0 0) 1 owingStore).store.lateFees
      = [{ CreditAccountID := 1, Amount := 50, AppliedDate := Date 2024 3 15 0 0 0 0 }] ∧
    (ApplyLateFee noFaults (Date 2024 3 15 0 0 0 0) 1 owingStore).store.First 1
      = some { owingAccount with CurrentBalance := 1050 } ∧
    (ApplyLateFee noFaults (Date 2024 3 15 0 0 0 0) 1
      (ApplyLateFee noFaults (Date 2024 3 15 0 0 0 0) 1 owingStore).store).store.lateFees
      = [{ CreditAccountID := 1, Amount := 50, AppliedDate := Date 2024 3 15 0 0 0 0 },
         { CreditAccountID := 1, Amount := 105 / 2, AppliedDate := Date 2024 3 15 0 0 0 0 }] ∧
    (ApplyLateFee noFaults (Date 2024 3 15 0 0 0 0) 1
      (ApplyLateFee noFaults (Date 2024 3 15 0 0 0 0) 1 owingStore).store).store.First 1
      = some { owingAccount with CurrentBalance := 2205 / 2 } ∧
    (ApplyLateFeesToAllAccounts none (fun _ => noFaults) (Date 2024 3 15 0 0 0 0) 7
      (ApplyLateFeesToAllAccounts none (fun _ => noFaults) (Date 2024 3 15 0 0 0 0) 7
        owingStore).store).store.lateFees
      = [{ CreditAccountID := 1, Amount := 50, AppliedDate := Date 2024 3 15 0 0 0 0 },
         { CreditAccountID := 1, Amount := 105 / 2, AppliedDate := Date 2024 3 15 0 0 0 0 }] := by
  have hdays : calculateDaysOverdue (Date 2024 3 15 0 0 0 0) owingAccount.MonthlyDueDate = 10 := by
    decide
  have hday : Day (Date 2024 3 15 0 0 0 0) = 15 := by decide
  have hfee1 : calculateLateFee owingAccount standardRule
      (calculateDaysOverdue (Date 2024 3 15 0 0 0 0) owingAccount.MonthlyDueDate) = 50 := by
    rw [hdays, calculateLateFee_eq, if_pos (by decide)]
    norm_num [ruleFee, standardRule, owingAccount, sampleAccount, Percentage]
  have hfee2 : calculateLateFee
      { owingAccount with CurrentBalance := owingAccount.CurrentBalance + 50 } standardRule
      (calculateDaysOverdue (Date 2024 3 15 0 0 0 0) owingAccount.MonthlyDueDate) = 105 / 2 := by
    rw [hdays, calculateLateFee_eq, if_pos (by decide)]
    norm_num [ruleFee, standardRule, owingAccount, sampleAccount, Percentage]
  have h := ApplyLateFee_again noFaults noFaults (Date 2024 3 15 0 0 0 0) 1 owingStore
    owingAccount standardRule rfl (by rw [hdays]; decide) (by rw [hdays]; rfl)
    rfl rfl rfl rfl rfl rfl 50 (105 / 2) hfee1 hfee2
  have hb1 : (owingAccount.CurrentBalance + 50 : ℚ) = 1050 := by
    norm_num [owingAccount, sampleAccount]
  have hb2 : ((1050 : ℚ) + 105 / 2) = 2205 / 2 := by norm_num
  rw [hb1] at h
  rw [hb2] at h
  have hlist1 : owingStore.GetOverdueAccounts none (Date 2024 3 15 0 0 0 0) 7
      = .ok [owingAccount] := by
    simp [Store.GetOverdueAccounts, hday, owingStore, sampleStore, owingAccount, sampleAccount]
  have hbatch1 : ApplyLateFeesToAllAccounts none (fun _ => noFaults) (Date 2024 3 15 0 0 0 0) 7
      owingStore
      = { err := none
          store := (ApplyLateFee noFaults (Date 2024 3 15 0 0 0 0) 1 owingStore).store } := by
    unfold ApplyLateFeesToAllAccounts
    rw [hlist1]
    exact batchLoop_single _ _ owingAccount owingStore h.1
  have hacc1 : (ApplyLateFee noFaults (Date 2024 3 15 0 0 0 0) 1 owingStore).store.creditAccounts
      = [{ owingAccount with CurrentBalance := 1050 }] := by
    rw [ApplyLateFee_ok noFaults (Date 2024 3 15 0 0 0 0) 1 owingStore owingAccount
      standardRule rfl (by rw [hdays]; decide) (by rw [hdays]; rfl) rfl rfl rfl, hfee1, hb1]
    rfl
  have hlist2 : (ApplyLateFee noFaults (Date 2024 3 15 0 0 0 0) 1
      owingStore).store.GetOverdueAccounts none (Date 2024 3 15 0 0 0 0) 7
      = .ok [{ owingAccount with CurrentBalance := 1050 }] := by
    simp [Store.GetOverdueAccounts, hday, hacc1, owingAccount, sampleAccount]
  have hbatch2 : ApplyLateFeesToAllAccounts none (fun _ => noFaults) (Date 2024 3 15 0 0 0 0) 7
      (ApplyLateFee noFaults (Date 2024 3 15 0 0 0 0) 1 owingStore).store
      = { err := none
          store := (ApplyLateFee noFaults (Date 2024 3 15 0 0 0 0) 1
            (ApplyLateFee noFaults (Date 2024 3 15 0 0 0 0) 1 owingStore).store).store } := by
    unfold ApplyLateFeesToAllAccounts
    rw [hlist2]
    exact batchLoop_single _ _ { owingAccount with CurrentBalance := 1050 } _ h.2.2.2.1
  refine ⟨h.2.1, h.2.2.1, h.2.2.2.2.1, h.2.2.2.2.2.2, ?_⟩
  rw [hbatch1]
  show (ApplyLateFeesToAllAccounts none (fun _ => noFaults) (Date 2024 3 15 0 0 0 0) 7
    (ApplyLateFee noFaults (Date 2024 3 15 0 0 0 0) 1 owingStore).store).store.lateFees = _
  rw [hbatch2]
  exact h.2.2.2.2.1

/-- C17 (amended): ApplyLateFee is not idempotent.  For a stored, overdue
account with an applicable rule, writes succeeding, a second ApplyLateFee at
the same instant charges again: after both calls the LateFee list and the
history hold two new rows and the balance is balance + fee1 + fee2, where fee1
is the fee on the original balance and fee2 the fee on balance + fee1; the
LateFee list after two calls differs from the list after one call. -/
theorem ApplyLateFee_charges_again (w1 w2 : Faults) (now : Time) (id : Nat) (db : Store)
    (a : CreditAccount) (r : LateFeeRule) (hfind : db.First id = some a)
    (hdays : 0 < calculateDaysOverdue now a.MonthlyDueDate)
    (hrule : findLateFeeRule (db.PreloadLateFeeRule a) (db.PreloadEstablishmentLateFeeRules a)
      (calculateDaysOverdue now a.MonthlyDueDate) = some r)
    (h0 : w1 0 = none) (h1 : w1 1 = none) (h2 : w1 2 = none)
    (k0 : w2 0 = none) (k1 : w2 1 = none) (k2 : w2 2 = none) :
    (ApplyLateFee w2 now id (ApplyLateFee w1 now id db).store).err = none ∧
    (ApplyLateFee w2 now id (ApplyLateFee w1 now id db).store).store.lateFees
      = db.lateFees ++
          [{ CreditAccountID := id
             Amount := calculateLateFee a r (calculateDaysOverdue now a.MonthlyDueDate)
             AppliedDate := now },
           { CreditAccountID := id
             Amount := calculateLateFee
               { a with CurrentBalance := a.CurrentBalance
                  + calculateLateFee a r (calculateDaysOverdue now a.MonthlyDueDate) }
               r (calculateDaysOverdue now a.MonthlyDueDate)
             AppliedDate := now }] ∧
    (ApplyLateFee w2 now id (ApplyLateFee w1 now id db).store).store.First id
      = some { a with
          CurrentBalance := a.CurrentBalance
            + calculateLateFee a r (calculateDaysOverdue now a.MonthlyDueDate)
            + calculateLateFee
                { a with CurrentBalance := a.CurrentBalance
                    + calculateLateFee a r (calculateDaysOverdue now a.MonthlyDueDate) }
                r (calculateDaysOverdue now a.MonthlyDueDate) } ∧
    (ApplyLateFee w2 now id (ApplyLateFee w1 now id db).store).store.creditAccountHistories.length
      = db.creditAccountHistories.length + 2 ∧
    (ApplyLateFee w2 now id (ApplyLateFee w1 now id db).store).store.lateFees
      ≠ (ApplyLateFee w1 now id db).store.lateFees := by
  have h := ApplyLateFee_again w1 w2 now id db a r hfind hdays hrule h0 h1 h2 k0 k1 k2 _ _
    rfl rfl
  refine ⟨h.2.2.2.1, h.2.2.2.2.1, h.2.2.2.2.2.2, ?_, ?_⟩
  · rw [h.2.2.2.2.2.1]
    simp
  · rw [h.2.2.2.2.1, h.2.1]
    intro hx
    have := congrArg List.length hx
    simp at this

/-- Witness of C17 (amended): two late-fee calls on the owing account, ten days
overdue, leave two LateFee records. -/
theorem ApplyLateFee_charges_again_witness :
    (ApplyLateFee noFaults (Date 2024 3 15 0 0 0 0) 1
      (ApplyLateFee noFaults (Date 2024 3 15 0 0 0 0) 1 owingStore).store).store.lateFees
      ≠ (ApplyLateFee noFaults (Date 2024 3 15 0 0 0 0) 1 owingStore).store.lateFees := by
  have hdays : calculateDaysOverdue (Date 2024 3 15 0 0 0 0) owingAccount.MonthlyDueDate = 10 := by
    decide
  exact (ApplyLateFee_charges_again noFaults noFaults (Date 2024 3 15 0 0 0 0) 1 owingStore
    owingAccount standardRule rfl (by rw [hdays]; decide) (by rw [hdays]; rfl)
    rfl rfl rfl rfl rfl rfl).2.2.2.2

/-! ## The credit-request workflow -/

/-- After a save, the saved request key holds the saved row. -/
theorem findRequest_save_same (l : List CreditRequest) (r r1 : CreditRequest)
    (h : l.find? (fun x => x.ID == r1.ID) = some r) :
    (l.map (fun x => if x.ID == r1.ID then r1 else x)).find? (fun x => x.ID == r1.ID)
      = some r1 := by
  induction l with
  | nil => simp at h
  | cons x xs ih =>
    by_cases hx : x.ID = r1.ID
    · simp [List.find?, hx]
    · have hx2 : (x.ID == r1.ID) = false := by simpa using hx
      rw [List.find?_cons, hx2] at h
      rw [List.map_cons, List.find?_cons]
      simp only [hx2, Bool.false_eq_true, if_false]
      exact ih h

/-- A save does not change what another request key holds. -/
theorem findRequest_save_other (l : List CreditRequest) (r1 : CreditRequest) (id : Nat)
    (h : id ≠ r1.ID) :
    (l.map (fun x => if x.ID == r1.ID then r1 else x)).find? (fun x => x.ID == id)
      = l.find? (fun x => x.ID == id) := by
  induction l with
  | nil => rfl
  | cons x xs ih =>
    rw [List.map_cons, List.find?_cons, List.find?_cons, ih]
    by_cases hx : x.ID = r1.ID
    · have h1 : (r1.ID == id) = false := by simpa using (Ne.symm h)
      have h2 : (x.ID == id) = false := by rw [hx]; exact h1
      have h3 : (x.ID == r1.ID) = true := by simpa using hx
      simp only [h3, if_true, h1, h2]
    · have hx2 : (x.ID == r1.ID) = false := by simpa using hx
      simp only [hx2, Bool.false_eq_true, if_false]

/-- The request row a lookup returns has the key that was asked for. -/
theorem findRequest_ID {l : List CreditRequest} {id : Nat} {r : CreditRequest}
    (h : l.find? (fun x => x.ID == id) = some r) : r.ID = id := by
  have := List.find?_some h
  simpa using this

/-- The load of a stored request that names an establishment fails, whatever
the driver does. -/
theorem GetCreditRequestByID_fails (db : Store) (fault : Option String) (id : Nat)
    (r : CreditRequest) (hreq : db.creditRequests.find? (fun x => x.ID == id) = some r)
    (hest : r.EstablishmentID ≠ 0) :
    ∃ e, db.GetCreditRequestByID fault id = .error e := by
  cases fault with
  | some e => exact ⟨e, rfl⟩
  | none =>
    exact ⟨"LateFeeRule: " ++ ErrUnsupportedRelation ++ " for schema Establishment", by
      simp [Store.GetCreditRequestByID, hreq, hest]⟩

/-- The approval of a stored request that names an establishment returns the
error of the load and writes nothing. -/
theorem ApproveCreditRequest_load_fails (readFault : Option String) (w : Faults) (now : Time)
    (id adminID : Nat) (db : Store) (r : CreditRequest)
    (hreq : db.creditRequests.find? (fun x => x.ID == id) = some r)
    (hest : r.EstablishmentID ≠ 0) :
    ∃ msg, ApproveCreditRequest readFault w now id adminID db
      = .returned { response := none, err := some msg, store := db } := by
  obtain ⟨e, he⟩ := GetCreditRequestByID_fails db readFault id r hreq hest
  exact ⟨"error retrieving credit request: " ++ e, by simp [ApproveCreditRequest, he]⟩

/-- The rejection of a stored request that names an establishment returns the
error of the load and writes nothing. -/
theorem RejectCreditRequest_load_fails (readFault : Option String) (w : Faults) (now : Time)
    (id adminID : Nat) (db : Store) (r : CreditRequest)
    (hreq : db.creditRequests.find? (fun x => x.ID == id) = some r)
    (hest : r.EstablishmentID ≠ 0) :
    ∃ msg, RejectCreditRequest readFault w now id adminID db
      = .returned { err := some msg, store := db } := by
  obtain ⟨e, he⟩ := GetCreditRequestByID_fails db readFault id r hreq hest
  exact ⟨"error retrieving credit request: " ++ e, by simp [RejectCreditRequest, he]⟩

/-- The repository approval, both writes succeeding: the account is appended
and the request saved as Approved; the returned response is nil. -/
theorem Store.ApproveCreditRequest_ok (db : Store) (w : Faults) (now : Time)
    (cr : LoadedCreditRequest) (h0 : w 0 = none) (h1 : w 1 = none) :
    db.ApproveCreditRequest w now cr
      = { response := none, err := none
          store := approvedStore db now cr.request cr.Establishment } := by
  simp [Store.ApproveCreditRequest, Store.DBTransaction, Store.CreateCreditAccount,
    Store.UpdateCreditRequest, h0, h1, approvedStore]

/-- C18 (the code at the failing input): request 1 of the request store is
Pending and belongs to establishment 7, whose admin is user 11.  For every
clock reading and fault oracle, ApproveCreditRequest(1, 11) and
RejectCreditRequest(1, 11) by that admin each return the error of the failed
load of the request, and the store is as before: the guards on the acting admin
and on the status are not reached. -/
theorem workflow_guards_not_reached :
    requestStore.creditRequests = [pendingRequest] ∧
    pendingRequest.Status = entities.Pending ∧ pendingRequest.EstablishmentID = 7 ∧
    requestStore.admins = [sampleAdmin] ∧
    sampleAdmin.EstablishmentID = 7 ∧ sampleAdmin.UserID = 11 ∧
    (∀ (w : Faults) (now : Time),
      ApproveCreditRequest none w now 1 11 requestStore
        = .returned
            { response := none
              err := some ("error retrieving credit request: "
                ++ "LateFeeRule: unsupported relations for schema Establishment")
              store := requestStore }) ∧
    (∀ (w : Faults) (now : Time),
      RejectCreditRequest none w now 1 11 requestStore
        = .returned
            { err := some ("error retrieving credit request: "
                ++ "LateFeeRule: unsupported relations for schema Establishment")
              store := requestStore }) := by
  refine ⟨rfl, rfl, rfl, rfl, rfl, rfl, fun w now => ?_, fun w now => ?_⟩
  · rfl
  · rfl

/-- Every key in use is at most the largest key. -/
theorem le_foldr_max (l : List Nat) : ∀ x ∈ l, x ≤ l.foldr max 0 := by
  induction l with
  | nil => intro x hx; cases hx
  | cons y ys ih =>
    intro x hx
    rw [List.foldr_cons]
    rcases List.mem_cons.mp hx with rfl | hx
    · exact le_max_left _ _
    · exact le_trans (ih x hx) (le_max_right _ _)

/-- The key assigned to a new credit account is not in use. -/
theorem nextCreditAccountID_fresh (db : Store) : db.First db.nextCreditAccountID = none := by
  unfold Store.First
  rw [List.find?_eq_none]
  intro a ha
  have hle := le_foldr_max (db.creditAccounts.map (fun a => a.ID)) a.ID
    (List.mem_map_of_mem (fun a => a.ID) ha)
  have hne : a.ID ≠ db.nextCreditAccountID := by
    unfold Store.nextCreditAccountID
    omega
  simpa using hne

/-- C19 (the code at the failing input): user 11, the admin of establishment 7,
approves the Pending request 1 of client 5 on 2024-03-01.  The service returns
an error, and the store is as before: no credit account is added and the
request is still Pending without an approval time.  The repository method that
the service does not reach does create account 2 from the request and stores
the request as Approved when it is handed the request. -/
theorem ApproveCreditRequest_creates_no_account :
    (∃ out, ApproveCreditRequest none noFaults (Date 2024 3 1 0 0 0 0) 1 11 requestStore
        = .returned out ∧
      out.err ≠ none ∧
      out.store.creditAccounts = [sampleAccount] ∧
      out.store.creditRequests = [pendingRequest]) ∧
    pendingRequest.Status = entities.Pending ∧ pendingRequest.ApprovedAt = none ∧
    (requestStore.ApproveCreditRequest noFaults (Date 2024 3 1 0 0 0 0)
        { request := pendingRequest, Establishment := { ID := 7, LateFeeRuleID := 0 }
          Admin := some sampleAdmin }).store.creditAccounts
      = [sampleAccount,
        { ID := 2, EstablishmentID := 7, ClientID := 5, CreditLimit := 2000,
          MonthlyDueDate := 10, InterestRate := 12, InterestType := Nominal,
          CreditType := ShortTerm, GracePeriod := 1, IsBlocked := false,
          LastInterestAccrualDate := Date 2024 3 1 0 0 0 0, CurrentBalance := 0,
          LateFeeRuleID := 0 }] ∧
    (requestStore.ApproveCreditRequest noFaults (Date 2024 3 1 0 0 0 0)
        { request := pendingRequest, Establishment := { ID := 7, LateFeeRuleID := 0 }
          Admin := some sampleAdmin }).store.creditRequests
      = [{ pendingRequest with Status := entities.Approved
                               ApprovedAt := some (Date 2024 3 1 0 0 0 0) }] := by
  obtain ⟨msg, hm⟩ := ApproveCreditRequest_load_fails none noFaults (Date 2024 3 1 0 0 0 0) 1 11
    requestStore pendingRequest rfl (by decide)
  refine ⟨⟨_, hm, by simp, rfl, rfl⟩, rfl, rfl, ?_, ?_⟩
  · rw [Store.ApproveCreditRequest_ok _ _ _ _ rfl rfl]
    rfl
  · rw [Store.ApproveCreditRequest_ok _ _ _ _ rfl rfl]
    rfl

/-- C20 (the code at the failing input): a request body with interest rate 12
is accepted, yet the stored request has interest rate 0 (the other terms and
status Pending are as submitted), and the account that the repository approval
creates from the stored request has interest rate 0. -/
theorem CreateCreditRequest_drops_interest_rate :
    sampleRequestBody.InterestRate = 12 ∧
    (CreateCreditRequest none noFaults sampleRequestBody adminStore).err = none ∧
    (CreateCreditRequest none noFaults sampleRequestBody adminStore).store.creditRequests
      = [{ ID := 1, ClientID := 5, EstablishmentID := 7, RequestedCreditLimit := 2000,
           MonthlyDueDate := 10, InterestType := Nominal, InterestRate := 0,
           CreditType := ShortTerm, GracePeriod := 1, Status := entities.Pending,
           ApprovedAt := none, RejectedAt := none }] ∧
    ((CreateCreditRequest none noFaults sampleRequestBody adminStore).store.ApproveCreditRequest
        noFaults (Date 2024 3 1 0 0 0 0)
        { request :=
            { ID := 1, ClientID := 5, EstablishmentID := 7, RequestedCreditLimit := 2000,
              MonthlyDueDate := 10, InterestType := Nominal, InterestRate := 0,
              CreditType := ShortTerm, GracePeriod := 1, Status := entities.Pending,
              ApprovedAt := none, RejectedAt := none }
          Establishment := { ID := 7, LateFeeRuleID := 0 }
          Admin := some sampleAdmin }).store.creditAccounts
      = [sampleAccount,
        { ID := 2, EstablishmentID := 7, ClientID := 5, CreditLimit := 2000,
          MonthlyDueDate := 10, InterestRate := 0, InterestType := Nominal,
          CreditType := ShortTerm, GracePeriod := 1, IsBlocked := false,
          LastInterestAccrualDate := Date 2024 3 1 0 0 0 0, CurrentBalance := 0,
          LateFeeRuleID := 0 }] := by
  have hc : CreateCreditRequest none noFaults sampleRequestBody adminStore
      = { response := some (getCreditRequestResponse
            { ID := 1, ClientID := 5, EstablishmentID := 7, RequestedCreditLimit := 2000,
              MonthlyDueDate := 10, InterestType := Nominal, InterestRate := 0,
              CreditType := ShortTerm, GracePeriod := 1, Status := entities.Pending,
              ApprovedAt := none, RejectedAt := none })
          err := none
          store :=
            { adminStore with
              creditRequests :=
                [{ ID := 1, ClientID := 5, EstablishmentID := 7, RequestedCreditLimit := 2000,
                   MonthlyDueDate := 10, InterestType := Nominal, InterestRate := 0,
                   CreditType := ShortTerm, GracePeriod := 1, Status := entities.Pending,
                   ApprovedAt := none, RejectedAt := none }] } } := by
    rfl
  rw [hc]
  refine ⟨rfl, rfl, rfl, ?_⟩
  rw [Store.ApproveCreditRequest_ok _ _ _ _ rfl rfl]
  rfl

/-! ## Results of the workflow calls -/

/-- The repository approval never hands back an account. -/
theorem Store.ApproveCreditRequest_response (db : Store) (w : Faults) (now : Time)
    (cr : LoadedCreditRequest) : (db.ApproveCreditRequest w now cr).response = none := by
  unfold Store.ApproveCreditRequest
  simp only []
  split <;> rfl

/-- C21 (the code at the failing input): the repository ApproveCreditRequest is
handed the pending request of client 5 with limit 2000 (establishment 7, admin
user 11).  It returns no error and creates account 2 for client 5 at
establishment 7 with limit 2000 and balance 0, yet the returned response is
nil; and on every input the repository method returns a nil response. -/
theorem ApproveCreditRequest_returns_nil :
    (requestStore.ApproveCreditRequest noFaults (Date 2024 3 1 0 0 0 0)
        { request := pendingRequest, Establishment := { ID := 7, LateFeeRuleID := 0 }
          Admin := some sampleAdmin }).err = none ∧
    (requestStore.ApproveCreditRequest noFaults (Date 2024 3 1 0 0 0 0)
        { request := pendingRequest, Establishment := { ID := 7, LateFeeRuleID := 0 }
          Admin := some sampleAdmin }).response = none ∧
    (requestStore.ApproveCreditRequest noFaults (Date 2024 3 1 0 0 0 0)
        { request := pendingRequest, Establishment := { ID := 7, LateFeeRuleID := 0 }
          Admin := some sampleAdmin }).store.creditAccounts
      = [sampleAccount,
        { ID := 2, EstablishmentID := 7, ClientID := 5, CreditLimit := 2000,
          MonthlyDueDate := 10, InterestRate := 12, InterestType := Nominal,
          CreditType := ShortTerm, GracePeriod := 1, IsBlocked := false,
          LastInterestAccrualDate := Date 2024 3 1 0 0 0 0, CurrentBalance := 0,
          LateFeeRuleID := 0 }] ∧
    (∀ (db : Store) (w : Faults) (now : Time) (cr : LoadedCreditRequest),
      (db.ApproveCreditRequest w now cr).response = none) := by
  refine ⟨rfl, rfl, ?_, Store.ApproveCreditRequest_response⟩
  rw [Store.ApproveCreditRequest_ok _ _ _ _ rfl rfl]
  rfl

/-- C22 (the code at the failing input): user 11, the admin of establishment 7,
rejects the Pending request 1 on 2024-03-01.  RejectCreditRequest returns an
error and the store is as before: the request is still Pending and has no
rejection time. -/
theorem RejectCreditRequest_stores_nothing :
    (∃ out, RejectCreditRequest none noFaults (Date 2024 3 1 0 0 0 0) 1 11 requestStore
        = .returned out ∧
      out.err ≠ none ∧
      out.store.creditRequests = [pendingRequest] ∧
      out.store = requestStore) ∧
    pendingRequest.Status = entities.Pending ∧ pendingRequest.RejectedAt = none := by
  obtain ⟨msg, hm⟩ := RejectCreditRequest_load_fails none noFaults (Date 2024 3 1 0 0 0 0) 1 11
    requestStore pendingRequest rfl (by decide)
  exact ⟨⟨_, hm, by simp, rfl, rfl⟩, rfl, rfl⟩

/-- C30: the request workflow returns on stored requests.  For every stored
credit request that names an establishment (establishment key not 0, as the
request body requires), whether or not that establishment has an admin record,
and for every acting admin, clock reading and fault oracle,
ApproveCreditRequest and RejectCreditRequest each return, with an error and
the store as before; the call stops at the failed load of the request, before
the read of the admin's user ID. -/
theorem workflow_returns (readFault : Option String) (w : Faults) (now : Time)
    (id adminID : Nat) (db : Store) (r : CreditRequest)
    (hreq : db.creditRequests.find? (fun x => x.ID == id) = some r)
    (hest : r.EstablishmentID ≠ 0) :
    (∃ out, ApproveCreditRequest readFault w now id adminID db = .returned out ∧
      out.err ≠ none ∧ out.store = db) ∧
    (∃ out, RejectCreditRequest readFault w now id adminID db = .returned out ∧
      out.err ≠ none ∧ out.store = db) := by
  obtain ⟨m1, h1⟩ := ApproveCreditRequest_load_fails readFault w now id adminID db r hreq hest
  obtain ⟨m2, h2⟩ := RejectCreditRequest_load_fails readFault w now id adminID db r hreq hest
  exact ⟨⟨_, h1, by simp, rfl⟩, ⟨_, h2, by simp, rfl⟩⟩

/-- Witness of C30: request 1 of establishment 7 is stored and the
establishment has no admin record; both calls return an error and leave the
store as it was. -/
theorem workflow_returns_witness :
    adminlessStore.admins = [] ∧
    (∃ out, ApproveCreditRequest none noFaults (Date 2024 3 1 0 0 0 0) 1 11 adminlessStore
        = .returned out ∧ out.err ≠ none ∧ out.store = adminlessStore) ∧
    (∃ out, RejectCreditRequest none noFaults (Date 2024 3 1 0 0 0 0) 1 11 adminlessStore
        = .returned out ∧ out.err ≠ none ∧ out.store = adminlessStore) :=
  ⟨rfl, workflow_returns none noFaults (Date 2024 3 1 0 0 0 0) 1 11 adminlessStore
    pendingRequest rfl (by decide)⟩

/-! ## Updates through the repository -/

/-- The repository update of an existing account with a request that only
carries a balance: the stored balance is kept, the grace period becomes 0 and
the blocked flag false. -/
theorem CreditAccountRepository.Update_balance_only (db : Store) (id : Nat) (a : CreditAccount)
    (b : ℚ) (hfind : db.First id = some a) :
    CreditAccountRepository.Update db none none id { CurrentBalance := b }
      = .ok ({ a with GracePeriod := 0, IsBlocked := false },
          { db with creditAccounts := db.creditAccounts.map (fun x =>
              if x.ID == a.ID then { a with GracePeriod := 0, IsBlocked := false } else x) }) := by
  simp [CreditAccountRepository.Update, hfind, Store.SaveCreditAccount]

/-- C27 (the code at the failing input): the stored account 1 is blocked, has
a grace period of 2 days, balance 200 and pins rule 1.  The update with the
empty request succeeds and stores the account unblocked with grace period 0;
the update with a request that gives balance 300 and rule 4 (and repeats the
blocked flag and the grace period) succeeds and stores balance 200 and rule 1
as before. -/
theorem Update_overwrites_unprovided_fields :
    gracedStore.First 1 = some gracedAccount ∧
    gracedAccount.IsBlocked = true ∧ gracedAccount.GracePeriod = 2 ∧
    gracedAccount.CurrentBalance = 200 ∧ gracedAccount.LateFeeRuleID = 1 ∧
    CreditAccountRepository.Update gracedStore none none 1 {}
      = .ok (resetAccount, { gracedStore with creditAccounts := [resetAccount] }) ∧
    resetAccount.IsBlocked = false ∧ resetAccount.GracePeriod = 0 ∧
    CreditAccountRepository.Update gracedStore none none 1
        { CurrentBalance := 300, LateFeeRuleID := 4, IsBlocked := true, GracePeriod := 2 }
      = .ok (gracedAccount, gracedStore) := by
  refine ⟨rfl, rfl, rfl, rfl, rfl, ?_, rfl, rfl, ?_⟩
  · rw [CreditAccountRepository.Update_balance_only gracedStore 1 gracedAccount 0 rfl]
    rfl
  · simp [CreditAccountRepository.Update, Store.SaveCreditAccount, gracedStore, Store.First,
      gracedAccount, sampleAccount, sampleStore]

/-- A transaction of a known type recorded through the service on an existing
account, every query and write succeeding: the row is appended, and the account
is saved with the balance it had, grace period 0 and the blocked flag false. -/
theorem TransactionService.CreateTransaction_ok (q w : Faults) (now : Time)
    (req : request.CreateTransactionRequest) (db : Store) (a : CreditAccount)
    (hfind : db.First req.CreditAccountID = some a)
    (htype : (isCharge req.TransactionType || isCredit req.TransactionType) = true)
    (hq0 : q 0 = none) (hq1 : q 1 = none) (hw0 : w 0 = none) (hw1 : w 1 = none) :
    TransactionService.CreateTransaction q w now req db
      = { err := none
          store :=
            { db with
              transactions := db.transactions ++
                [{ CreditAccountID := req.CreditAccountID
                   RecipientType := req.RecipientType
                   RecipientID := req.RecipientID
                   TransactionType := req.TransactionType
                   Amount := req.Amount
                   Description := req.Description
                   TransactionDate := now }]
              creditAccounts := db.creditAccounts.map (fun x =>
                if x.ID == a.ID then { a with GracePeriod := 0, IsBlocked := false } else x) } } := by
  have hid : a.ID = req.CreditAccountID := First_ID hfind
  have hfind1 : ∀ l : List Transaction,
      Store.First { db with transactions := l } a.ID = some a := by
    intro l
    rw [hid]
    exact hfind
  unfold TransactionService.CreateTransaction
  simp only [CreditAccountRepository.GetByID, hq0, hfind, TransactionRepository.Create,
    Store.CreateTransaction, hw0, htype, if_true, hq1, hw1]
  by_cases hc : isCharge req.TransactionType = true
  · simp only [hc, if_true]
    rw [CreditAccountRepository.Update_balance_only _ a.ID a _ (hfind1 _)]
  · simp only [hc, Bool.false_eq_true, if_false]
    rw [CreditAccountRepository.Update_balance_only _ a.ID a _ (hfind1 _)]

/-- C26 (the code at the failing input): account 1 is stored with balance 200.
Recording a purchase of 100 through the transaction service succeeds and
appends the transaction row, and the stored account is as before, balance 200
(not 300); recording a payment of 50 succeeds likewise and the stored balance
is 200 (not 150). -/
theorem CreateTransaction_keeps_balance :
    sampleStore.First 1 = some sampleAccount ∧ sampleAccount.CurrentBalance = 200 ∧
    TransactionService.CreateTransaction noFaults noFaults (Date 2024 2 1 0 0 0 0)
        purchaseRequest sampleStore
      = { err := none
          store :=
            { sampleStore with
              transactions :=
                [{ CreditAccountID := 1, RecipientType := RolClient, RecipientID := 3,
                   TransactionType := Purchase, Amount := 100, Description := "",
                   TransactionDate := Date 2024 2 1 0 0 0 0 }] } } ∧
    TransactionService.CreateTransaction noFaults noFaults (Date 2024 2 1 0 0 0 0)
        paymentRequest sampleStore
      = { err := none
          store :=
            { sampleStore with
              transactions :=
                [{ CreditAccountID := 1, RecipientType := RolEstablishment, RecipientID := 7,
                   TransactionType := Payment, Amount := 50, Description := "",
                   TransactionDate := Date 2024 2 1 0 0 0 0 }] } } := by
  refine ⟨rfl, rfl, ?_, ?_⟩
  · rw [TransactionService.CreateTransaction_ok noFaults noFaults _ purchaseRequest sampleStore
      sampleAccount rfl (by decide) rfl rfl rfl rfl]
    rfl
  · rw [TransactionService.CreateTransaction_ok noFaults noFaults _ paymentRequest sampleStore
      sampleAccount rfl (by decide) rfl rfl rfl rfl]
    rfl

/-- C28 (the code at the failing input): account 1 is stored blocked with a
grace period of 2 days, and transaction 1 is a purchase of 50 on it.  Recording
a purchase of 100, changing the amount of transaction 1 to 80, and deleting
transaction 1 each succeed, and each leaves the stored account unblocked with
grace period 0 (credit limit, interest rate and balance as before). -/
theorem transaction_calls_reset_account :
    gracedStore.First 1 = some gracedAccount ∧
    gracedAccount.IsBlocked = true ∧ gracedAccount.GracePeriod = 2 ∧
    resetAccount.IsBlocked = false ∧ resetAccount.GracePeriod = 0 ∧
    resetAccount.CreditLimit = gracedAccount.CreditLimit ∧
    resetAccount.InterestRate = gracedAccount.InterestRate ∧
    resetAccount.CurrentBalance = gracedAccount.CurrentBalance ∧
    TransactionService.CreateTransaction noFaults noFaults (Date 2024 2 1 0 0 0 0)
        purchaseRequest gracedStore
      = { err := none
          store :=
            { gracedStore with
              creditAccounts := [resetAccount]
              transactions :=
                [recordedPurchase,
                 { CreditAccountID := 1, RecipientType := RolClient, RecipientID := 3,
                   TransactionType := Purchase, Amount := 100, Description := "",
                   TransactionDate := Date 2024 2 1 0 0 0 0 }] } } ∧
    TransactionService.UpdateTransaction noFaults noFaults 1
        { Amount := 80, TransactionType := Purchase } gracedStore
      = { err := none
          store :=
            { gracedStore with
              creditAccounts := [resetAccount]
              transactions := [{ recordedPurchase with Amount := 80 }] } } ∧
    TransactionService.DeleteTransaction noFaults noFaults 1 gracedStore
      = { err := none
          store := { gracedStore with creditAccounts := [resetAccount], transactions := [] } } := by
  refine ⟨rfl, rfl, rfl, rfl, rfl, rfl, rfl, rfl, ?_, ?_, ?_⟩
  · rw [TransactionService.CreateTransaction_ok noFaults noFaults _ purchaseRequest gracedStore
      gracedAccount rfl (by decide) rfl rfl rfl rfl]
    rfl
  · have hg : TransactionRepository.GetByID gracedStore none 1 = .ok recordedPurchase := rfl
    have ha : CreditAccountRepository.GetByID gracedStore none 1 = .ok gracedAccount := rfl
    have hu : TransactionRepository.Update gracedStore none none 1
        { Amount := 80, TransactionType := Purchase }
        = .ok { gracedStore with transactions := [{ recordedPurchase with Amount := 80 }] } := by
      simp [TransactionRepository.Update, hg]
      rfl
    have hc : isCharge recordedPurchase.TransactionType = true := by decide
    have hid : recordedPurchase.CreditAccountID = 1 := rfl
    simp only [TransactionService.UpdateTransaction, noFaults, hg, hid, ha, hu, hc, if_true]
    rw [CreditAccountRepository.Update_balance_only _ _ gracedAccount _ (by
      split <;> rfl)]
    rfl
  · have hg : TransactionRepository.GetByID gracedStore none 1 = .ok recordedPurchase := rfl
    have ha : CreditAccountRepository.GetByID gracedStore none 1 = .ok gracedAccount := rfl
    have hd : TransactionRepository.Delete gracedStore none none 1
        = .ok { gracedStore with transactions := [] } := by
      simp [TransactionRepository.Delete, hg]
      rfl
    have hc : isCharge recordedPurchase.TransactionType = true := by decide
    have hid : recordedPurchase.CreditAccountID = 1 := rfl
    simp only [TransactionService.DeleteTransaction, noFaults, hg, hid, ha, hd, hc, if_true,
      Bool.true_or]
    rw [CreditAccountRepository.Update_balance_only _ _ gracedAccount _ (by rfl)]
    rfl

/-- C25 (the code at the failing input): rule 1 is stored with days 1 to 30.
The request that gives only DaysOverdueMin = 45 passes the validation of its
fields, the update succeeds, and the rule is stored with days 45 to 30; the
request that gives only DaysOverdueMax = 1 passes too and the rule is stored
with days 1 to 1.  Neither stored rule has DaysOverdueMax above
DaysOverdueMin. -/
theorem LateFeeRule_update_breaks_window :
    sampleStore.lateFeeRules = [standardRule] ∧
    standardRule.DaysOverdueMin < standardRule.DaysOverdueMax ∧
    request.UpdateLateFeeRuleRequest.Valid { DaysOverdueMin := 45 } ∧
    LateFeeRuleRepository.Update sampleStore none none 1 { DaysOverdueMin := 45 }
      = .ok ({ standardRule with DaysOverdueMin := 45 },
          { sampleStore with lateFeeRules := [{ standardRule with DaysOverdueMin := 45 }] }) ∧
    ¬ (({ standardRule with DaysOverdueMin := 45 } : LateFeeRule).DaysOverdueMin
        < ({ standardRule with DaysOverdueMin := 45 } : LateFeeRule).DaysOverdueMax) ∧
    request.UpdateLateFeeRuleRequest.Valid { DaysOverdueMax := 1 } ∧
    LateFeeRuleRepository.Update sampleStore none none 1 { DaysOverdueMax := 1 }
      = .ok ({ standardRule with DaysOverdueMax := 1 },
          { sampleStore with lateFeeRules := [{ standardRule with DaysOverdueMax := 1 }] }) ∧
    ¬ (({ standardRule with DaysOverdueMax := 1 } : LateFeeRule).DaysOverdueMin
        < ({ standardRule with DaysOverdueMax := 1 } : LateFeeRule).DaysOverdueMax) := by
  refine ⟨rfl, by decide, ?_, ?_, by decide, ?_, ?_, by decide⟩
  · simp [request.UpdateLateFeeRuleRequest.Valid]
  · simp [LateFeeRuleRepository.Update, Store.SaveLateFeeRule, sampleStore, standardRule]
  · simp [request.UpdateLateFeeRuleRequest.Valid]
  · simp [LateFeeRuleRepository.Update, Store.SaveLateFeeRule, sampleStore, standardRule]

/-! ## Uniqueness of the account of a client at an establishment -/

/-- The existence query answers true when an account of the pair is stored. -/
theorem ExistsByClientAndEstablishment_true (db : Store) (c e : Nat)
    (h : ∃ a ∈ db.creditAccounts, a.ClientID = c ∧ a.EstablishmentID = e) :
    db.ExistsByClientAndEstablishment none c e = .ok true := by
  obtain ⟨a, ha, hc, he⟩ := h
  have hmem : a ∈ db.creditAccounts.filter
      (fun a => a.ClientID == c && a.EstablishmentID == e) := by
    rw [List.mem_filter]
    exact ⟨ha, by simp [hc, he]⟩
  have hpos : 0 < (db.creditAccounts.filter
      (fun a => a.ClientID == c && a.EstablishmentID == e)).length :=
    List.length_pos_of_mem hmem
  simp only [Store.ExistsByClientAndEstablishment]
  congr 1
  exact decide_eq_true hpos

/-- The existence query answers false when no account of the pair is stored. -/
theorem ExistsByClientAndEstablishment_false (db : Store) (c e : Nat)
    (h : ∀ a ∈ db.creditAccounts, ¬ (a.ClientID = c ∧ a.EstablishmentID = e)) :
    db.ExistsByClientAndEstablishment none c e = .ok false := by
  have hnil : db.creditAccounts.filter
      (fun a => a.ClientID == c && a.EstablishmentID == e) = [] := by
    rw [List.filter_eq_nil_iff]
    intro a ha
    have := h a ha
    simpa using this
  simp only [Store.ExistsByClientAndEstablishment, hnil]
  rfl

/-- The existence query never answers false when an account of the pair is
stored. -/
theorem ExistsByClientAndEstablishment_dup (db : Store) (fault : Option String) (c e : Nat)
    (h : ∃ a ∈ db.creditAccounts, a.ClientID = c ∧ a.EstablishmentID = e) :
    db.ExistsByClientAndEstablishment fault c e ≠ .ok false := by
  cases fault with
  | none =>
    rw [ExistsByClientAndEstablishment_true db c e h]
    intro hx
    cases hx
  | some msg =>
    intro hx
    simp [Store.ExistsByClientAndEstablishment] at hx

/-- C23: duplicate accounts are refused at creation.  On a store that holds a
credit account of the pair (client, establishment) of the request,
CreateCreditAccount and CreateCreditRequest each return an error and leave the
store (the accounts and the requests) unchanged, whatever the queries and
writes do.  When no account of the pair is stored, the client and the
establishment exist, and the queries and the write succeed,
CreateCreditAccount returns no error and appends exactly one account, under a
key that was not in use, with the terms of the request, balance 0 and not
blocked; no other table changes. -/
theorem duplicates_refused_at_creation (q w : Faults) (readFault : Option String) (now : Time)
    (req : request.CreateCreditAccountRequest) (rreq : request.CreateCreditRequest)
    (db : Store) :
    ((∃ a ∈ db.creditAccounts,
        a.ClientID = req.ClientID ∧ a.EstablishmentID = req.EstablishmentID) →
      (CreateCreditAccount q w now req db).err ≠ none ∧
      (CreateCreditAccount q w now req db).store = db) ∧
    ((∃ a ∈ db.creditAccounts,
        a.ClientID = rreq.ClientID ∧ a.EstablishmentID = rreq.EstablishmentID) →
      (CreateCreditRequest readFault w rreq db).err ≠ none ∧
      (CreateCreditRequest readFault w rreq db).store = db) ∧
    ((∀ a ∈ db.creditAccounts,
        ¬ (a.ClientID = req.ClientID ∧ a.EstablishmentID = req.EstablishmentID)) →
      (∃ c, db.clients.find? (fun c => c.ID == req.ClientID) = some c) →
      (∃ e, db.establishments.find? (fun e => e.ID == req.EstablishmentID) = some e) →
      q 0 = none → q 1 = none → q 2 = none → w 0 = none →
      (CreateCreditAccount q w now req db).err = none ∧
      (CreateCreditAccount q w now req db).store =
        { db with
          creditAccounts := db.creditAccounts ++
            [{ ID := db.nextCreditAccountID
               EstablishmentID := req.EstablishmentID
               ClientID := req.ClientID
               CreditLimit := req.CreditLimit
               MonthlyDueDate := req.MonthlyDueDate
               InterestRate := req.InterestRate
               InterestType := req.InterestType
               CreditType := req.CreditType
               GracePeriod := req.GracePeriod
               IsBlocked := false
               LastInterestAccrualDate := now
               CurrentBalance := 0
               LateFeeRuleID := req.LateFeeRuleID }] } ∧
      db.First db.nextCreditAccountID = none) := by
  refine ⟨fun hdup => ?_, fun hdup => ?_, fun hno hc he hq0 hq1 hq2 hw0 => ?_⟩
  · have hx := ExistsByClientAndEstablishment_dup db (q 2) _ _ hdup
    unfold CreateCreditAccount
    cases h1 : ClientRepository.GetClientByID db (q 0) req.ClientID with
    | error e => exact ⟨by simp, rfl⟩
    | ok c =>
      cases h2 : EstablishmentRepository.GetByID db (q 1) req.EstablishmentID with
      | error e => exact ⟨by simp, rfl⟩
      | ok e =>
        cases h3 : db.ExistsByClientAndEstablishment (q 2) req.ClientID req.EstablishmentID with
        | error e => exact ⟨by simp, rfl⟩
        | ok b =>
          cases b with
          | true => exact ⟨by simp, rfl⟩
          | false => exact absurd h3 hx
  · have hx := ExistsByClientAndEstablishment_dup db readFault _ _ hdup
    unfold CreateCreditRequest
    cases h3 : db.ExistsByClientAndEstablishment readFault rreq.ClientID rreq.EstablishmentID with
    | error e => exact ⟨by simp, rfl⟩
    | ok b =>
      cases b with
      | true => exact ⟨by simp, rfl⟩
      | false => exact absurd h3 hx
  · obtain ⟨c, hc⟩ := hc
    obtain ⟨e, he⟩ := he
    have h3 := ExistsByClientAndEstablishment_false db _ _ hno
    refine ⟨?_, ?_, nextCreditAccountID_fresh db⟩
    · simp [CreateCreditAccount, ClientRepository.GetClientByID, hq0, hc,
        EstablishmentRepository.GetByID, hq1, he, hq2, h3, Store.CreateCreditAccount, hw0]
    · simp [CreateCreditAccount, ClientRepository.GetClientByID, hq0, hc,
        EstablishmentRepository.GetByID, hq1, he, hq2, h3, Store.CreateCreditAccount, hw0]

/-- Witness of C23: the account of client 3 at establishment 7 is stored, so a
direct account and a request for that pair are refused; client 5 has no account
there and gets account 2 with balance 0, not blocked. -/
theorem duplicates_refused_at_creation_witness :
    ((CreateCreditAccount noFaults noFaults (Date 2024 3 1 0 0 0 0)
        { sampleAccountBody with ClientID := 3 } clientStore).err ≠ none ∧
      (CreateCreditAccount noFaults noFaults (Date 2024 3 1 0 0 0 0)
        { sampleAccountBody with ClientID := 3 } clientStore).store = clientStore) ∧
    ((CreateCreditRequest none noFaults { sampleRequestBody with ClientID := 3 }
        clientStore).err ≠ none ∧
      (CreateCreditRequest none noFaults { sampleRequestBody with ClientID := 3 }
        clientStore).store = clientStore) ∧
    (CreateCreditAccount noFaults noFaults (Date 2024 3 1 0 0 0 0) sampleAccountBody
        clientStore).err = none ∧
    (CreateCreditAccount noFaults noFaults (Date 2024 3 1 0 0 0 0) sampleAccountBody
        clientStore).store.creditAccounts = [sampleAccount,
      { ID := 2, EstablishmentID := 7, ClientID := 5, CreditLimit := 1500,
        MonthlyDueDate := 10, InterestRate := 12, InterestType := Nominal,
        CreditType := ShortTerm, GracePeriod := 0, IsBlocked := false,
        LastInterestAccrualDate := Date 2024 3 1 0 0 0 0, CurrentBalance := 0,
        LateFeeRuleID := 0 }] := by
  have h1 := (duplicates_refused_at_creation noFaults noFaults none (Date 2024 3 1 0 0 0 0)
    { sampleAccountBody with ClientID := 3 } { sampleRequestBody with ClientID := 3 }
    clientStore).1 ⟨sampleAccount, by simp [clientStore, adminStore, sampleStore], rfl, rfl⟩
  have h2 := (duplicates_refused_at_creation noFaults noFaults none (Date 2024 3 1 0 0 0 0)
    { sampleAccountBody with ClientID := 3 } { sampleRequestBody with ClientID := 3 }
    clientStore).2.1 ⟨sampleAccount, by simp [clientStore, adminStore, sampleStore], rfl, rfl⟩
  have h3 := (duplicates_refused_at_creation noFaults noFaults none (Date 2024 3 1 0 0 0 0)
    sampleAccountBody sampleRequestBody clientStore).2.2
    (by
      intro a ha
      have : a = sampleAccount := by simpa [clientStore, adminStore, sampleStore] using ha
      rw [this]
      decide)
    ⟨{ ID := 5, UserID := 22 }, rfl⟩ ⟨{ ID := 7, LateFeeRuleID := 0 }, rfl⟩ rfl rfl rfl rfl
  refine ⟨h1, h2, h3.1, ?_⟩
  rw [h3.2.1]
  rfl

/-- C24 (the code at the failing input): the admin store holds one account and
satisfies the invariant.  Client 5 asks twice for credit at establishment 7;
both requests are accepted and pending.  The repository ApproveCreditRequest,
handed request 1 and then request 2, succeeds both times, and the store then
holds accounts 2 and 3, both of client 5 at establishment 7.  Likewise, on a
store that satisfies the invariant, assigning the unassigned account 2 of
establishment 7 to client 3 succeeds and leaves two accounts of client 3 at
establishment 7. -/
theorem approvals_create_duplicate_accounts :
    adminStore.UniquePairs ∧
    (CreateCreditRequest none noFaults sampleRequestBody adminStore).err = none ∧
    (CreateCreditRequest none noFaults sampleRequestBody
      (CreateCreditRequest none noFaults sampleRequestBody adminStore).store).err = none ∧
    twoRequestStore.creditRequests = [pendingTerms 1, pendingTerms 2] ∧
    (twoRequestStore.ApproveCreditRequest noFaults (Date 2024 3 1 0 0 0 0)
      { request := pendingTerms 1, Establishment := { ID := 7, LateFeeRuleID := 0 }
        Admin := some sampleAdmin }).err = none ∧
    ((twoRequestStore.ApproveCreditRequest noFaults (Date 2024 3 1 0 0 0 0)
      { request := pendingTerms 1, Establishment := { ID := 7, LateFeeRuleID := 0 }
        Admin := some sampleAdmin }).store.ApproveCreditRequest noFaults
        (Date 2024 3 1 0 0 0 0)
      { request := pendingTerms 2, Establishment := { ID := 7, LateFeeRuleID := 0 }
        Admin := some sampleAdmin }).err = none ∧
    ((twoRequestStore.ApproveCreditRequest noFaults (Date 2024 3 1 0 0 0 0)
      { request := pendingTerms 1, Establishment := { ID := 7, LateFeeRuleID := 0 }
        Admin := some sampleAdmin }).store.ApproveCreditRequest noFaults
        (Date 2024 3 1 0 0 0 0)
      { request := pendingTerms 2, Establishment := { ID := 7, LateFeeRuleID := 0 }
        Admin := some sampleAdmin }).store.creditAccounts
      = [sampleAccount, approvedAccount 2, approvedAccount 3] ∧
    ¬ ((twoRequestStore.ApproveCreditRequest noFaults (Date 2024 3 1 0 0 0 0)
      { request := pendingTerms 1, Establishment := { ID := 7, LateFeeRuleID := 0 }
        Admin := some sampleAdmin }).store.ApproveCreditRequest noFaults
        (Date 2024 3 1 0 0 0 0)
      { request := pendingTerms 2, Establishment := { ID := 7, LateFeeRuleID := 0 }
        Admin := some sampleAdmin }).store.UniquePairs ∧
    unassignedStore.UniquePairs ∧
    (AssignCreditAccountToClient none noFaults 2 3 unassignedStore).err = none ∧
    (AssignCreditAccountToClient none noFaults 2 3 unassignedStore).store.creditAccounts
      = [sampleAccount, { unassignedAccount with ClientID := 3 }] ∧
    ¬ (AssignCreditAccountToClient none noFaults 2 3 unassignedStore).store.UniquePairs := by
  have hs : twoRequestStore
      = { adminStore with creditRequests := [pendingTerms 1, pendingTerms 2] } := by
    rfl
  have ha : (AssignCreditAccountToClient none noFaults 2 3 unassignedStore)
      = { response := some { unassignedAccount with ClientID := 3 }, err := none
          store := { unassignedStore with
            creditAccounts := [sampleAccount, { unassignedAccount with ClientID := 3 }] } } := by
    rfl
  have h1 := Store.ApproveCreditRequest_ok twoRequestStore noFaults (Date 2024 3 1 0 0 0 0)
    { request := pendingTerms 1, Establishment := { ID := 7, LateFeeRuleID := 0 }
      Admin := some sampleAdmin } rfl rfl
  rw [h1, Store.ApproveCreditRequest_ok _ noFaults _ _ rfl rfl]
  refine ⟨by decide, rfl, rfl, ?_, rfl, rfl, ?_, ?_, by decide, ?_, ?_, ?_⟩
  · rw [hs]
  · rw [hs]
    rfl
  · rw [hs]
    decide
  · rw [ha]
  · rw [ha]
  · rw [ha]
    decide

/-! ## The calendar -/

/-- The leap-year rule as a proposition. -/
theorem isLeap_iff (y : Int) :
    isLeap y = true ↔ (y % 4 = 0 ∧ (y % 100 ≠ 0 ∨ y % 400 = 0)) := by
  simp [isLeap]

/-- A year has 365 days, and one more when it is a leap year. -/
theorem daysSinceEpoch_succ (y : Int) :
    daysSinceEpoch (y + 1) = daysSinceEpoch y + 365 + (if isLeap y then 1 else 0) := by
  unfold daysSinceEpoch
  by_cases h : isLeap y = true
  · rw [if_pos h]
    rw [isLeap_iff] at h
    omega
  · rw [if_neg h]
    rw [isLeap_iff] at h
    omega

/-- The year of the cycle does not decrease from one day to the next. -/
theorem yearOfEra_step (x : Int) (h0 : 0 ≤ x) (h1 : x + 1 ≤ 146096) :
    yearOfEra x ≤ yearOfEra (x + 1) := by
  unfold yearOfEra
  apply Int.ediv_le_ediv (by norm_num)
  by_cases hx : x + 1 = 146096
  · have : x = 146095 := by omega
    subst this
    norm_num
  · omega

/-- A March-based year of the cycle has 365 days, and one more when the
next calendar year is a leap year. -/
theorem yearStart_succ (Y : Int) :
    yearStart (Y + 1) = yearStart Y + 365 +
      (if (Y + 1) % 4 = 0 ∧ ((Y + 1) % 100 ≠ 0 ∨ (Y + 1) % 400 = 0) then 1 else 0) := by
  unfold yearStart
  split_ifs with h <;> omega

set_option maxRecDepth 100000 in
/-- The year of the cycle is right on the first and on the last day of each of
the 400 years. -/
theorem yearOfEra_ends : ∀ k : Nat, k < 400 →
    yearOfEra (yearStart (k : Int)) = (k : Int) ∧
    yearOfEra (yearStart ((k : Int) + 1) - 1) = (k : Int) := by
  decide

/-- The year of the cycle does not decrease over any number of days. -/
theorem yearOfEra_mono_aux (x : Int) (h0 : 0 ≤ x) : ∀ n : Nat, x + (n : Int) ≤ 146096 →
    yearOfEra x ≤ yearOfEra (x + (n : Int)) := by
  intro n
  induction n with
  | zero => intro _; simp
  | succ n ih =>
    intro h1
    have hstep := yearOfEra_step (x + (n : Int)) (by omega) (by push_cast at h1; omega)
    have heq : x + ((n + 1 : Nat) : Int) = x + (n : Int) + 1 := by push_cast; ring
    rw [heq]
    exact le_trans (ih (by push_cast at h1; omega)) hstep

/-- The year of the cycle is monotone in the day of the cycle. -/
theorem yearOfEra_mono (x y : Int) (h0 : 0 ≤ x) (hxy : x ≤ y) (h1 : y ≤ 146096) :
    yearOfEra x ≤ yearOfEra y := by
  obtain ⟨n, hn⟩ := Int.le.dest hxy
  rw [← hn]
  exact yearOfEra_mono_aux x h0 n (by rw [hn]; exact h1)

/-- Every day before the start of year `K` of the cycle lies in one of the
years before it. -/
theorem yearStart_cover (K : Nat) : ∀ doe : Int, 0 ≤ doe → doe < yearStart (K : Int) →
    ∃ k : Nat, k < K ∧ yearStart (k : Int) ≤ doe ∧ doe < yearStart ((k : Int) + 1) := by
  induction K with
  | zero =>
    intro doe h0 h1
    simp [yearStart] at h1
    omega
  | succ n ih =>
    intro doe h0 h1
    by_cases h : doe < yearStart (n : Int)
    · obtain ⟨k, hk, hk1, hk2⟩ := ih doe h0 h
      exact ⟨k, by omega, hk1, hk2⟩
    · refine ⟨n, by omega, by omega, ?_⟩
      push_cast at h1
      exact h1

/-- The year of the cycle and the day of that year, for every day of the
cycle: the day of the year is at most 365, and 365 only before a leap year. -/
theorem yearOfEra_spec (doe : Int) (h0 : 0 ≤ doe) (h1 : doe ≤ 146096) :
    0 ≤ yearOfEra doe ∧ yearOfEra doe ≤ 399 ∧
    0 ≤ doe - (365 * yearOfEra doe + yearOfEra doe / 4 - yearOfEra doe / 100) ∧
    doe - (365 * yearOfEra doe + yearOfEra doe / 4 - yearOfEra doe / 100) ≤ 365 ∧
    (doe - (365 * yearOfEra doe + yearOfEra doe / 4 - yearOfEra doe / 100) = 365 →
      (yearOfEra doe + 1) % 4 = 0 ∧
        ((yearOfEra doe + 1) % 100 ≠ 0 ∨ (yearOfEra doe + 1) % 400 = 0)) := by
  have h400 : yearStart ((400 : Nat) : Int) = 146097 := by decide
  obtain ⟨k, hk, hk1, hk2⟩ := yearStart_cover 400 doe h0 (by rw [h400]; omega)
  obtain ⟨e1, e2⟩ := yearOfEra_ends k hk
  have hs0 : 0 ≤ yearStart (k : Int) := by unfold yearStart; omega
  have hs1 : yearStart ((k : Int) + 1) ≤ 146097 := by unfold yearStart; omega
  have hy : yearOfEra doe = (k : Int) := by
    apply le_antisymm
    · rw [← e2]
      exact yearOfEra_mono doe _ h0 (by omega) (by omega)
    · rw [← e1]
      exact yearOfEra_mono _ doe hs0 hk1 h1
  rw [hy]
  have hsucc := yearStart_succ (k : Int)
  have hst : yearStart (k : Int) = 365 * (k : Int) + (k : Int) / 4 - (k : Int) / 100 := by
    unfold yearStart; omega
  refine ⟨by omega, by omega, by omega, ?_, ?_⟩
  · split_ifs at hsucc <;> omega
  · intro h365
    split_ifs at hsucc with hl
    · exact hl
    · omega

/-- A month has 28 to 31 days. -/
theorem monthLength_pos (y m : Int) : 28 ≤ monthLength y m ∧ monthLength y m ≤ 31 := by
  unfold monthLength
  split_ifs <;> omega

/-- The next month starts after the length of this one. -/
theorem firstOfMonth_succ (M : Int) :
    firstOfMonth (M + 1) = firstOfMonth M + monthLength (M / 12) (M % 12 + 1) := by
  have hr0 : 0 ≤ M % 12 := Int.emod_nonneg _ (by norm_num)
  have hr1 : M % 12 < 12 := Int.emod_lt_of_pos _ (by norm_num)
  by_cases h11 : M % 12 = 11
  · have hq : (M + 1) / 12 = M / 12 + 1 := by omega
    have hr : (M + 1) % 12 = 0 := by omega
    unfold firstOfMonth
    rw [hq, hr, h11, daysSinceEpoch_succ]
    by_cases hl : isLeap (M / 12) = true
    · simp [hl, daysBefore, monthLength]
      omega
    · simp [hl, daysBefore, monthLength]
      omega
  · have hq : (M + 1) / 12 = M / 12 := by omega
    have hr : (M + 1) % 12 = M % 12 + 1 := by omega
    unfold firstOfMonth
    rw [hq, hr]
    generalize M % 12 = r at hr0 hr1 h11
    have hcases : r = 0 ∨ r = 1 ∨ r = 2 ∨ r = 3 ∨ r = 4 ∨ r = 5 ∨ r = 6 ∨ r = 7 ∨ r = 8 ∨
        r = 9 ∨ r = 10 := by omega
    by_cases hl : isLeap (M / 12) = true
    · rcases hcases with h | h | h | h | h | h | h | h | h | h | h <;> subst h <;>
        simp [hl, daysBefore, monthLength] <;> omega
    · rcases hcases with h | h | h | h | h | h | h | h | h | h | h <;> subst h <;>
        simp [hl, daysBefore, monthLength] <;> omega

/-- A later month does not start earlier. -/
theorem firstOfMonth_mono_aux (M : Int) : ∀ n : Nat,
    firstOfMonth M ≤ firstOfMonth (M + (n : Int)) := by
  intro n
  induction n with
  | zero => simp
  | succ n ih =>
    have heq : M + ((n + 1 : Nat) : Int) = M + (n : Int) + 1 := by push_cast; ring
    rw [heq, firstOfMonth_succ]
    have := (monthLength_pos ((M + (n : Int)) / 12) ((M + (n : Int)) % 12 + 1)).1
    omega

/-- The start of a month is monotone in the month index. -/
theorem firstOfMonth_mono (M N : Int) (h : M ≤ N) : firstOfMonth M ≤ firstOfMonth N := by
  obtain ⟨n, hn⟩ := Int.le.dest h
  rw [← hn]
  exact firstOfMonth_mono_aux M n

/-- A day of a month belongs to no other month. -/
theorem firstOfMonth_unique (M N d e : Int)
    (hd0 : 1 ≤ d) (hd1 : d ≤ monthLength (M / 12) (M % 12 + 1))
    (he0 : 1 ≤ e) (he1 : e ≤ monthLength (N / 12) (N % 12 + 1))
    (h : firstOfMonth M + (d - 1) = firstOfMonth N + (e - 1)) : M = N ∧ d = e := by
  have hM := firstOfMonth_succ M
  have hN := firstOfMonth_succ N
  have hMN : M = N := by
    by_contra hne
    rcases lt_or_gt_of_ne hne with hlt | hgt
    · have := firstOfMonth_mono (M + 1) N (by omega)
      omega
    · have := firstOfMonth_mono (N + 1) M (by omega)
      omega
  subst hMN
  exact ⟨rfl, by omega⟩

/-- The start of a month from its year and its month index in the year. -/
theorem firstOfMonth_eq (y r : Int) (h0 : 0 ≤ r) (h1 : r < 12) :
    firstOfMonth (12 * y + r) = daysSinceEpoch y + daysBefore r
      + (if isLeap y = true ∧ 2 ≤ r then 1 else 0) := by
  have hq : (12 * y + r) / 12 = y := by omega
  have hr : (12 * y + r) % 12 = r := by omega
  unfold firstOfMonth
  rw [hq, hr]
  simp

set_option maxRecDepth 100000 in
/-- Leap days counted up to a year of the cycle. -/
theorem leapCount_cycle : ∀ k : Nat, k < 400 →
    ((k : Int) - 1) / 4 - ((k : Int) - 1) / 100 + ((k : Int) - 1) / 400
      + (if (k : Int) % 4 = 0 ∧ ((k : Int) % 100 ≠ 0 ∨ (k : Int) % 400 = 0) then 1 else 0)
      = (k : Int) / 4 - (k : Int) / 100 := by
  decide

/-- March-based years: the day count of January 1st plus the leap day of a
year of the cycle. -/
theorem daysSinceEpoch_cycle (yoe era : Int) (h0 : 0 ≤ yoe) (h1 : yoe ≤ 399) :
    daysSinceEpoch (yoe + era * 400) + (if isLeap (yoe + era * 400) = true then 1 else 0)
      = 146097 * era + 365 * yoe + yoe / 4 - yoe / 100 - 719527 := by
  obtain ⟨k, hk⟩ := Int.eq_ofNat_of_zero_le h0
  have hlc := leapCount_cycle k (by omega)
  rw [← hk] at hlc
  have e4 : (yoe + era * 400 - 1) / 4 = 100 * era + (yoe - 1) / 4 := by omega
  have e100 : (yoe + era * 400 - 1) / 100 = 4 * era + (yoe - 1) / 100 := by omega
  have e400 : (yoe + era * 400 - 1) / 400 = era + (yoe - 1) / 400 := by omega
  have m4 : (yoe + era * 400) % 4 = yoe % 4 := by omega
  have m100 : (yoe + era * 400) % 100 = yoe % 100 := by omega
  have m400 : (yoe + era * 400) % 400 = yoe % 400 := by omega
  simp only [isLeap_iff, daysSinceEpoch, e4, e100, e400, m4, m100, m400]
  generalize (yoe - 1) / 4 = a at *
  generalize (yoe - 1) / 100 = b at *
  generalize (yoe - 1) / 400 = c at *
  generalize yoe / 4 = a1 at *
  generalize yoe / 100 = b1 at *
  split_ifs at hlc ⊢ <;> omega

/-- The day count of January 1st of the year after a year of the cycle. -/
theorem daysSinceEpoch_cycle_succ (yoe era : Int) (h0 : 0 ≤ yoe) (h1 : yoe ≤ 399) :
    daysSinceEpoch (yoe + era * 400 + 1)
      = 146097 * era + 365 * yoe + yoe / 4 - yoe / 100 - 719162 := by
  have e4 : (yoe + era * 400 + 1 - 1) / 4 = 100 * era + yoe / 4 := by omega
  have e100 : (yoe + era * 400 + 1 - 1) / 100 = 4 * era + yoe / 100 := by omega
  have e400 : (yoe + era * 400 + 1 - 1) / 400 = era := by omega
  simp only [daysSinceEpoch, e4, e100, e400]
  omega

/-- The leap-year rule of the year after a year of the cycle. -/
theorem isLeap_cycle_succ (yoe era : Int) :
    isLeap (yoe + era * 400 + 1) = true ↔
      ((yoe + 1) % 4 = 0 ∧ ((yoe + 1) % 100 ≠ 0 ∨ (yoe + 1) % 400 = 0)) := by
  rw [isLeap_iff]
  have m4 : (yoe + era * 400 + 1) % 4 = (yoe + 1) % 4 := by omega
  have m100 : (yoe + era * 400 + 1) % 100 = (yoe + 1) % 100 := by omega
  have m400 : (yoe + era * 400 + 1) % 400 = (yoe + 1) % 400 := by omega
  rw [m4, m100, m400]

/-- The civil date of a day count is a valid date of the calendar, and `Date`
maps it back to the day count. -/
theorem civilFromDays_spec (d : Int) :
    1 ≤ (civilFromDays d).2.1 ∧ (civilFromDays d).2.1 ≤ 12 ∧ 1 ≤ (civilFromDays d).2.2 ∧
    (civilFromDays d).2.2 ≤ monthLength (civilFromDays d).1 (civilFromDays d).2.1 ∧
    firstOfMonth (12 * (civilFromDays d).1 + ((civilFromDays d).2.1 - 1))
      + ((civilFromDays d).2.2 - 1) = d := by
  have hdoe0 : 0 ≤ d + 719468 - (d + 719468) / 146097 * 146097 := by omega
  have hdoe1 : d + 719468 - (d + 719468) / 146097 * 146097 ≤ 146096 := by omega
  obtain ⟨hy0, hy1, hd0, hd1, hleap⟩ := yearOfEra_spec _ hdoe0 hdoe1
  unfold yearOfEra at hy0 hy1 hd0 hd1 hleap
  simp only [civilFromDays]
  generalize hera : (d + 719468) / 146097 = era at *
  generalize hdoe : d + 719468 - era * 146097 = doe at *
  generalize hyoe : (doe - doe / 1460 + doe / 36524 - doe / 146096) / 365 = yoe at *
  generalize hdoy : doe - (365 * yoe + yoe / 4 - yoe / 100) = doy at *
  have hmp0 : 0 ≤ (5 * doy + 2) / 153 := by omega
  have hmp1 : (5 * doy + 2) / 153 ≤ 11 := by omega
  generalize hmp : (5 * doy + 2) / 153 = mp at *
  have hd : d = doy + (365 * yoe + yoe / 4 - yoe / 100) + era * 146097 - 719468 := by omega
  have hcyc := daysSinceEpoch_cycle yoe era hy0 hy1
  have hcyc1 := daysSinceEpoch_cycle_succ yoe era hy0 hy1
  have hl1 := isLeap_cycle_succ yoe era
  clear hyoe hdoe hera hdoe0 hdoe1 hdoy
  have hcases : mp = 0 ∨ mp = 1 ∨ mp = 2 ∨ mp = 3 ∨ mp = 4 ∨ mp = 5 ∨ mp = 6 ∨ mp = 7 ∨
      mp = 8 ∨ mp = 9 ∨ mp = 10 ∨ mp = 11 := by omega
  rcases hcases with h | h | h | h | h | h | h | h | h | h | h | h
  · subst h
    norm_num
    rw [firstOfMonth_eq (yoe + era * 400) 2 (by norm_num) (by norm_num)]
    by_cases hl : isLeap (yoe + era * 400) = true
    · simp [hl, daysBefore, monthLength] at hcyc ⊢
      omega
    · simp [hl, daysBefore, monthLength] at hcyc ⊢
      omega
  · subst h
    norm_num
    rw [firstOfMonth_eq (yoe + era * 400) 3 (by norm_num) (by norm_num)]
    by_cases hl : isLeap (yoe + era * 400) = true
    · simp [hl, daysBefore, monthLength] at hcyc ⊢
      omega
    · simp [hl, daysBefore, monthLength] at hcyc ⊢
      omega
  · subst h
    norm_num
    rw [firstOfMonth_eq (yoe + era * 400) 4 (by norm_num) (by norm_num)]
    by_cases hl : isLeap (yoe + era * 400) = true
    · simp [hl, daysBefore, monthLength] at hcyc ⊢
      omega
    · simp [hl, daysBefore, monthLength] at hcyc ⊢
      omega
  · subst h
    norm_num
    rw [firstOfMonth_eq (yoe + era * 400) 5 (by norm_num) (by norm_num)]
    by_cases hl : isLeap (yoe + era * 400) = true
    · simp [hl, daysBefore, monthLength] at hcyc ⊢
      omega
    · simp [hl, daysBefore, monthLength] at hcyc ⊢
      omega
  · subst h
    norm_num
    rw [firstOfMonth_eq (yoe + era * 400) 6 (by norm_num) (by norm_num)]
    by_cases hl : isLeap (yoe + era * 400) = true
    · simp [hl, daysBefore, monthLength] at hcyc ⊢
      omega
    · simp [hl, daysBefore, monthLength] at hcyc ⊢
      omega
  · subst h
    norm_num
    rw [firstOfMonth_eq (yoe + era * 400) 7 (by norm_num) (by norm_num)]
    by_cases hl : isLeap (yoe + era * 400) = true
    · simp [hl, daysBefore, monthLength] at hcyc ⊢
      omega
    · simp [hl, daysBefore, monthLength] at hcyc ⊢
      omega
  · subst h
    norm_num
    rw [firstOfMonth_eq (yoe + era * 400) 8 (by norm_num) (by norm_num)]
    by_cases hl : isLeap (yoe + era * 400) = true
    · simp [hl, daysBefore, monthLength] at hcyc ⊢
      omega
    · simp [hl, daysBefore, monthLength] at hcyc ⊢
      omega
  · subst h
    norm_num
    rw [firstOfMonth_eq (yoe + era * 400) 9 (by norm_num) (by norm_num)]
    by_cases hl : isLeap (yoe + era * 400) = true
    · simp [hl, daysBefore, monthLength] at hcyc ⊢
      omega
    · simp [hl, daysBefore, monthLength] at hcyc ⊢
      omega
  · subst h
    norm_num
    rw [firstOfMonth_eq (yoe + era * 400) 10 (by norm_num) (by norm_num)]
    by_cases hl : isLeap (yoe + era * 400) = true
    · simp [hl, daysBefore, monthLength] at hcyc ⊢
      omega
    · simp [hl, daysBefore, monthLength] at hcyc ⊢
      omega
  · subst h
    norm_num
    rw [firstOfMonth_eq (yoe + era * 400) 11 (by norm_num) (by norm_num)]
    by_cases hl : isLeap (yoe + era * 400) = true
    · simp [hl, daysBefore, monthLength] at hcyc ⊢
      omega
    · simp [hl, daysBefore, monthLength] at hcyc ⊢
      omega
  · subst h
    norm_num
    have hf := firstOfMonth_eq (yoe + era * 400 + 1) 0 (by norm_num) (by norm_num)
    simp only [add_zero] at hf
    rw [hf]
    simp [daysBefore, monthLength]
    omega
  · subst h
    norm_num
    rw [firstOfMonth_eq (yoe + era * 400 + 1) 1 (by norm_num) (by norm_num)]
    by_cases hl : isLeap (yoe + era * 400 + 1) = true
    · simp [hl, daysBefore, monthLength]
      omega
    · have hnl := mt hl1.mpr hl
      simp [hl, daysBefore, monthLength]
      omega

/-- The civil date of a day of a month. -/
theorem civilFromDays_firstOfMonth (M d : Int) (hd0 : 1 ≤ d)
    (hd1 : d ≤ monthLength (M / 12) (M % 12 + 1)) :
    civilFromDays (firstOfMonth M + (d - 1)) = (M / 12, M % 12 + 1, d) := by
  obtain ⟨h1, h2, h3, h4, h5⟩ := civilFromDays_spec (firstOfMonth M + (d - 1))
  generalize civilFromDays (firstOfMonth M + (d - 1)) = c at *
  obtain ⟨y, m, e⟩ := c
  simp only at h1 h2 h3 h4 h5
  have hq : (12 * y + (m - 1)) / 12 = y := by omega
  have hr : (12 * y + (m - 1)) % 12 + 1 = m := by omega
  obtain ⟨hM, he⟩ := firstOfMonth_unique (12 * y + (m - 1)) M e d h3
    (by rw [hq, hr]; exact h4) hd0 hd1 h5
  rw [← hM, hq, hr, he]

/-- The instant `Date` computes, through the first day of the month. -/
theorem Date_eq (y m d n : Int) :
    Date y m d 0 0 0 n = (firstOfMonth (12 * y + (m - 1)) + (d - 1)) * nsPerDay + n := by
  have hq : (12 * y + (m - 1)) / 12 = y + (m - 1) / 12 := by omega
  have hr : (12 * y + (m - 1)) % 12 = (m - 1) % 12 := by omega
  unfold Date firstOfMonth
  rw [hq, hr]
  simp

/-- Day zero of the next month is the last day of a month. -/
theorem Day_lastOfMonth (y m : Int) (h1 : 1 ≤ m) (h2 : m ≤ 12) :
    Day (Date y (m + 1) 0 0 0 0 0) = monthLength y m := by
  have hq : (12 * y + (m - 1)) / 12 = y := by omega
  have hr : (12 * y + (m - 1)) % 12 + 1 = m := by omega
  have hs := firstOfMonth_succ (12 * y + (m - 1))
  rw [hq, hr] at hs
  have hlen := monthLength_pos y m
  have hdate : Date y (m + 1) 0 0 0 0 0
      = (firstOfMonth (12 * y + (m - 1)) + (monthLength y m - 1)) * nsPerDay := by
    rw [Date_eq]
    have : 12 * y + (m + 1 - 1) = 12 * y + (m - 1) + 1 := by ring
    rw [this, hs]
    ring
  unfold Day
  rw [hdate, Int.mul_ediv_cancel _ (by decide : nsPerDay ≠ 0),
    civilFromDays_firstOfMonth _ _ (by omega) (by rw [hq, hr])]

/-- Adding one month adds the length of the month of the instant. -/
theorem AddDate_month (L : Time) :
    AddDate L 0 1 0 = L + monthLength (Year L) (Month L) * nsPerDay := by
  obtain ⟨h1, h2, h3, h4, h5⟩ := civilFromDays_spec (L / nsPerDay)
  unfold AddDate Year Month Day
  generalize civilFromDays (L / nsPerDay) = c at *
  obtain ⟨y, m, e⟩ := c
  simp only at h1 h2 h3 h4 h5 ⊢
  have hq : (12 * y + (m - 1)) / 12 = y := by omega
  have hr : (12 * y + (m - 1)) % 12 + 1 = m := by omega
  have hs := firstOfMonth_succ (12 * y + (m - 1))
  rw [hq, hr] at hs
  rw [Date_eq]
  have : 12 * (y + 0) + (m + 1 - 1) = 12 * y + (m - 1) + 1 := by ring
  rw [this, hs]
  have hL := Int.ediv_add_emod L nsPerDay
  have : (firstOfMonth (12 * y + (m - 1)) + monthLength y m + (e + 0 - 1)) * nsPerDay
      = nsPerDay * (L / nsPerDay) + monthLength y m * nsPerDay := by
    rw [← h5]
    ring
  rw [this]
  linarith

/-- The month of an instant lies between 1 and 12. -/
theorem Month_range (L : Time) : 1 ≤ Month L ∧ Month L ≤ 12 := by
  obtain ⟨h1, h2, _⟩ := civilFromDays_spec (L / nsPerDay)
  exact ⟨h1, h2⟩

/-- C29: the two tests for a full month agree.  For every last-accrual instant
L and clock reading now (UTC), now is not before L.AddDate(0, 1, 0) if and
only if the elapsed time now - L in days, as an exact fraction, is at least
daysInMonth(month of L, year of L); and that value is the length of the month
of L in the Gregorian calendar, 28 to 31 days with 29 for February of a leap
year, for every month 1 to 12 and every day of the month. -/
theorem month_tests_agree (L now : Time) :
    (Before now (AddDate L 0 1 0) = false
      ↔ durationDays (Sub now L) ≥ daysInMonth (Month L) (Year L)) ∧
    daysInMonth (Month L) (Year L) = ((monthLength (Year L) (Month L) : Int) : ℚ) ∧
    1 ≤ Month L ∧ Month L ≤ 12 ∧
    28 ≤ monthLength (Year L) (Month L) ∧ monthLength (Year L) (Month L) ≤ 31 := by
  obtain ⟨hm1, hm2⟩ := Month_range L
  have hdim : daysInMonth (Month L) (Year L) = ((monthLength (Year L) (Month L) : Int) : ℚ) := by
    unfold daysInMonth
    rw [Day_lastOfMonth _ _ hm1 hm2]
  refine ⟨?_, hdim, hm1, hm2, monthLength_pos _ _⟩
  rw [hdim, AddDate_month]
  generalize monthLength (Year L) (Month L) = len
  unfold Before durationDays Sub
  rw [decide_eq_false_iff_not, not_lt, ge_iff_le]
  have hns : ((nsPerHour : Int) : ℚ) = 3600000000000 := by norm_num [nsPerHour]
  rw [hns, div_div, le_div_iff₀ (by norm_num)]
  have : ((len : ℚ) * (3600000000000 * 24) ≤ ((now - L : Int) : ℚ))
      ↔ (len * nsPerDay ≤ now - L) := by
    have hc : ((len * nsPerDay : Int) : ℚ) = (len : ℚ) * (3600000000000 * 24) := by
      push_cast
      norm_num [nsPerDay]
    rw [← hc]
    exact Int.cast_le
  rw [this]
  constructor <;> intro h <;> linarith

end ApiRestFinance
